import Mathlib

/-!
Plugin-contact subsystem of the managers service.

A shallow embedding of `svc-managers/mgrcommon/common.go` (token cache, plugin
session manager, contact protocol, retry coordinator) and of the part of
`svc-managers/managers/managers.go` that drives it, followed by the theorems
on the properties the specification states for them.

Conventions of the embedding

* A Go `string` / `[]byte` holding text is a Lean `String` (valid UTF-8 text,
  one `Char` per rune).  A `[]byte` result that may be `nil` is an
  `Option String`.
* A Go `error` is an `Option String`: `none` is `nil`, `some m` is an error
  whose `Error()` text is `m`.
* A Go `map[string]string` that is only read through `m[k]` is a function
  `String → Option String`; a map that is iterated with `range` is the list of
  its entries in the order the loop visits them.
* The transport function, the health probe and the data store are external
  collaborators: they act on an abstract world `σ`.  Every transport call and
  every health probe is recorded in a log carried by the system state, so that
  "how often" and "with which arguments" are statements about the logs.
* Logging (`log.Println`) is not modelled.
-/

set_option autoImplicit false

/-! ## Library functions of Go used by the source -/

namespace strings

/-- Left-to-right scan behind `strings.Replace(s, old, new, -1)` for a non-empty
`old`: the counter is the number of characters of the current match that are
still to be skipped; at counter `0` a match of `old` at the current position is
replaced by `new`, otherwise the character is copied. -/
def replaceFrom (old new : List Char) : Nat → List Char → List Char
  | _, [] => []
  | k + 1, _ :: cs => replaceFrom old new k cs
  | 0, c :: cs =>
    if old.isPrefixOf (c :: cs) then new ++ replaceFrom old new (old.length - 1) cs
    else c :: replaceFrom old new 0 cs

/-- The case of an empty `old` in `strings.Replace(s, "", new, -1)`: `new` is
written after every rune (and once in front, see `Replace`). -/
def insertAfterEach (new : List Char) : List Char → List Char
  | [] => []
  | c :: cs => c :: (new ++ insertAfterEach new cs)

/-- Go `strings.Replace(s, old, new, -1)`, the only form the source uses:
every non-overlapping occurrence of `old`, found left to right, is replaced by
`new`; `s` is returned as is when `old == new`; an empty `old` matches in front
of the string and after every rune. -/
def Replace (s old new : String) : String :=
  if old = new then s
  else if old.data = [] then ⟨new.data ++ insertAfterEach new.data s.data⟩
  else ⟨replaceFrom old.data new.data 0 s.data⟩

/-- The representative of the case-folding orbit of a rune, for the orbits that
contain an ASCII letter: upper-case ASCII letters, and the two non-ASCII runes
that fold to an ASCII letter (U+017F LATIN SMALL LETTER LONG S and U+212A
KELVIN SIGN), go to the lower-case ASCII letter; every other rune is kept. -/
def foldRune (c : Char) : Char :=
  if c.val = 0x17F then 's'
  else if c.val = 0x212A then 'k'
  else if c.isUpper then c.toLower
  else c

/-- Go `strings.EqualFold(s, t)`: equality under simple Unicode case folding.
The model is exact whenever one of the two strings is ASCII, which is the case
at every call in the source (the second argument is always an ASCII literal). -/
def EqualFold (s t : String) : Bool :=
  s.data.map foldRune == t.data.map foldRune

/-- The string `old` occurs in `s` as a substring. -/
def Contains (s old : String) : Prop := old.data <:+: s.data

instance (s old : String) : Decidable (Contains s old) := by
  unfold Contains; infer_instance

end strings

namespace fmt

/-- Go `parsenum` of package `fmt`: read a decimal number at the head of the
text; the result says whether a digit was read and gives the text after the
number.  When the number read so far exceeds 10^6 the scan gives up: no number,
and the position moves to the end of the text. -/
def parsenum : Nat → Bool → List Char → Bool × List Char
  | _, isnum, [] => (isnum, [])
  | num, isnum, c :: cs =>
    if c.isDigit then
      if num > 1000000 then (false, [])
      else parsenum (num * 10 + (c.toNat - 48)) true cs
    else (isnum, c :: cs)

/-- Go `parseArgNumber` on a text that starts with an opening bracket: the
number of characters the bracketed index takes, and whether it is well formed
(`[n]` with a decimal `n`). -/
def parseArgNumber (l : List Char) : Nat × Bool :=
  if l.length < 3 then (1, false)
  else
    let inner := l.tail.takeWhile (fun c => c != ']')
    if inner.length = l.tail.length then (1, false)
    else
      let n := parsenum 0 false inner
      (inner.length + 2, n.1 && n.2.isEmpty)

/-- Go `argNumber` when the call has no operands: the text after an explicit
argument index, whether a well-formed index was found, and whether the
argument number is still good (no index can be in range, so any index makes it
bad). -/
def argNumber (l : List Char) : List Char × Bool × Bool :=
  if l.head? = some '[' then (l.drop (parseArgNumber l).1, (parseArgNumber l).2, false)
  else (l, false, true)

/-- The flag characters of a verb. -/
def isFlag (c : Char) : Bool :=
  c == '#' || c == '0' || c == '+' || c == '-' || c == ' '

/-- The width part of a verb, after the flags and the first argument index
`a = (text, afterIndex, good)`: the output written, the text after the width,
and the updated `afterIndex` and `good`. -/
def width (a : List Char × Bool × Bool) : List Char × List Char × Bool × Bool :=
  if a.1.head? = some '*' then ("%!(BADWIDTH)".data, a.1.tail, false, a.2.2)
  else
    ([], (parsenum 0 false a.1).2, a.2.1, a.2.2 && !(a.2.1 && (parsenum 0 false a.1).1))

/-- The precision part of a verb, after the width part `w`.  A dot starts a
precision only when a character follows it (`i+1 < end`); a dot that ends the
format is left to be read as the verb. -/
def precision (w : List Char × List Char × Bool × Bool) :
    List Char × List Char × Bool × Bool :=
  if w.2.1.head? = some '.' ∧ 1 < w.2.1.length then
    let a := argNumber w.2.1.tail
    let good := (w.2.2.2 && !w.2.2.1) && a.2.2
    if a.1.head? = some '*' then (w.1 ++ "%!(BADPREC)".data, a.1.tail, false, good)
    else (w.1, (parsenum 0 false a.1).2, a.2.1, good)
  else w

/-- One verb of `doPrintf` when the call has no operands, on the text after the
percent sign: what is written for it, and the text after the verb.  A doubled
percent sign writes one percent sign; a verb with a bad index writes
`%!v(BADINDEX)`, any other verb `%!v(MISSING)`; a format that ends inside the
verb writes `%!(NOVERB)`. -/
def verb (cs : List Char) : List Char × List Char :=
  let p := precision (width (argNumber (cs.dropWhile isFlag)))
  let a := if p.2.2.1 then (p.2.1, true, true) else argNumber p.2.1
  let good := p.2.2.2 && a.2.2
  match a.1 with
  | [] => (p.1 ++ "%!(NOVERB)".data, [])
  | v :: rest =>
    if v = '%' then (p.1 ++ ['%'], rest)
    else if good then (p.1 ++ "%!".data ++ [v] ++ "(MISSING)".data, rest)
    else (p.1 ++ "%!".data ++ [v] ++ "(BADINDEX)".data, rest)

/-- The loop of `doPrintf` when the call has no operands; the counter is the
number of characters of the current verb that are still to be skipped.  Text
up to a percent sign is copied. -/
def sprintfFrom : Nat → List Char → List Char
  | _, [] => []
  | k + 1, _ :: cs => sprintfFrom k cs
  | 0, c :: cs =>
    if c = '%' then (verb cs).1 ++ sprintfFrom (cs.length - (verb cs).2.length) cs
    else c :: sprintfFrom 0 cs

/-- Go `fmt.Sprintf(format)` with no operands. -/
def Sprintf (format : String) : String := ⟨sprintfFrom 0 format.data⟩

/-- Go `fmt.Errorf(format)` with no operands: an error whose text is
`fmt.Sprintf(format)`. -/
def Errorf (format : String) : Option String := some (Sprintf format)

end fmt

/-- Go conversion `int32(x)` of an `int`: the value modulo `2^32`, read as a
signed 32-bit number. -/
def int32 (x : Int) : Int := (x + 2 ^ 31) % 2 ^ 32 - 2 ^ 31

namespace http

def StatusOK : Int := 200
def StatusCreated : Int := 201
def StatusUnauthorized : Int := 401
def StatusInternalServerError : Int := 500
def MethodGet : String := "GET"
def MethodPost : String := "POST"

/-- The part of `*http.Response` the source reads: the status code, the header
(as the list of its canonical keys with their values), and the result of
reading the body to its end with `ioutil.ReadAll`: the bytes, or the error. -/
structure Response where
  StatusCode : Int
  Header : List (String × List String)
  Body : Except String String

/-- Go `Header.Get(key)` for a key that is already in canonical form (as
"X-Auth-Token" is): the first value stored under the key, or "". -/
def HeaderGet (h : List (String × List String)) (key : String) : String :=
  match h.lookup key with
  | some (v :: _) => v
  | _ => ""

end http

/-! ## Data model -/

namespace mgrmodel

/-- Modelled from the spec: the declaration of `mgrmodel.Plugin` is not among
the sources.  A plugin has an identifier, a network address (IP, port),
credentials (username, password) and a preferred authentication scheme; these
are the fields the source reads. -/
structure Plugin where
  IP : String
  Port : String
  Username : String
  Password : String
  ID : String
  PreferredAuthType : String
  deriving DecidableEq, Repr

/-- Modelled from the spec: the declaration of the device record returned by
`mgrmodel.GetTarget` is not among the sources; these are the fields the source
reads. -/
structure DeviceTarget where
  ManagerAddress : String
  Password : String
  UserName : String
  PluginID : String
  deriving DecidableEq, Repr

end mgrmodel

namespace common

/-- The record `getPluginStatus` hands to the health probe
(`common.PluginStatus`), with the fields the source sets. -/
structure PluginStatus where
  Method : String
  RequestBodyComment : String
  ResponseWaitTime : Int
  Count : Int
  RetryInterval : Int
  PluginIP : String
  PluginPort : String
  PluginUsername : String
  PluginUserPassword : String
  PluginPrefferedAuthType : String
  CACertificate : String
  deriving DecidableEq, Repr

end common

namespace mgrcommon

/-- The six arguments of one call of the transport function `ContactClient`:
`(url, method, token, odataID, body, basicAuth)`.  The body (`interface{}`) and
the basic-auth map are `none` when `nil`, else the entries of the map. -/
structure ClientCall where
  url : String
  method : String
  token : String
  odataID : String
  body : Option (List (String × String))
  basicAuth : Option (List (String × String))
  deriving DecidableEq, Repr

/-- The type of the transport function: given the arguments and the world, an
HTTP response or an error, and the world after the call. -/
abbrev Client (σ : Type) := ClientCall → σ → Except String http.Response × σ

/-- Go type `PluginContactRequest`: the request of a plugin contact. -/
structure PluginContactRequest (σ : Type) where
  Token : String
  OID : String
  DeviceInfo : Option (List (String × String))
  BasicAuth : Option (List (String × String))
  ContactClient : Client σ
  Plugin : mgrmodel.Plugin
  HTTPMethodType : String

/-- Go type `ResponseStatus`: the status part of a contact outcome (`StatusCode` is an
`int32`). -/
structure ResponseStatus where
  StatusCode : Int
  StatusMessage : String
  deriving DecidableEq, Repr

/-- Go type `ResourceInfoRequest`: the request of getting a resource. -/
structure ResourceInfoRequest (σ : Type) where
  URL : String
  UUID : String
  SystemID : String
  ContactClient : Client σ
  DecryptDevicePassword : String → Except String String

/-- Go type `PluginToken`: the token cache, a map from plugin id to token.  The mutex is
not modelled: every operation below is one atomic step on the map.  The map is
an allocated one (the service allocates it at start-up, as `StoreToken`
requires). -/
structure PluginToken where
  Tokens : String → Option String

/-- The cache that holds no token. -/
def PluginToken.empty : PluginToken := ⟨fun _ => none⟩

/-- Go function `StoreToken`: `p.Tokens[plguinID] = token`. -/
def PluginToken.StoreToken (p : PluginToken) (plguinID token : String) : PluginToken :=
  ⟨fun k => if k = plguinID then some token else p.Tokens k⟩

/-- Go function `GetToken`: `p.Tokens[pluginID]`, the zero value "" when the key is absent. -/
def PluginToken.GetToken (p : PluginToken) (pluginID : String) : String :=
  (p.Tokens pluginID).getD ""

/-- The cache after a sequence of `StoreToken` calls, given as the list of their
arguments `(pluginID, token)`, oldest first. -/
def PluginToken.storeAll (p : PluginToken) (stores : List (String × String)) : PluginToken :=
  stores.foldl (fun c kv => c.StoreToken kv.1 kv.2) p

/-- The four results `(body, token, status, err)` of `ContactPlugin` and of
`RetryManagersOperation`. -/
structure Outcome where
  body : Option String
  token : String
  status : ResponseStatus
  err : Option String
  deriving DecidableEq, Repr

/-- Configuration (`config.Data`) read by the source.  The two translation
tables are the entries of the configured maps in the order a `range` loop
visits them. -/
structure Config where
  SouthBoundURL : List (String × String)
  NorthBoundURL : List (String × String)
  ResponseTimeoutInSecs : Int
  MaxRetryAttempt : Int
  RetryIntervalInMins : Int
  RootCACertificate : String

/-- What the source takes from outside `src/`: the configuration, constants of
the utility libraries, the health probe `PluginStatus.CheckStatus` (its status
and its error), the data-store lookups, and the JSON encoding of the body of
`common.GeneralError`. -/
structure Env (σ : Type) where
  cfg : Config
  InternalError : String
  NoValidSession : String
  CheckStatus : common.PluginStatus → σ → (Bool × Option String) × σ
  GetTarget : String → σ → Except String mgrmodel.DeviceTarget
  GetPluginData : String → σ → Except String mgrmodel.Plugin
  MarshalGeneralError : String → String → Option String

/-- The state the functions act on: the process-wide token cache `Token`, the
world of the external collaborators, and the logs of the transport calls and of
the health probes made so far (oldest first). -/
structure System (σ : Type) where
  Token : PluginToken
  world : σ
  calls : List ClientCall
  probes : List common.PluginStatus

end mgrcommon

/-! ## Operations of `mgrcommon/common.go` -/

namespace mgrcommon

variable {σ : Type}

/-- One invocation of the transport function `req.ContactClient(...)`: the call
is appended to the log and the world moves on as the transport says. -/
def invoke (client : Client σ) (c : ClientCall) (s : System σ) :
    Except String http.Response × System σ :=
  ((client c s.world).1, { s with world := (client c s.world).2, calls := s.calls ++ [c] })

/-- The loop of `callPlugin` over the south-bound table:
`var oid string; for key, value := range SouthBoundURL { oid = strings.Replace(req.OID, key, value, -1) }`.
Every round rewrites `req.OID` itself, so `oid` ends as the rewrite by the entry
visited last, and as the zero value "" when the table has no entry. -/
def southBoundOID (table : List (String × String)) (OID : String) : String :=
  table.foldl (fun _ kv => strings.Replace OID kv.1 kv.2) ""

/-- Go function `callPlugin`: rewrite the OID, build the endpoint, choose the credentials
and invoke the transport. -/
def callPlugin (env : Env σ) (req : PluginContactRequest σ) (s : System σ) :
    Except String http.Response × System σ :=
  let oid := southBoundOID env.cfg.SouthBoundURL req.OID
  let reqURL := "https://" ++ req.Plugin.IP ++ ":" ++ req.Plugin.Port ++ oid
  if strings.EqualFold req.Plugin.PreferredAuthType "BasicAuth" then
    invoke req.ContactClient
      ⟨reqURL, req.HTTPMethodType, "", oid, req.DeviceInfo, req.BasicAuth⟩ s
  else
    invoke req.ContactClient
      ⟨reqURL, req.HTTPMethodType, req.Token, oid, req.DeviceInfo, none⟩ s

/-- The record `getPluginStatus` builds for the probe. -/
def pluginStatusOf (env : Env σ) (plugin : mgrmodel.Plugin) : common.PluginStatus :=
  { Method := http.MethodGet
    RequestBodyComment := ""
    ResponseWaitTime := env.cfg.ResponseTimeoutInSecs
    Count := env.cfg.MaxRetryAttempt
    RetryInterval := env.cfg.RetryIntervalInMins
    PluginIP := plugin.IP
    PluginPort := plugin.Port
    PluginUsername := plugin.Username
    PluginUserPassword := plugin.Password
    PluginPrefferedAuthType := plugin.PreferredAuthType
    CACertificate := env.cfg.RootCACertificate }

/-- Go function `getPluginStatus`: one probe `pluginStatus.CheckStatus()`; the status it
reports is returned on both branches (the error is only logged). -/
def getPluginStatus (env : Env σ) (plugin : mgrmodel.Plugin) (s : System σ) :
    Bool × System σ :=
  let pluginStatus := pluginStatusOf env plugin
  let r := env.CheckStatus pluginStatus s.world
  (r.1.1, { s with world := r.2, probes := s.probes ++ [pluginStatus] })

/-- The loop of `ContactPlugin` over the north-bound table:
`for key, value := range NorthBoundURL { data = strings.Replace(data, key, value, -1) }`. -/
def northBound (table : List (String × String)) (data : String) : String :=
  table.foldl (fun d kv => strings.Replace d kv.1 kv.2) data

/-- The internal-error return of `ContactPlugin`:
`return nil, "", resp, fmt.Errorf(errorMessage)` with status 500. -/
def internalError (env : Env σ) (errorMessage : String) : Outcome :=
  { body := none, token := "",
    status := ⟨http.StatusInternalServerError, env.InternalError⟩,
    err := fmt.Errorf errorMessage }

/-- The part of `ContactPlugin` from `ioutil.ReadAll` on: what is returned once the
transport has delivered `response`. -/
def readResponse (env : Env σ) (response : http.Response) (errorMessage : String) : Outcome :=
  match response.Body with
  | .error err =>
    internalError env ("error while trying to read response body: " ++ err)
  | .ok body =>
    if ¬ (response.StatusCode = http.StatusOK ∨ response.StatusCode = http.StatusCreated) then
      { body := some body, token := "",
        status := ⟨int32 response.StatusCode, ""⟩,
        err := fmt.Errorf errorMessage }
    else
      { body := some (northBound env.cfg.NorthBoundURL body),
        token := http.HeaderGet response.Header "X-Auth-Token",
        status := ⟨0, ""⟩,
        err := none }

/-- The transport phase of `ContactPlugin`:
`response, err = callPlugin(req); if err != nil { if getPluginStatus(req.Plugin) { response, err = callPlugin(req) } ... }`.
The result is the pair `(response, err)` the rest of the function works on. -/
def callPluginRetry (env : Env σ) (req : PluginContactRequest σ) (s : System σ) :
    Except String http.Response × System σ :=
  match callPlugin env req s with
  | (.ok response, s1) => (.ok response, s1)
  | (.error err, s1) =>
    match getPluginStatus env req.Plugin s1 with
    | (true, s2) => callPlugin env req s2
    | (false, s2) => (.error err, s2)

/-- Go function `ContactPlugin`: the request and response handling of a plugin contact.  When
`err` is still non-nil after the transport phase the internal error is
returned, with `errorMessage + err.Error()` as its text. -/
def ContactPlugin (env : Env σ) (req : PluginContactRequest σ) (errorMessage : String)
    (s : System σ) : Outcome × System σ :=
  match callPluginRetry env req s with
  | (.error err, s1) => (internalError env (errorMessage ++ err), s1)
  | (.ok response, s1) => (readResponse env response errorMessage, s1)

/-- The transport result is an error (`err != nil`). -/
def failed {α : Type} : Except String α → Bool
  | .error _ => true
  | .ok _ => false

/-- The contact request `createToken` builds for the login. -/
def loginRequest (req : PluginContactRequest σ) : PluginContactRequest σ :=
  { Token := ""
    OID := "/ODIM/v1/Sessions"
    DeviceInfo := some [("Username", req.Plugin.Username), ("Password", req.Plugin.Password)]
    BasicAuth := none
    ContactClient := req.ContactClient
    Plugin := req.Plugin
    HTTPMethodType := http.MethodPost }

/-- Go function `createToken`: log in to the plugin; a non-empty token is stored in the
cache; the token (possibly empty) is returned, the error is only logged. -/
def createToken (env : Env σ) (req : PluginContactRequest σ) (s : System σ) :
    String × System σ :=
  let r := ContactPlugin env (loginRequest req) "error while logging in to plugin: " s
  let token := r.1.token
  if token ≠ "" then
    (token, { r.2 with Token := r.2.Token.StoreToken req.Plugin.ID token })
  else
    (token, r.2)

/-- Go function `GetPluginToken`: the cached token of the plugin when there is one, else the
result of a login. -/
def GetPluginToken (env : Env σ) (req : PluginContactRequest σ) (s : System σ) :
    String × System σ :=
  let authToken := s.Token.GetToken req.Plugin.ID
  if authToken = "" then createToken env req s
  else (authToken, s)

/-- Modelled from the spec: `common.GeneralError` is not among the sources.  Of
the response it builds, `RetryManagersOperation` reads the status code, which
is the status code it was given, and the JSON encoding of the body. -/
def generalErrorOutcome (env : Env σ) (statusCode : Int) (statusMessage errorMessage : String) :
    Int × Option String :=
  (statusCode, env.MarshalGeneralError statusMessage errorMessage)

/-- Go function `RetryManagersOperation`: create a new session token and execute the plugin
call again. -/
def RetryManagersOperation (env : Env σ) (req : PluginContactRequest σ) (errorMessage : String)
    (s : System σ) : Outcome × System σ :=
  let r := createToken env req s
  let token := r.1
  if token = "" then
    let tokenErrorMessage := "error: Unable to create session with plugin " ++ req.Plugin.ID
    let resp := generalErrorOutcome env http.StatusUnauthorized env.NoValidSession tokenErrorMessage
    ({ body := resp.2, token := "", status := ⟨resp.1, ""⟩,
       err := fmt.Errorf tokenErrorMessage }, r.2)
  else
    ContactPlugin env { req with Token := token } errorMessage r.2

/-- The four UUID insertions at the end of `GetResourceInfoFromDevice`. -/
def insertUUID (body UUID : String) : String :=
  let updatedData := strings.Replace body "/redfish/v1/Systems/" ("/redfish/v1/Systems/" ++ UUID ++ ":")
  let updatedData := strings.Replace updatedData "/redfish/v1/systems/" ("/redfish/v1/systems/" ++ UUID ++ ":")
  let updatedData := strings.Replace updatedData "/redfish/v1/Managers/" ("/redfish/v1/Managers/" ++ UUID ++ ":")
  strings.Replace updatedData "/redfish/v1/Chassis/" ("/redfish/v1/Chassis/" ++ UUID ++ ":")

/-- Go `string(body)` of a `[]byte`: a `nil` slice converts to "". -/
def bytesToString (body : Option String) : String := body.getD ""

/-- Go function `GetResourceInfoFromDevice`: contact the plugin and get the resource
information of the device; the result is `(string, error)`. -/
def GetResourceInfoFromDevice (env : Env σ) (req : ResourceInfoRequest σ) (s : System σ) :
    (String × Option String) × System σ :=
  match env.GetTarget req.UUID s.world with
  | .error gerr => (("", some gerr), s)
  | .ok target =>
  match env.GetPluginData target.PluginID s.world with
  | .error gerr => (("", some gerr), s)
  | .ok plugin =>
  let contactRequest : PluginContactRequest σ :=
    { Token := "", OID := "", DeviceInfo := none, BasicAuth := none,
      ContactClient := req.ContactClient, Plugin := plugin, HTTPMethodType := "" }
  let auth : Option (PluginContactRequest σ) × System σ :=
    if strings.EqualFold plugin.PreferredAuthType "XAuthToken" then
      let t := GetPluginToken env contactRequest s
      if t.1 = "" then (none, t.2)
      else (some { contactRequest with Token := t.1 }, t.2)
    else
      (some { contactRequest with
                BasicAuth := some [("UserName", plugin.Username), ("Password", plugin.Password)] }, s)
  match auth with
  | (none, s1) =>
    (("", fmt.Errorf ("error: Unable to create session with plugin " ++ plugin.ID)), s1)
  | (some contactRequest, s1) =>
  match req.DecryptDevicePassword target.Password with
  | .error err =>
    (("", fmt.Errorf ("error while trying to decrypt device password: " ++ err)), s1)
  | .ok decryptedPasswordByte =>
  let contactRequest : PluginContactRequest σ :=
    { contactRequest with
        DeviceInfo := some [("ManagerAddress", target.ManagerAddress),
                            ("UserName", target.UserName),
                            ("Password", decryptedPasswordByte)]
        OID := strings.Replace req.URL (req.UUID ++ ":" ++ req.SystemID) req.SystemID
        HTTPMethodType := http.MethodGet }
  let errorMessage := "error while getting the details " ++ contactRequest.OID ++ ": "
  match ContactPlugin env contactRequest errorMessage s1 with
  | (⟨body, _, _, none⟩, s2) => ((insertUUID (bytesToString body) req.UUID, none), s2)
  | (⟨_, _, getResp, some err⟩, s2) =>
    if getResp.StatusCode = http.StatusUnauthorized
        ∧ strings.EqualFold contactRequest.Plugin.PreferredAuthType "XAuthToken" then
      match RetryManagersOperation env contactRequest errorMessage s2 with
      | (⟨body, _, _, none⟩, s3) => ((insertUUID (bytesToString body) req.UUID, none), s3)
      | (⟨_, _, _, some err⟩, s3) =>
        (("", some ("error while trying to get data from plugin: " ++ err)), s3)
    else
      (("", some ("error while trying to get data from plugin: " ++ err)), s2)

end mgrcommon

/-! ## `getPluginManagerResoure` of `managers/managers.go` -/

namespace managers

open mgrcommon

/-- The status messages of package `response` that `getPluginManagerResoure`
passes to `common.GeneralError`. -/
inductive StatusMessage where
  | ResourceNotFound
  | InternalError
  | NoValidSession
  deriving DecidableEq, Repr

/-- What `getPluginManagerResoure` reaches through its receiver and through
`encoding/json`: the two data-store lookups, the transport function of the
device, the decoding of the stored manager document into a map (`J`), and the
type assertion `managerData["Name"].(string)`, which is `none` when the
assertion panics. -/
structure ExternalInterface (σ J : Type) where
  GetManagerByURL : String → σ → Except String String
  GetPluginData : String → σ → Except String mgrmodel.Plugin
  ContactClient : Client σ
  Unmarshal : String → Except String J
  nameOf : J → Option String

/-- The `response.RPC` returned by `getPluginManagerResoure`, by the return
statement that produced it: a `common.GeneralError(...)` with its status code,
status message, error message and message arguments; the status code and body
of a failed plugin contact; `fillResponse(body, managerData)`; or no return at
all, because the type assertion panicked. -/
inductive ManagerResource (J : Type) where
  | generalError (statusCode : Int) (statusMessage : StatusMessage) (errorMessage : String)
      (errArgs : List String)
  | pluginFailure (statusCode : Int) (body : Option String)
  | fillResponse (body : Option String) (managerData : J)
  | panicked

/-- Go function `getPluginManagerResoure`: fetch a resource of a plugin manager. -/
def getPluginManagerResoure {σ J : Type} (env : Env σ) (e : ExternalInterface σ J)
    (managerID reqURI : String) (s : System σ) : ManagerResource J × System σ :=
  match e.GetManagerByURL ("/redfish/v1/Managers/" ++ managerID) s.world with
  | .error dberr => (.generalError 404 .ResourceNotFound dberr ["Managers", managerID], s)
  | .ok data =>
  match e.Unmarshal data with
  | .error jerr =>
    (.generalError 500 .InternalError ("unable to unmarshal manager details: " ++ jerr) [], s)
  | .ok managerData =>
  match e.nameOf managerData with
  | none => (.panicked, s)
  | some pluginID =>
  match e.GetPluginData pluginID s.world with
  | .error gerr => (.generalError 404 .ResourceNotFound gerr ["Plugin", pluginID], s)
  | .ok plugin =>
  let req : PluginContactRequest σ :=
    { Token := "", OID := "", DeviceInfo := none, BasicAuth := none,
      ContactClient := e.ContactClient, Plugin := plugin, HTTPMethodType := "" }
  let auth : Option (PluginContactRequest σ) × System σ :=
    if strings.EqualFold plugin.PreferredAuthType "XAuthToken" then
      let t := GetPluginToken env req s
      if t.1 = "" then (none, t.2)
      else (some { req with Token := t.1 }, t.2)
    else
      (some { req with
                BasicAuth := some [("UserName", plugin.Username), ("Password", plugin.Password)] }, s)
  match auth with
  | (none, s1) =>
    (.generalError 401 .NoValidSession ("unable to create session with plugin " ++ plugin.ID) [], s1)
  | (some req, s1) =>
  let req : PluginContactRequest σ := { req with OID := reqURI }
  let errorMessage := "unable to get the details " ++ reqURI ++ ": "
  match ContactPlugin env req errorMessage s1 with
  | (⟨body, _, _, none⟩, s2) => (.fillResponse body managerData, s2)
  | (⟨body, _, getResponse, some _⟩, s2) =>
    if getResponse.StatusCode = http.StatusUnauthorized
        ∧ strings.EqualFold req.Plugin.PreferredAuthType "XAuthToken" then
      match RetryManagersOperation env req errorMessage s2 with
      | (⟨body, _, _, none⟩, s3) => (.fillResponse body managerData, s3)
      | (⟨body, _, getResponse, some _⟩, s3) => (.pluginFailure getResponse.StatusCode body, s3)
    else
      (.pluginFailure getResponse.StatusCode body, s2)

end managers

/-! ## Manager handlers of `managers/managers.go` -/

namespace strings

/-- The first occurrence of a non-empty `sep` in a text: the text before it and
the text after it, or nothing when `sep` does not occur. -/
def cut (sep : List Char) : List Char → Option (List Char × List Char)
  | [] => none
  | c :: cs =>
    if sep.isPrefixOf (c :: cs) then some ([], (c :: cs).drop sep.length)
    else (cut sep cs).map (fun p => (c :: p.1, p.2))

/-- Go `strings.SplitN(s, sep, 2)` for a non-empty `sep`, the only form the
source uses: the one-element slice `[s]` when `sep` does not occur in `s`, else
the text before the first `sep` and the text after it. -/
def SplitN (s sep : String) : List String :=
  match cut sep.data s.data with
  | none => [s]
  | some (a, b) => [⟨a⟩, ⟨b⟩]

end strings

namespace managers

/-- Go type `dmtf.Link`: a link to a resource. -/
structure Link where
  Oid : String
  deriving DecidableEq, Repr

/-- Modelled from the spec: the declaration of `mgrresponse.ManagersCollection`
is not among the sources; these are the fields `GetManagersCollection` sets. -/
structure ManagersCollection where
  OdataContext : String
  OdataID : String
  OdataType : String
  Description : String
  Name : String
  Members : List Link
  MembersCount : Int
  deriving DecidableEq, Repr

/-- Modelled from the spec: the declaration of `mgrmodel.RAManager`, the stored
document of the aggregator's own manager, is not among the sources; these are
the fields `getManagerDetails` reads. -/
structure RAManager where
  Name : String
  ManagerType : String
  ID : String
  UUID : String
  FirmwareVersion : String
  State : String
  Health : String
  Description : String
  LogServices : String
  Model : String
  PowerState : String
  deriving DecidableEq, Repr

/-- Go type `mgrmodel.Status`. -/
structure Status where
  State : String
  Health : String
  deriving DecidableEq, Repr

/-- Go type `mgrmodel.Links`: the three link lists of a manager. -/
structure Links where
  ManagerForChassis : List Link
  ManagerForServers : List Link
  ManagerForManagers : List Link
  deriving DecidableEq, Repr

/-- Modelled from the spec: the declaration of `mgrmodel.Manager` is not among
the sources; these are the fields `getManagerDetails` sets (the two pointers
are `none` in the zero value). -/
structure Manager where
  OdataContext : String
  OdataID : String
  OdataType : String
  Name : String
  ManagerType : String
  ID : String
  UUID : String
  FirmwareVersion : String
  Status : Option Status
  Links : Option Links
  Description : String
  LogServices : String
  Model : String
  DateTime : String
  DateTimeLocalOffset : String
  PowerState : String
  deriving DecidableEq, Repr

/-- The zero value of `mgrmodel.Manager`. -/
def Manager.zero : Manager :=
  { OdataContext := "", OdataID := "", OdataType := "", Name := "", ManagerType := "", ID := "",
    UUID := "", FirmwareVersion := "", Status := none, Links := none, Description := "",
    LogServices := "", Model := "", DateTime := "", DateTimeLocalOffset := "", PowerState := "" }

/-- What `GetManagersCollection` and `getManagerDetails` reach from outside the
file: the data-store reads `e.DB.GetAllKeysFromTable` (the keys and the error,
both as returned) and `e.DB.GetManagerByURL`, the decoding `JsonUnMarshalFunc`
into an `RAManager`, the constants `config.Data.RootServiceUUID` and
`common.ManagerType`, and the clock `time.Now().Format(time.RFC3339)`. -/
structure Store (σ : Type) where
  GetAllKeysFromTable : String → σ → List String × Option String
  GetManagerByURL : String → σ → Except String String
  JsonUnMarshalFunc : String → Except String RAManager
  RootServiceUUID : String
  ManagerType : String
  now : σ → String

/-- Go function `GetManagersCollection`: the collection of all managers; the
results are the body, the status code and the error. -/
def GetManagersCollection {σ : Type} (e : Store σ) (w : σ) :
    ManagersCollection × Int × Option String :=
  let managers : ManagersCollection :=
    { OdataContext := "/redfish/v1/$metadata#ManagerCollection.ManagerCollection"
      OdataID := "/redfish/v1/Managers"
      OdataType := "#ManagerCollection.ManagerCollection"
      Description := "Managers view"
      Name := "Managers"
      Members := []
      MembersCount := 0 }
  let managersCollectionKeysArray := (e.GetAllKeysFromTable "Managers" w).1
  let members := managersCollectionKeysArray.foldl (fun members key => members ++ [Link.mk key]) []
  ({ managers with Members := members, MembersCount := members.length }, http.StatusOK, none)

/-- Go function `getManagerDetails`: the manager resource of the aggregator
itself, or an error. -/
def getManagerDetails {σ : Type} (e : Store σ) (id : String) (w : σ) :
    Manager × Option String :=
  match e.GetManagerByURL ("/redfish/v1/Managers/" ++ id) w with
  | .error err => (Manager.zero, some ("unable to retrieve manager information: " ++ err))
  | .ok data =>
  match e.JsonUnMarshalFunc data with
  | .error err => (Manager.zero, some ("unable to marshal manager information: " ++ err))
  | .ok mgrData =>
  match e.GetAllKeysFromTable "Chassis" w with
  | (_, some chassisErr) =>
    (Manager.zero, some ("unable to retrieve chassis list information: " ++ chassisErr))
  | (chassisList, none) =>
  match e.GetAllKeysFromTable "ComputerSystem" w with
  | (_, some serverErr) =>
    (Manager.zero, some ("unable to retrieve server list information: " ++ serverErr))
  | (serverList, none) =>
  match e.GetAllKeysFromTable "Managers" w with
  | (_, some mgrErr) =>
    (Manager.zero, some ("unable to retrieve manager list information: " ++ mgrErr))
  | (managerList, none) =>
  let chassisLink := chassisList.foldl (fun links key => links ++ [Link.mk key]) []
  let serverLink := serverList.foldl (fun links key => links ++ [Link.mk key]) []
  let odimURI := "/redfish/v1/Managers/" ++ e.RootServiceUUID
  let managerLink := managerList.foldl
    (fun links key => if key ≠ odimURI then links ++ [Link.mk key] else links) []
  ({ OdataContext := "/redfish/v1/$metadata#Manager.Manager"
     OdataID := "/redfish/v1/Managers/" ++ id
     OdataType := e.ManagerType
     Name := mgrData.Name
     ManagerType := mgrData.ManagerType
     ID := mgrData.ID
     UUID := mgrData.UUID
     FirmwareVersion := mgrData.FirmwareVersion
     Status := some { State := mgrData.State, Health := mgrData.Health }
     Links := some { ManagerForChassis := chassisLink
                     ManagerForServers := serverLink
                     ManagerForManagers := managerLink }
     Description := mgrData.Description
     LogServices := mgrData.LogServices
     Model := mgrData.Model
     DateTime := e.now w
     DateTimeLocalOffset := "+00:00"
     PowerState := mgrData.PowerState }, none)

/-- Go function `replaceBMCAccReq`. -/
def replaceBMCAccReq (uri managerID : String) : String :=
  strings.Replace uri ("Managers/" ++ managerID ++ "/Remote") ""

/-- Go function `replaceBMCAccResp`. -/
def replaceBMCAccResp (data managerID : String) : String :=
  strings.Replace data "v1/AccountService" ("v1/Managers/" ++ managerID ++ "/RemoteAccountService")

end managers

/-! ## Device handlers of `managers/managers.go` -/

namespace managers

/-- The fields of `managersproto.ManagerRequest` the handlers read. -/
structure ManagerRequest where
  ManagerID : String
  URL : String
  ResourceID : String
  RequestBody : String

/-- The fields of `response.RPC` the handlers set; `B` is the type of a body. -/
structure RPC (B : Type) where
  StatusCode : Int
  StatusMessage : String
  Body : Option B

/-- What the device handlers reach from outside their own text: the device
calls `e.Device.DeviceRequest` and `e.Device.GetDeviceInfo` (with the URL, the
UUID, the system id and, for a request, the method and the body), the store
update `e.DB.UpdateData`, the JSON coding, `common.GeneralError`, the status
messages of package `response`, and the payload checks at the head of
`VirtualMediaActions`, `CreateRemoteAccountService` and
`UpdateRemoteAccountService`, each taken as a whole: the response returned
early, or the request body to send.  The two helpers of the file that decode a
body along a regular expression (`convertToRedfishModel`,
`handleRemoteAccountServiceError`) are taken as they are. -/
structure Device (σ B : Type) where
  DeviceRequest : String → String → String → String → Option String → σ → RPC B × σ
  GetDeviceInfo : String → String → String → σ → Except String String × σ
  UpdateData : String → B → String → σ → Option String × σ
  Unmarshal : String → Except String B
  Marshal : Option B → String
  toManagerAccount : String → B
  convertToRedfishModel : String → String → B
  handleRemoteAccountServiceError : String → String → String → RPC B
  GeneralError : Int → String → String → List String → RPC B
  Success : String
  ResourceNotFound : String
  checkVirtualMediaInsert : ManagerRequest → Except (RPC B) String
  checkCreateAccount : ManagerRequest → Except (RPC B) String
  checkUpdateAccount : ManagerRequest → Except (RPC B) String

variable {σ B : Type}

/-- Go function `VirtualMediaActions`: insert or eject virtual media.  The result
is `none` when the handler panics. -/
def VirtualMediaActions (e : Device σ B) (req : ManagerRequest) (w : σ) : Option (RPC B × σ) :=
  match (if strings.Contains req.URL "VirtualMedia.InsertMedia" then e.checkVirtualMediaInsert req
         else .ok req.RequestBody) with
  | .error resp => some (resp, w)
  | .ok requestBody =>
  let requestData := strings.SplitN req.ManagerID "."
  match requestData[0]?, requestData[1]? with
  | some uuid, some systemID =>
    let r := e.DeviceRequest req.URL uuid systemID "POST" (some requestBody) w
    if r.1.StatusCode = http.StatusOK then
      let vmURI := strings.Replace
        (strings.Replace req.URL "/Actions/VirtualMedia.InsertMedia" "")
        "/Actions/VirtualMedia.EjectMedia" ""
      let g := e.GetDeviceInfo vmURI uuid systemID r.2
      match g.1 with
      | .error _ => some (r.1, g.2)
      | .ok deviceData =>
        match e.Unmarshal deviceData with
        | .error _ => some (r.1, g.2)
        | .ok vmData => some (r.1, (e.UpdateData vmURI vmData "VirtualMedia" g.2).2)
    else some r
  | _, _ => none

/-- Go function `GetRemoteAccountService`: fetch a resource of the BMC account
service.  The result is `none` when the handler panics. -/
def GetRemoteAccountService (e : Device σ B) (req : ManagerRequest) (w : σ) :
    Option (RPC B × σ) :=
  let requestData := strings.SplitN req.ManagerID "."
  match requestData[0]?, requestData[1]? with
  | some uuid, some systemID =>
    let uri := replaceBMCAccReq req.URL req.ManagerID
    let g := e.GetDeviceInfo uri uuid systemID w
    match g.1 with
    | .error err => some (e.handleRemoteAccountServiceError req.URL req.ManagerID err, g.2)
    | .ok data =>
      some ({ StatusCode := http.StatusOK, StatusMessage := e.Success,
              Body := some (e.convertToRedfishModel req.URL
                (replaceBMCAccResp data req.ManagerID)) }, g.2)
  | _, _ => none

/-- Go function `CreateRemoteAccountService`: create a BMC account.  The result
is `none` when the handler panics. -/
def CreateRemoteAccountService (e : Device σ B) (req : ManagerRequest) (w : σ) :
    Option (RPC B × σ) :=
  match e.checkCreateAccount req with
  | .error resp => some (resp, w)
  | .ok requestBody =>
  let requestData := strings.SplitN req.ManagerID "."
  match requestData[0]?, requestData[1]? with
  | some uuid, some systemID =>
    let uri := replaceBMCAccReq req.URL req.ManagerID
    let r := e.DeviceRequest uri uuid systemID "POST" (some requestBody) w
    if r.1.StatusCode = http.StatusOK ∨ r.1.StatusCode = http.StatusCreated then
      let respBody := replaceBMCAccResp (e.Marshal r.1.Body) req.ManagerID
      some ({ r.1 with Body := some (e.toManagerAccount respBody),
                       StatusCode := http.StatusCreated }, r.2)
    else some r
  | _, _ => none

/-- Go function `UpdateRemoteAccountService`: update a BMC account.  The result
is `none` when the handler panics. -/
def UpdateRemoteAccountService (e : Device σ B) (req : ManagerRequest) (w : σ) :
    Option (RPC B × σ) :=
  match e.checkUpdateAccount req with
  | .error resp => some (resp, w)
  | .ok requestBody =>
  let requestData := strings.SplitN req.ManagerID "."
  match requestData[0]?, requestData[1]? with
  | some uuid, some systemID =>
    let uri := replaceBMCAccReq req.URL req.ManagerID
    let r := e.DeviceRequest uri uuid systemID "PATCH" (some requestBody) w
    if r.1.StatusCode = http.StatusOK then
      let g := e.GetDeviceInfo uri uuid systemID r.2
      match g.1 with
      | .error err =>
        some (e.GeneralError 404 e.ResourceNotFound
          ("unable to get resource details from device: " ++ err) [], g.2)
      | .ok data =>
        some ({ r.1 with Body := some (e.convertToRedfishModel req.URL
                          (replaceBMCAccResp data req.ManagerID)),
                         StatusCode := http.StatusOK, StatusMessage := e.Success }, g.2)
    else some r
  | _, _ => none

/-- Go function `DeleteRemoteAccountService`: delete a BMC account.  The result
is `none` when the handler panics. -/
def DeleteRemoteAccountService (e : Device σ B) (req : ManagerRequest) (w : σ) :
    Option (RPC B × σ) :=
  let requestData := strings.SplitN req.ManagerID "."
  match requestData[0]?, requestData[1]? with
  | some uuid, some systemID =>
    let uri := replaceBMCAccReq req.URL req.ManagerID
    let r := e.DeviceRequest uri uuid systemID "DELETE" none w
    if r.1.StatusCode = http.StatusOK then some ({ r.1 with StatusCode := 204 }, r.2)
    else some r
  | _, _ => none

end managers

/-! ## Role handlers of `svc-account-session/rpc/role.go` -/

namespace rpc

/-- The error of the session check, with what the handlers read of it: its text
(`Error()`) and the status code and message of
`GetAuthStatusCodeAndMessage()`. -/
structure AuthError where
  message : String
  StatusCode : Int
  StatusMessage : String
  deriving DecidableEq, Repr

/-- The fields of the `response.RPC` a role operation returns; `B` is the type
of its body. -/
structure RoleData (B : Type) where
  StatusCode : Int
  StatusMessage : String
  Header : List (String × String)
  Body : B

/-- The fields of `roleproto.RoleResponse`. -/
structure RoleResponse where
  StatusCode : Int
  StatusMessage : String
  Header : List (String × String)
  Body : Option String
  deriving DecidableEq, Repr

/-- A request of a role handler: the session token and the rest of the request
(the three request types of the source differ in the rest only). -/
structure Request (R : Type) where
  SessionToken : String
  rest : R

/-- One invocation of a package-level function variable, as recorded in the
log. -/
inductive Invocation where
  | CheckSessionTimeOutFunc (token : String)
  | UpdateLastUsedTimeFunc (token : String)
  | CreateFunc
  | GetRoleFunc
  | GetAllRolesFunc
  | UpdateFunc
  deriving DecidableEq, Repr

/-- The package-level function variables of `role.go` (session type `S`, request
type `R`, body type `B`, world `σ`), `MarshalFunc`, and what comes from the
utility libraries: the JSON text of the body of `common.GeneralError(...)` and
of `args.CreateGenericErrorResponse()`, the constant `response.InternalError`
and the address of the in-memory store. -/
structure Funcs (σ S R B : Type) where
  CheckSessionTimeOutFunc : String → σ → Except AuthError S × σ
  UpdateLastUsedTimeFunc : String → σ → Option String × σ
  CreateFunc : Request R → S → σ → RoleData B × σ
  GetRoleFunc : Request R → S → σ → RoleData B × σ
  GetAllRolesFunc : S → σ → RoleData B × σ
  UpdateFunc : Request R → S → σ → RoleData B × σ
  MarshalFunc : B → Except String String
  generalErrorBody : Int → String → String → List String → Option String
  genericErrorBody : String → String → Option String
  InternalError : String
  InMemoryHost : String
  InMemoryPort : String

/-- The state of a handler run: the world and the log of invocations (oldest
first). -/
structure Run (σ : Type) where
  world : σ
  invoked : List Invocation

variable {σ S R B : Type}

/-- The text the four handlers `CreateRole`, `GetRole`, `GetAllRoles` and
`UpdateRole` share; they differ in the role operation `op` only.  The result is
the response and the RPC error. -/
def handle (f : Funcs σ S R B) (token : String)
    (op : S → Run σ → RoleData B × Run σ) (s : Run σ) :
    (RoleResponse × Option String) × Run σ :=
  let c := f.CheckSessionTimeOutFunc token s.world
  let s1 : Run σ := { world := c.2, invoked := s.invoked ++ [.CheckSessionTimeOutFunc token] }
  match c.1 with
  | .error errs =>
    let errorMessage := "error while authorizing session token: " ++ errs.message
    let body :=
      if errs.StatusCode = 503 then
        f.generalErrorBody errs.StatusCode errs.StatusMessage errorMessage
          [f.InMemoryHost ++ ":" ++ f.InMemoryPort]
      else
        f.generalErrorBody errs.StatusCode errs.StatusMessage errorMessage []
    (({ StatusCode := errs.StatusCode, StatusMessage := errs.StatusMessage, Header := [],
        Body := body }, none), s1)
  | .ok sess =>
    let u := f.UpdateLastUsedTimeFunc token s1.world
    let s2 : Run σ := { world := u.2, invoked := s1.invoked ++ [.UpdateLastUsedTimeFunc token] }
    match u.1 with
    | some err =>
      let errorMessage :=
        "error while updating last used time of session with token " ++ token ++ ": " ++ err
      (({ StatusCode := http.StatusInternalServerError, StatusMessage := f.InternalError,
          Header := [], Body := f.genericErrorBody f.InternalError errorMessage }, none), s2)
    | none =>
      let d := op sess s2
      match f.MarshalFunc d.1.Body with
      | .error err =>
        let errorMessage := "error while trying marshal the response body for get role: " ++ err
        (({ StatusCode := http.StatusInternalServerError, StatusMessage := f.InternalError,
            Header := d.1.Header, Body := f.genericErrorBody f.InternalError errorMessage },
          none), d.2)
      | .ok body =>
        (({ StatusCode := d.1.StatusCode, StatusMessage := d.1.StatusMessage,
            Header := d.1.Header, Body := some body }, none), d.2)

/-- Go function `CreateRole`: the role operation is `CreateFunc(req, sess)`. -/
def CreateRole (f : Funcs σ S R B) (req : Request R) (s : Run σ) :
    (RoleResponse × Option String) × Run σ :=
  handle f req.SessionToken
    (fun sess s => ((f.CreateFunc req sess s.world).1,
      { world := (f.CreateFunc req sess s.world).2, invoked := s.invoked ++ [.CreateFunc] })) s

/-- Go function `GetRole`: the role operation is `GetRoleFunc(req, sess)`. -/
def GetRole (f : Funcs σ S R B) (req : Request R) (s : Run σ) :
    (RoleResponse × Option String) × Run σ :=
  handle f req.SessionToken
    (fun sess s => ((f.GetRoleFunc req sess s.world).1,
      { world := (f.GetRoleFunc req sess s.world).2, invoked := s.invoked ++ [.GetRoleFunc] })) s

/-- Go function `GetAllRoles`: the role operation is `GetAllRolesFunc(sess)`. -/
def GetAllRoles (f : Funcs σ S R B) (req : Request R) (s : Run σ) :
    (RoleResponse × Option String) × Run σ :=
  handle f req.SessionToken
    (fun sess s => ((f.GetAllRolesFunc sess s.world).1,
      { world := (f.GetAllRolesFunc sess s.world).2,
        invoked := s.invoked ++ [.GetAllRolesFunc] })) s

/-- Go function `UpdateRole`: the role operation is `UpdateFunc(req, sess)`. -/
def UpdateRole (f : Funcs σ S R B) (req : Request R) (s : Run σ) :
    (RoleResponse × Option String) × Run σ :=
  handle f req.SessionToken
    (fun sess s => ((f.UpdateFunc req sess s.world).1,
      { world := (f.UpdateFunc req sess s.world).2, invoked := s.invoked ++ [.UpdateFunc] })) s

end rpc

/-! ## Auxiliary definitions used in the statements -/

namespace mgrcommon

variable {σ : Type}

/-- The arguments `callPlugin` passes to the transport function for a request. -/
def clientCallOf (env : Env σ) (req : PluginContactRequest σ) : ClientCall :=
  let oid := southBoundOID env.cfg.SouthBoundURL req.OID
  let reqURL := "https://" ++ req.Plugin.IP ++ ":" ++ req.Plugin.Port ++ oid
  if strings.EqualFold req.Plugin.PreferredAuthType "BasicAuth" then
    ⟨reqURL, req.HTTPMethodType, "", oid, req.DeviceInfo, req.BasicAuth⟩
  else
    ⟨reqURL, req.HTTPMethodType, req.Token, oid, req.DeviceInfo, none⟩

/-- The token of the most recent entry for `pluginID` in a list of `StoreToken`
arguments (oldest first), "" when there is no entry for it. -/
def lastStored (stores : List (String × String)) (pluginID : String) : String :=
  (((stores.filter (fun kv => kv.1 = pluginID)).getLast?).map Prod.snd).getD ""

/-- The transport calls made between the state `before` and the later state
`after`: what the log gained. -/
def newCalls (before after : System σ) : List ClientCall :=
  after.calls.drop before.calls.length

/-- The health probes made between the state `before` and the later state
`after`. -/
def newProbes (before after : System σ) : List common.PluginStatus :=
  after.probes.drop before.probes.length

/-- The internal-error outcome: nil body, empty token, status code 500 with the
`InternalError` message, non-nil error. -/
def isInternalError (env : Env σ) (o : Outcome) : Prop :=
  o.body = none ∧ o.token = "" ∧ o.status = ⟨500, env.InternalError⟩ ∧ o.err ≠ none

/-- The error text of the login `createToken` makes. -/
def loginMessage : String := "error while logging in to plugin: "

/-- The text `m` begins with the text `p`. -/
def beginsWith (m p : String) : Prop := p.data <+: m.data

instance (m p : String) : Decidable (beginsWith m p) := by
  unfold beginsWith; infer_instance

/-- The composite id `UUID + ":" + SystemID` of a resource request. -/
def compositeID (req : ResourceInfoRequest σ) : String := req.UUID ++ ":" ++ req.SystemID

/-- The OID `GetResourceInfoFromDevice` puts into its contact request. -/
def resourceOID (req : ResourceInfoRequest σ) : String :=
  strings.Replace req.URL (req.UUID ++ ":" ++ req.SystemID) req.SystemID

/-- The error text `GetResourceInfoFromDevice` hands to `ContactPlugin`. -/
def resourceMessage (req : ResourceInfoRequest σ) : String :=
  "error while getting the details " ++ resourceOID req ++ ": "

/-- The request `GetResourceInfoFromDevice` hands to `GetPluginToken`: only the
transport function and the plugin are set. -/
def sessionRequest (req : ResourceInfoRequest σ) (plugin : mgrmodel.Plugin) :
    PluginContactRequest σ :=
  { Token := "", OID := "", DeviceInfo := none, BasicAuth := none,
    ContactClient := req.ContactClient, Plugin := plugin, HTTPMethodType := "" }

/-- The authentication step of `GetResourceInfoFromDevice`: for a plugin with
token authentication the token from `GetPluginToken` and the state after it,
otherwise no token and the state as it is. -/
def resourceAuth (env : Env σ) (req : ResourceInfoRequest σ) (plugin : mgrmodel.Plugin)
    (s : System σ) : String × System σ :=
  if strings.EqualFold plugin.PreferredAuthType "XAuthToken" then
    GetPluginToken env (sessionRequest req plugin) s
  else ("", s)

/-- The contact request `GetResourceInfoFromDevice` hands to `ContactPlugin`,
given the device, the plugin, the token of the authentication step and the
decrypted device password. -/
def resourceContact (req : ResourceInfoRequest σ) (target : mgrmodel.DeviceTarget)
    (plugin : mgrmodel.Plugin) (token decrypted : String) : PluginContactRequest σ :=
  { Token := token
    OID := resourceOID req
    DeviceInfo := some [("ManagerAddress", target.ManagerAddress),
                        ("UserName", target.UserName), ("Password", decrypted)]
    BasicAuth :=
      if strings.EqualFold plugin.PreferredAuthType "XAuthToken" then none
      else some [("UserName", plugin.Username), ("Password", plugin.Password)]
    ContactClient := req.ContactClient
    Plugin := plugin
    HTTPMethodType := http.MethodGet }

/-- The south-bound rewriting as the specification words it: the OID after the
replacement of key by value for every entry of the table, one after another in
the order of the table.  It is compared with `southBoundOID`, the loop of the
source. -/
def southBoundSpec (table : List (String × String)) (OID : String) : String :=
  table.foldl (fun oid kv => strings.Replace oid kv.1 kv.2) OID

/-- The guard of a role handler, for a run from the state `s` with the result
`r` (response, RPC error, state after).  When the session check of the token
fails, the check is the only function invoked, the response carries the status
code and message of the authentication error, and the RPC error is nil.  When
the check succeeds and the update of the last used time fails, the check and
the update are the only functions invoked, the response status is 500 with the
`InternalError` message, and the RPC error is nil. -/
def sessionGuarded {S R B : Type} (f : rpc.Funcs σ S R B) (token : String) (s : rpc.Run σ)
    (r : (rpc.RoleResponse × Option String) × rpc.Run σ) : Prop :=
  (∀ errs, (f.CheckSessionTimeOutFunc token s.world).1 = .error errs →
      r.2.invoked = s.invoked ++ [.CheckSessionTimeOutFunc token]
      ∧ r.1.1.StatusCode = errs.StatusCode
      ∧ r.1.1.StatusMessage = errs.StatusMessage
      ∧ r.1.2 = none)
  ∧ (∀ sess err, (f.CheckSessionTimeOutFunc token s.world).1 = .ok sess →
      (f.UpdateLastUsedTimeFunc token (f.CheckSessionTimeOutFunc token s.world).2).1
        = some err →
      r.2.invoked = s.invoked ++ [.CheckSessionTimeOutFunc token, .UpdateLastUsedTimeFunc token]
      ∧ r.1.1.StatusCode = 500
      ∧ r.1.1.StatusMessage = f.InternalError
      ∧ r.1.2 = none)

/-- What a handler does behind its payload check when the manager id has no dot:
it returns the response of the check when the check rejects the body, and it
panics when the check lets the body through. -/
def rejectedOrPanic {σ B : Type} (check : Except (managers.RPC B) String) (w : σ) :
    Option (managers.RPC B × σ) :=
  match check with
  | .error resp => some (resp, w)
  | .ok _ => none

/-- The text is made of ASCII letters, digits and '-'. -/
def idText (s : String) : Prop := s.data.all (fun c => c.isAlphanum || c == '-') = true

instance (s : String) : Decidable (idText s) := by
  unfold idText; infer_instance

/-- A status code that fits the `int32` of `ResponseStatus.StatusCode`, as every
HTTP status does. -/
def fitsInt32 (x : Int) : Prop := -(2 ^ 31) ≤ x ∧ x < 2 ^ 31

instance (x : Int) : Decidable (fitsInt32 x) := by
  unfold fitsInt32; infer_instance

end mgrcommon

/-! ## Concrete scenarios -/

namespace scenario

open mgrcommon

/-- A world for the scenarios: the answers the transport will give, in order,
and the answers of the health probe, in order. -/
structure Script where
  answers : List (Except String http.Response)
  alive : List Bool

/-- A transport that replays the script (and fails once the script is used up). -/
def client : Client Script := fun _ w =>
  match w.answers with
  | [] => (.error "connection refused", w)
  | r :: rest => (r, { w with answers := rest })

/-- A health probe that replays the script (not alive once it is used up). -/
def checkStatus : common.PluginStatus → Script → (Bool × Option String) × Script := fun _ w =>
  match w.alive with
  | [] => ((false, some "plugin is not reachable"), w)
  | b :: rest => ((b, none), { w with alive := rest })

/-- An environment with the given south-bound table, a north-bound table with
one entry, and no data store. -/
def envWith (south : List (String × String)) : Env Script :=
  { cfg := { SouthBoundURL := south
             NorthBoundURL := [("redfish", "ODIM")]
             ResponseTimeoutInSecs := 1
             MaxRetryAttempt := 1
             RetryIntervalInMins := 1
             RootCACertificate := "" }
    InternalError := "InternalError"
    NoValidSession := "NoValidSession"
    CheckStatus := checkStatus
    GetTarget := fun _ _ => .error "no such device"
    GetPluginData := fun _ _ => .error "no such plugin"
    MarshalGeneralError := fun _ message => some message }

/-- The environment with a south-bound table of one entry. -/
def env : Env Script := envWith [("ODIM", "redfish")]

/-- A plugin with the given identifier and authentication scheme. -/
def plugin (ID authType : String) : mgrmodel.Plugin :=
  { IP := "10.0.0.1", Port := "45001", Username := "admin", Password := "secret",
    ID := ID, PreferredAuthType := authType }

/-- A request for a resource of the plugin `GRF`, which uses token
authentication. -/
def grfRequest : PluginContactRequest Script :=
  { Token := "", OID := "/ODIM/v1/Systems/1", DeviceInfo := none, BasicAuth := none,
    ContactClient := client, Plugin := plugin "GRF" "XAuthToken", HTTPMethodType := "GET" }

/-- A response with the given status, session token header and body. -/
def answer (status : Int) (token body : String) : http.Response :=
  { StatusCode := status, Header := [("X-Auth-Token", [token])], Body := .ok body }

/-- A system with the given cache and script, and empty logs. -/
def start (cache : PluginToken) (answers : List (Except String http.Response))
    (alive : List Bool) : System Script :=
  { Token := cache, world := ⟨answers, alive⟩, calls := [], probes := [] }

/-- A response with status 200 and a session token header whose body cannot be
read to its end. -/
def unreadable : http.Response :=
  { StatusCode := 200, Header := [("X-Auth-Token", ["tok-1"])], Body := .error "unexpected EOF" }

/-- The empty cache, and a transport whose only answer is `unreadable`. -/
def unreadableStart : System Script := start PluginToken.empty [.ok unreadable] []

/-- The empty cache, and a transport that answers the login with status 200 and
the session token tok-1. -/
def loginStart : System Script := start PluginToken.empty [.ok (answer 200 "tok-1" "")] []

/-- The cache holds tok-0 for GRF, and the transport answers with status 401. -/
def rejectedStart : System Script :=
  start (PluginToken.empty.StoreToken "GRF" "tok-0") [.ok (answer 401 "" "unauthorized")] []

/-- A request of a plugin that uses basic authentication (written in lower
case) and yet carries a token. -/
def basicRequest : PluginContactRequest Script :=
  { Token := "stale", OID := "/ODIM/v1/Systems/1", DeviceInfo := none,
    BasicAuth := some [("UserName", "admin"), ("Password", "secret")],
    ContactClient := client, Plugin := plugin "ILO" "basicauth", HTTPMethodType := "GET" }

/-- A request of a plugin that uses token authentication and yet carries a
basic-auth map. -/
def tokenRequest : PluginContactRequest Script :=
  { Token := "tok-1", OID := "/ODIM/v1/Systems/1", DeviceInfo := none,
    BasicAuth := some [("UserName", "admin"), ("Password", "secret")],
    ContactClient := client, Plugin := plugin "GRF" "XAuthToken", HTTPMethodType := "GET" }

/-- The transport fails once and then answers with status 200; the health
probe reports the plugin alive. -/
def flakyStart : System Script :=
  start PluginToken.empty [.error "connection reset", .ok (answer 200 "" "{}")] [true]

/-- The transport fails and the health probe reports the plugin not alive. -/
def downStart : System Script :=
  start PluginToken.empty [.error "connection refused"] [false]

/-- The transport answers with status 404 and a body that mentions a
north-bound key. -/
def notFoundStart : System Script :=
  start PluginToken.empty [.ok (answer 404 "tok-9" "/redfish/v1/Systems/1 not found")] []

/-- The plugin ILO: basic authentication, user admin, password secret. -/
def ilo : mgrmodel.Plugin := plugin "ILO" "BasicAuth"

/-- A device managed through the plugin ILO. -/
def device : mgrmodel.DeviceTarget :=
  { ManagerAddress := "10.0.0.9", Password := "cipher", UserName := "root", PluginID := "ILO" }

/-- The environment `env` with a data store that knows the device and the
plugin ILO. -/
def deviceEnv : Env Script :=
  { env with GetTarget := fun _ _ => .ok device, GetPluginData := fun _ _ => .ok ilo }

/-- A request for a resource of the device. -/
def resourceRequest : ResourceInfoRequest Script :=
  { URL := "/redfish/v1/Systems/uuid-1:1", UUID := "uuid-1", SystemID := "1",
    ContactClient := client, DecryptDevicePassword := fun p => .ok p }

/-- The receiver of `getPluginManagerResoure` in the scenarios: the stored
manager document is the name of its plugin. -/
def managersInterface : managers.ExternalInterface Script String :=
  { GetManagerByURL := fun _ _ => .ok "ILO"
    GetPluginData := fun _ _ => .ok ilo
    ContactClient := client
    Unmarshal := fun data => .ok data
    nameOf := fun managerData => some managerData }

/-- The transport answers with status 401. -/
def unauthorizedStart : System Script :=
  start PluginToken.empty [.ok (answer 401 "" "unauthorized")] []

/-- The transport answers with status 200, the session token tok-7 and a body
that contains the north-bound key "redfish". -/
def okStart : System Script :=
  start PluginToken.empty [.ok (answer 200 "tok-7" "/redfish/v1/Systems/1")] []

/-- The transport answers with status 201, no X-Auth-Token header, and a body in
which no north-bound key occurs. -/
def createdStart : System Script :=
  start PluginToken.empty
    [.ok { StatusCode := 201, Header := [], Body := .ok "\x7b\"Id\":\"1\"\x7d" }] []

/-- A request of a plugin whose identifier ends in a percent sign. -/
def percentRequest : PluginContactRequest Script :=
  { Token := "tok-1", OID := "/ODIM/v1/Systems/1", DeviceInfo := none, BasicAuth := none,
    ContactClient := client, Plugin := plugin "GRF%" "XAuthToken", HTTPMethodType := "GET" }

/-- A request for a resource of the plugin GRF that carries the token tok-1. -/
def staleRequest : PluginContactRequest Script :=
  { Token := "tok-1", OID := "/ODIM/v1/Systems/1", DeviceInfo := none, BasicAuth := none,
    ContactClient := client, Plugin := plugin "GRF" "XAuthToken", HTTPMethodType := "GET" }

/-- The cache holds tok-1 for GRF; the plugin answers the original request with
status 401, the login with status 200 and the token tok-2, and the reissued
request with status 200 and the body with the text Id and 1 in braces. -/
def renewStart : System Script :=
  start (PluginToken.empty.StoreToken "GRF" "tok-1")
    [.ok (answer 401 "" "unauthorized"), .ok (answer 200 "tok-2" ""),
     .ok (answer 200 "" "\x7b\"Id\":\"1\"\x7d")] []

/-- As `renewStart`, but the body of the answer to the login cannot be read. -/
def renewUnreadableStart : System Script :=
  start (PluginToken.empty.StoreToken "GRF" "tok-1")
    [.ok (answer 401 "" "unauthorized"),
     .ok { StatusCode := 200, Header := [("X-Auth-Token", ["tok-2"])],
           Body := .error "unexpected EOF" },
     .ok (answer 200 "" "\x7b\"Id\":\"1\"\x7d")] []

/-- The environment of a deployment: the south-bound table maps redfish to ODIM,
the north-bound table maps ODIM to redfish; the data store knows the device
and the plugin GRF, which uses token authentication. -/
def tokenEnv : Env Script :=
  { env with
      cfg := { env.cfg with SouthBoundURL := [("redfish", "ODIM")],
                            NorthBoundURL := [("ODIM", "redfish")] }
      GetTarget := fun _ _ => .ok { device with PluginID := "GRF" }
      GetPluginData := fun _ _ => .ok (plugin "GRF" "XAuthToken") }

/-- The cache holds tok-1 for GRF and the plugin answers with status 404. -/
def cachedNotFoundStart : System Script :=
  start (PluginToken.empty.StoreToken "GRF" "tok-1") [.ok (answer 404 "" "not found")] []

/-- The cache holds tok-1 for GRF and the plugin answers with status 200 and a
body that names a manager in lower case. -/
def lowerCaseStart : System Script :=
  start (PluginToken.empty.StoreToken "GRF" "tok-1")
    [.ok (answer 200 "" "/ODIM/v1/managers/1")] []

/-- The environment `env` with a south-bound table of two entries. -/
def twoEntryEnv : Env Script := envWith [("redfish", "ODIM"), ("Systems", "Sys")]

/-- A request for the resource "/redfish/v1/Systems/1" of the plugin GRF. -/
def redfishRequest : PluginContactRequest Script :=
  { Token := "tok-1", OID := "/redfish/v1/Systems/1", DeviceInfo := none, BasicAuth := none,
    ContactClient := client, Plugin := plugin "GRF" "XAuthToken", HTTPMethodType := "GET" }

/-- A request of the plugin GRF that differs from `staleRequest` in the OID, the
token, the body, the basic-auth map and the method. -/
def otherRequest : PluginContactRequest Script :=
  { Token := "tok-9", OID := "/redfish/v1/Chassis/7", DeviceInfo := some [("a", "b")],
    BasicAuth := some [("UserName", "x")], ContactClient := client,
    Plugin := plugin "GRF" "XAuthToken", HTTPMethodType := "PATCH" }

/-- A data store with three managers (the first is the aggregator itself), two
chassis and one system. -/
def store : managers.Store Unit :=
  { GetAllKeysFromTable := fun table _ =>
      if table = "Managers" then
        (["/redfish/v1/Managers/root-1", "/redfish/v1/Managers/uuid-1.1",
          "/redfish/v1/Managers/plugin-7"], none)
      else if table = "Chassis" then
        (["/redfish/v1/Chassis/uuid-1.1", "/redfish/v1/Chassis/uuid-2.1"], none)
      else (["/redfish/v1/Systems/uuid-1.1"], none)
    GetManagerByURL := fun _ _ => .ok "odimra"
    JsonUnMarshalFunc := fun data =>
      .ok { Name := data, ManagerType := "Service", ID := "root-1", UUID := "root-1",
            FirmwareVersion := "1.0", State := "Enabled", Health := "OK", Description := "",
            LogServices := "", Model := "", PowerState := "On" }
    RootServiceUUID := "root-1"
    ManagerType := "#Manager.v1_13_0.Manager"
    now := fun _ => "2020-01-01T00:00:00Z" }

/-- The answer of a payload check of the scenarios.  The empty body is no JSON
text: `json.Unmarshal` fails on it with "unexpected end of JSON input", and the
handler returns status 400 with the message MalformedJSON and the error text
that begins with `context`.  The scenarios hold no other body; any other body is
taken as it is. -/
def payloadCheck (context : String) (req : managers.ManagerRequest) :
    Except (managers.RPC String) String :=
  if req.RequestBody = "" then
    .error { StatusCode := 400, StatusMessage := "MalformedJSON",
             Body := some (context ++ "unexpected end of JSON input") }
  else .ok req.RequestBody

/-- A device interface for the handlers: every device call answers with status
200, and the payload checks answer the empty body with status 400. -/
def deviceHandlers : managers.Device Unit String :=
  { DeviceRequest := fun _ _ _ _ _ w => ({ StatusCode := 200, StatusMessage := "", Body := none }, w)
    GetDeviceInfo := fun _ _ _ w => (.ok "", w)
    UpdateData := fun _ _ _ w => (none, w)
    Unmarshal := fun data => .ok data
    Marshal := fun body => body.getD ""
    toManagerAccount := fun data => data
    convertToRedfishModel := fun _ data => data
    handleRemoteAccountServiceError := fun _ _ err =>
      { StatusCode := 404, StatusMessage := "ResourceNotFound", Body := some err }
    GeneralError := fun code message err _ =>
      { StatusCode := code, StatusMessage := message, Body := some err }
    Success := "Success"
    ResourceNotFound := "ResourceNotFound"
    checkVirtualMediaInsert :=
      payloadCheck "while unmarshaling the virtual media insert request: "
    checkCreateAccount :=
      payloadCheck "while unmarshaling the create remote account service request: "
    checkUpdateAccount :=
      payloadCheck "while unmarshaling the update remote account service request: " }

/-- A request whose manager id holds no dot: the id of a plugin manager. -/
def pluginManagerRequest : managers.ManagerRequest :=
  { ManagerID := "a1b2c3", URL := "/redfish/v1/Managers/a1b2c3/RemoteAccountService/Accounts",
    ResourceID := "", RequestBody := "" }

/-- A request to eject the virtual media of a manager whose id holds no dot. -/
def ejectMediaRequest : managers.ManagerRequest :=
  { ManagerID := "a1b2c3",
    URL := "/redfish/v1/Managers/a1b2c3/VirtualMedia/1/Actions/VirtualMedia.EjectMedia",
    ResourceID := "1", RequestBody := "" }

/-- A request to insert virtual media into a manager whose id holds no dot. -/
def insertMediaRequest : managers.ManagerRequest :=
  { ManagerID := "a1b2c3",
    URL := "/redfish/v1/Managers/a1b2c3/VirtualMedia/1/Actions/VirtualMedia.InsertMedia",
    ResourceID := "1", RequestBody := "" }

/-- A request whose manager id is a UUID, a dot and a device-local id. -/
def deviceManagerRequest : managers.ManagerRequest :=
  { ManagerID := "uuid-1.1", URL := "/redfish/v1/Managers/uuid-1.1/RemoteAccountService/Accounts",
    ResourceID := "", RequestBody := "" }

/-- Role functions for the handlers: the session check fails for the token
"expired" with status 401; the update of the last used time fails for the
token "locked". -/
def roleFuncs : rpc.Funcs Unit String Unit String :=
  { CheckSessionTimeOutFunc := fun token w =>
      if token = "expired" then
        (.error { message := "session expired", StatusCode := 401,
                  StatusMessage := "NoValidSession" }, w)
      else (.ok token, w)
    UpdateLastUsedTimeFunc := fun token w =>
      if token = "locked" then (some "store is down", w) else (none, w)
    CreateFunc := fun _ _ w => ({ StatusCode := 201, StatusMessage := "Created", Header := [],
                                  Body := "role" }, w)
    GetRoleFunc := fun _ _ w => ({ StatusCode := 200, StatusMessage := "Success", Header := [],
                                   Body := "role" }, w)
    GetAllRolesFunc := fun _ w => ({ StatusCode := 200, StatusMessage := "Success", Header := [],
                                     Body := "roles" }, w)
    UpdateFunc := fun _ _ w => ({ StatusCode := 200, StatusMessage := "Success", Header := [],
                                  Body := "role" }, w)
    MarshalFunc := fun body => .ok body
    generalErrorBody := fun _ _ message _ => some message
    genericErrorBody := fun _ message => some message
    InternalError := "InternalError"
    InMemoryHost := "localhost"
    InMemoryPort := "6379" }

/-- A request for a resource of a manager whose id is "redfish". -/
def straddleRequest : ResourceInfoRequest Script :=
  { URL := "/redfish/v1/Managers/u1:redfish/v1/Systems/x", UUID := "u1", SystemID := "redfish",
    ContactClient := client, DecryptDevicePassword := fun p => .ok p }

/-- A request for the BIOS settings of a system. -/
def biosRequest : ResourceInfoRequest Script :=
  { URL := "/redfish/v1/Systems/uuid-1:1/Bios/Settings", UUID := "uuid-1", SystemID := "1",
    ContactClient := client, DecryptDevicePassword := fun p => .ok p }

end scenario

/-! ## Lemmas on the library functions -/

namespace strings

theorem replaceFrom_of_no_match (old new : List Char) :
    ∀ cs : List Char, ¬ old <:+: cs → replaceFrom old new 0 cs = cs := by
  intro cs
  induction cs with
  | nil => intro _; rfl
  | cons c cs ih =>
    intro h
    have hp : old.isPrefixOf (c :: cs) = false := by
      cases hb : old.isPrefixOf (c :: cs) with
      | false => rfl
      | true =>
        exact absurd (List.isPrefixOf_iff_prefix.mp hb).isInfix h
    have htail : ¬ old <:+: cs := fun hi => h (hi.trans (List.suffix_cons c cs).isInfix)
    simp only [replaceFrom, hp, ih htail]
    simp

/-- A string in which `old` does not occur is returned unchanged. -/
theorem Replace_of_not_Contains (s old new : String) (h : ¬ Contains s old) :
    Replace s old new = s := by
  unfold Replace
  by_cases heq : old = new
  · simp [heq]
  · have hne : old.data ≠ [] := by
      intro h0
      apply h
      unfold Contains
      rw [h0]
      exact List.nil_infix
    simp only [heq, hne, if_false]
    rw [replaceFrom_of_no_match old.data new.data s.data h]

end strings

/-! ## Lemmas on the operations -/

namespace mgrcommon

variable {σ : Type}

theorem callPlugin_eq (env : Env σ) (req : PluginContactRequest σ) (s : System σ) :
    callPlugin env req s = invoke req.ContactClient (clientCallOf env req) s := by
  unfold callPlugin clientCallOf
  split <;> rfl

theorem callPlugin_Token (env : Env σ) (req : PluginContactRequest σ) (s : System σ) :
    (callPlugin env req s).2.Token = s.Token := by
  rw [callPlugin_eq]; rfl

theorem callPlugin_calls (env : Env σ) (req : PluginContactRequest σ) (s : System σ) :
    (callPlugin env req s).2.calls = s.calls ++ [clientCallOf env req] := by
  rw [callPlugin_eq]; rfl

theorem callPlugin_probes (env : Env σ) (req : PluginContactRequest σ) (s : System σ) :
    (callPlugin env req s).2.probes = s.probes := by
  rw [callPlugin_eq]; rfl

theorem getPluginStatus_Token (env : Env σ) (plugin : mgrmodel.Plugin) (s : System σ) :
    (getPluginStatus env plugin s).2.Token = s.Token := rfl

theorem getPluginStatus_calls (env : Env σ) (plugin : mgrmodel.Plugin) (s : System σ) :
    (getPluginStatus env plugin s).2.calls = s.calls := rfl

theorem getPluginStatus_probes (env : Env σ) (plugin : mgrmodel.Plugin) (s : System σ) :
    (getPluginStatus env plugin s).2.probes = s.probes ++ [pluginStatusOf env plugin] := rfl

/-- The transport phase unfolded along the result of the first call and of the
health probe. -/
theorem callPluginRetry_cases (env : Env σ) (req : PluginContactRequest σ) (s : System σ) :
    (failed (callPlugin env req s).1 = false
        ∧ callPluginRetry env req s = callPlugin env req s)
    ∨ (failed (callPlugin env req s).1 = true
        ∧ (getPluginStatus env req.Plugin (callPlugin env req s).2).1 = true
        ∧ callPluginRetry env req s
            = callPlugin env req (getPluginStatus env req.Plugin (callPlugin env req s).2).2)
    ∨ (failed (callPlugin env req s).1 = true
        ∧ (getPluginStatus env req.Plugin (callPlugin env req s).2).1 = false
        ∧ (callPluginRetry env req s).1 = (callPlugin env req s).1
        ∧ (callPluginRetry env req s).2
            = (getPluginStatus env req.Plugin (callPlugin env req s).2).2) := by
  unfold callPluginRetry
  rcases h1 : callPlugin env req s with ⟨r1, s1⟩
  cases r1 with
  | ok response => left; exact ⟨rfl, rfl⟩
  | error err =>
    right
    simp only
    rcases h2 : getPluginStatus env req.Plugin s1 with ⟨b, s2⟩
    cases b with
    | true => left; exact ⟨rfl, rfl, rfl⟩
    | false => right; exact ⟨rfl, rfl, rfl, rfl⟩

theorem callPluginRetry_Token (env : Env σ) (req : PluginContactRequest σ) (s : System σ) :
    (callPluginRetry env req s).2.Token = s.Token := by
  rcases callPluginRetry_cases env req s with ⟨_, h⟩ | ⟨_, _, h⟩ | ⟨_, _, _, h⟩
  · rw [h, callPlugin_Token]
  · rw [h, callPlugin_Token, getPluginStatus_Token, callPlugin_Token]
  · rw [h, getPluginStatus_Token, callPlugin_Token]

/-- The outcome of `ContactPlugin` in terms of the transport phase. -/
theorem ContactPlugin_eq (env : Env σ) (req : PluginContactRequest σ) (errorMessage : String)
    (s : System σ) :
    ContactPlugin env req errorMessage s
      = (match (callPluginRetry env req s).1 with
          | .error err => internalError env (errorMessage ++ err)
          | .ok response => readResponse env response errorMessage,
         (callPluginRetry env req s).2) := by
  unfold ContactPlugin
  rcases callPluginRetry env req s with ⟨r, s1⟩
  cases r <;> rfl

theorem ContactPlugin_Token (env : Env σ) (req : PluginContactRequest σ) (errorMessage : String)
    (s : System σ) : (ContactPlugin env req errorMessage s).2.Token = s.Token := by
  rw [ContactPlugin_eq]; exact callPluginRetry_Token env req s

theorem readResponse_token_of_err (env : Env σ) (response : http.Response)
    (errorMessage : String) (h : (readResponse env response errorMessage).err ≠ none) :
    (readResponse env response errorMessage).token = "" := by
  unfold readResponse at h ⊢
  cases hb : response.Body with
  | error e => rfl
  | ok b =>
    rw [hb] at h
    by_cases hc : response.StatusCode = http.StatusOK ∨ response.StatusCode = http.StatusCreated
    · simp [hc] at h
    · simp [hc]

/-- On every error return of `ContactPlugin` the token is empty. -/
theorem ContactPlugin_token_of_err (env : Env σ) (req : PluginContactRequest σ)
    (errorMessage : String) (s : System σ)
    (h : (ContactPlugin env req errorMessage s).1.err ≠ none) :
    (ContactPlugin env req errorMessage s).1.token = "" := by
  rw [ContactPlugin_eq] at h ⊢
  cases hr : (callPluginRetry env req s).1 with
  | error e => rfl
  | ok response =>
    rw [hr] at h
    exact readResponse_token_of_err env response errorMessage h

theorem storeAll_GetToken (stores : List (String × String)) (c : PluginToken) (p : String) :
    (c.storeAll stores).GetToken p
      = (((stores.filter (fun kv => kv.1 = p)).getLast?).map Prod.snd).getD (c.GetToken p) := by
  induction stores using List.reverseRecOn with
  | nil => rfl
  | append_singleton l kv ih =>
    have hs : c.storeAll (l ++ [kv]) = (c.storeAll l).StoreToken kv.1 kv.2 := by
      simp [PluginToken.storeAll, List.foldl_append]
    rw [hs, List.filter_append]
    by_cases hk : kv.1 = p
    · simp [List.filter, hk, PluginToken.StoreToken, PluginToken.GetToken]
    · have hk2 : ¬ p = kv.1 := fun h => hk h.symm
      simp [List.filter, hk]
      simp [List.filter, hk] at ih
      rw [← ih]
      simp [PluginToken.StoreToken, PluginToken.GetToken, hk2]

end mgrcommon

/-! ## Token cache and session manager -/

namespace mgrcommon

variable {σ : Type}

/-- C1: after any sequence of `StoreToken` calls on the empty cache, `GetToken p`
is the token of the most recent call for `p`, and "" when there was none; a
`StoreToken` overwrites the token of its own plugin id and never changes what
`GetToken` returns for another id. -/
theorem GetToken_after_stores (stores : List (String × String)) (p : String) :
    (PluginToken.empty.storeAll stores).GetToken p = lastStored stores p
    ∧ (∀ (c : PluginToken) (t : String), (c.StoreToken p t).GetToken p = t)
    ∧ (∀ (c : PluginToken) (q t : String), q ≠ p →
        (c.StoreToken q t).GetToken p = c.GetToken p) := by
  refine ⟨?_, ?_, ?_⟩
  · rw [storeAll_GetToken]; rfl
  · intro c t
    simp [PluginToken.StoreToken, PluginToken.GetToken]
  · intro c q t hq
    have hq2 : ¬ p = q := fun h => hq h.symm
    simp [PluginToken.StoreToken, PluginToken.GetToken, hq2]

/-- Witness of C1: two tokens stored for GRF with one for ILO in between. -/
theorem GetToken_after_stores_witness :
    "ILO" ≠ "GRF"
    ∧ (PluginToken.empty.storeAll [("GRF", "tok-1"), ("ILO", "x"), ("GRF", "tok-2")]).GetToken "GRF"
        = "tok-2"
    ∧ (PluginToken.empty.storeAll [("GRF", "tok-1")]).GetToken "ILO" = ""
    ∧ ((PluginToken.empty.StoreToken "GRF" "tok-1").StoreToken "ILO" "x").GetToken "GRF"
        = (PluginToken.empty.StoreToken "GRF" "tok-1").GetToken "GRF" :=
  ⟨by decide,
   (GetToken_after_stores [("GRF", "tok-1"), ("ILO", "x"), ("GRF", "tok-2")] "GRF").1.trans
     (by decide),
   (GetToken_after_stores [("GRF", "tok-1")] "ILO").1.trans (by decide),
   (GetToken_after_stores [] "GRF").2.2 (PluginToken.empty.StoreToken "GRF" "tok-1") "ILO" "x"
     (by decide)⟩

/-- C2: when the cache holds a non-empty token `t` for the plugin of the
request, `GetPluginToken` returns `t`, makes no transport call (and no health
probe), and leaves the cache and the world as they were. -/
theorem GetPluginToken_cached (env : Env σ) (req : PluginContactRequest σ) (s : System σ)
    (t : String) (h : s.Token.GetToken req.Plugin.ID = t) (ht : t ≠ "") :
    (GetPluginToken env req s).1 = t
    ∧ (GetPluginToken env req s).2.calls = s.calls
    ∧ (GetPluginToken env req s).2.probes = s.probes
    ∧ (GetPluginToken env req s).2.Token = s.Token
    ∧ (GetPluginToken env req s).2 = s := by
  have hres : GetPluginToken env req s = (t, s) := by
    unfold GetPluginToken
    simp only [h, if_neg ht]
  rw [hres]
  exact ⟨rfl, rfl, rfl, rfl, rfl⟩

/-- Witness of C2: the cache holds tok-1 for GRF; the script of the transport
is not touched. -/
theorem GetPluginToken_cached_witness :
    (scenario.start (PluginToken.empty.StoreToken "GRF" "tok-1") [] []).Token.GetToken
        scenario.grfRequest.Plugin.ID = "tok-1"
    ∧ (GetPluginToken scenario.env scenario.grfRequest
        (scenario.start (PluginToken.empty.StoreToken "GRF" "tok-1") [] [])).1 = "tok-1"
    ∧ (GetPluginToken scenario.env scenario.grfRequest
        (scenario.start (PluginToken.empty.StoreToken "GRF" "tok-1") [] [])).2.calls = [] :=
  ⟨by decide,
   (GetPluginToken_cached scenario.env scenario.grfRequest
      (scenario.start (PluginToken.empty.StoreToken "GRF" "tok-1") [] []) "tok-1"
      (by decide) (by decide)).1,
   (GetPluginToken_cached scenario.env scenario.grfRequest
      (scenario.start (PluginToken.empty.StoreToken "GRF" "tok-1") [] []) "tok-1"
      (by decide) (by decide)).2.1⟩

end mgrcommon

namespace mgrcommon

variable {σ : Type}

/-- C3, as stated, fails: the transport answers the login of GRF with status 200
and the header X-Auth-Token: tok-1, the cache is empty, but the body of the
answer cannot be read; `GetPluginToken` returns "" and the cache stays empty. -/
theorem GetPluginToken_unreadable_body :
    scenario.unreadableStart.Token.GetToken scenario.grfRequest.Plugin.ID = ""
    ∧ (callPluginRetry scenario.env (loginRequest scenario.grfRequest)
        scenario.unreadableStart).1 = .ok scenario.unreadable
    ∧ scenario.unreadable.StatusCode = 200
    ∧ http.HeaderGet scenario.unreadable.Header "X-Auth-Token" = "tok-1"
    ∧ (GetPluginToken scenario.env scenario.grfRequest scenario.unreadableStart).1 = ""
    ∧ (GetPluginToken scenario.env scenario.grfRequest scenario.unreadableStart).2.Token.GetToken
        "GRF" = "" :=
  ⟨by decide, rfl, by decide, by decide, by decide, by decide⟩

/-- C3, amended: the cache holds no token (or an empty one) for the plugin `p`
of the request, the transport delivers for the login call a response with
status 200 or 201, a body that is read without error, and a non-empty
X-Auth-Token value `t`.  Then `GetPluginToken` returns `t`, and the cache
afterwards is the cache before with `p` mapped to `t`: every other plugin id
maps to what it mapped to before. -/
theorem GetPluginToken_login (env : Env σ) (req : PluginContactRequest σ) (s : System σ)
    (response : http.Response) (body t : String)
    (hcache : s.Token.GetToken req.Plugin.ID = "")
    (hresp : (callPluginRetry env (loginRequest req) s).1 = .ok response)
    (hstatus : response.StatusCode = 200 ∨ response.StatusCode = 201)
    (hbody : response.Body = .ok body)
    (hheader : http.HeaderGet response.Header "X-Auth-Token" = t)
    (ht : t ≠ "") :
    (GetPluginToken env req s).1 = t
    ∧ (GetPluginToken env req s).2.Token = s.Token.StoreToken req.Plugin.ID t
    ∧ (GetPluginToken env req s).2.Token.GetToken req.Plugin.ID = t
    ∧ (∀ q : String, q ≠ req.Plugin.ID →
        (GetPluginToken env req s).2.Token.Tokens q = s.Token.Tokens q) := by
  have hout : (ContactPlugin env (loginRequest req) "error while logging in to plugin: " s).1.token
      = t := by
    rw [ContactPlugin_eq]
    simp only [hresp]
    unfold readResponse
    simp only [hbody]
    have hs : response.StatusCode = http.StatusOK ∨ response.StatusCode = http.StatusCreated :=
      hstatus
    simp [hs, hheader]
  have hres : GetPluginToken env req s
      = (t, { (ContactPlugin env (loginRequest req) "error while logging in to plugin: " s).2 with
                Token := (ContactPlugin env (loginRequest req)
                  "error while logging in to plugin: " s).2.Token.StoreToken req.Plugin.ID t }) := by
    unfold GetPluginToken createToken
    simp only [hcache, if_true, hout, ne_eq, ht, not_false_eq_true]
  rw [hres]
  simp only [ContactPlugin_Token]
  refine ⟨trivial, trivial, ?_, ?_⟩
  · simp [PluginToken.StoreToken, PluginToken.GetToken]
  · intro q hq
    simp [PluginToken.StoreToken, hq]

/-- Witness of the amended C3: plugin GRF, empty cache, the login is answered
with status 200 and X-Auth-Token: tok-1; the result is tok-1 and the cache maps
GRF to tok-1. -/
theorem GetPluginToken_login_witness :
    scenario.loginStart.Token.GetToken scenario.grfRequest.Plugin.ID = ""
    ∧ (GetPluginToken scenario.env scenario.grfRequest scenario.loginStart).1 = "tok-1"
    ∧ (GetPluginToken scenario.env scenario.grfRequest scenario.loginStart).2.Token.GetToken
        "GRF" = "tok-1" :=
  ⟨by decide,
   (GetPluginToken_login scenario.env scenario.grfRequest scenario.loginStart
      (scenario.answer 200 "tok-1" "") "" "tok-1" (by decide) rfl (by decide) rfl (by decide)
      (by decide)).1,
   (GetPluginToken_login scenario.env scenario.grfRequest scenario.loginStart
      (scenario.answer 200 "tok-1" "") "" "tok-1" (by decide) rfl (by decide) rfl (by decide)
      (by decide)).2.2.1⟩

/-- C4: whenever the login contact made by `createToken` returns an error,
`createToken` returns "" and the token cache is what it was before the call. -/
theorem createToken_login_error (env : Env σ) (req : PluginContactRequest σ) (s : System σ)
    (h : (ContactPlugin env (loginRequest req) "error while logging in to plugin: " s).1.err
          ≠ none) :
    (createToken env req s).1 = ""
    ∧ (createToken env req s).2.Token = s.Token := by
  have htok := ContactPlugin_token_of_err env (loginRequest req)
    "error while logging in to plugin: " s h
  have hres : createToken env req s
      = ("", (ContactPlugin env (loginRequest req) "error while logging in to plugin: " s).2) := by
    unfold createToken
    simp only [htok, ne_eq, not_true_eq_false, if_false]
  rw [hres]
  exact ⟨rfl, ContactPlugin_Token env (loginRequest req) _ s⟩

/-- Witness of C4: the cache holds tok-0 for GRF and the login is answered with
status 401; `createToken` returns "" and the cache still holds tok-0. -/
theorem createToken_login_error_witness :
    (ContactPlugin scenario.env (loginRequest scenario.grfRequest)
        "error while logging in to plugin: " scenario.rejectedStart).1.err ≠ none
    ∧ (createToken scenario.env scenario.grfRequest scenario.rejectedStart).1 = ""
    ∧ (createToken scenario.env scenario.grfRequest scenario.rejectedStart).2.Token.GetToken "GRF"
        = "tok-0" :=
  ⟨by decide,
   (createToken_login_error scenario.env scenario.grfRequest scenario.rejectedStart
      (by decide)).1,
   by
     rw [(createToken_login_error scenario.env scenario.grfRequest scenario.rejectedStart
       (by decide)).2]
     decide⟩

end mgrcommon

/-! ## Credentials and transport calls -/

namespace mgrcommon

variable {σ : Type}

/-- C5: `callPlugin` makes one transport call.  When the plugin's
`PreferredAuthType` equals "BasicAuth" ignoring case, the call carries an empty
token and the request's `BasicAuth` map, whatever `req.Token` holds; otherwise
it carries `req.Token` and no basic-auth map, whatever `req.BasicAuth` holds. -/
theorem callPlugin_credentials (env : Env σ) (req : PluginContactRequest σ) (s : System σ) :
    (callPlugin env req s).2.calls = s.calls ++ [clientCallOf env req]
    ∧ (callPlugin env req s).1 = (req.ContactClient (clientCallOf env req) s.world).1
    ∧ (strings.EqualFold req.Plugin.PreferredAuthType "BasicAuth" = true →
        (clientCallOf env req).token = "" ∧ (clientCallOf env req).basicAuth = req.BasicAuth)
    ∧ (strings.EqualFold req.Plugin.PreferredAuthType "BasicAuth" = false →
        (clientCallOf env req).token = req.Token ∧ (clientCallOf env req).basicAuth = none) := by
  refine ⟨callPlugin_calls env req s, ?_, ?_, ?_⟩
  · rw [callPlugin_eq]; rfl
  · intro h
    unfold clientCallOf
    simp [h]
  · intro h
    unfold clientCallOf
    simp [h]

/-- Witness of C5: a basic-auth plugin whose request carries the token "stale",
and a token plugin whose request carries a basic-auth map. -/
theorem callPlugin_credentials_witness :
    strings.EqualFold scenario.basicRequest.Plugin.PreferredAuthType "BasicAuth" = true
    ∧ (clientCallOf scenario.env scenario.basicRequest).token = ""
    ∧ (clientCallOf scenario.env scenario.basicRequest).basicAuth
        = some [("UserName", "admin"), ("Password", "secret")]
    ∧ strings.EqualFold scenario.tokenRequest.Plugin.PreferredAuthType "BasicAuth" = false
    ∧ (clientCallOf scenario.env scenario.tokenRequest).token = "tok-1"
    ∧ (clientCallOf scenario.env scenario.tokenRequest).basicAuth = none :=
  ⟨by decide,
   ((callPlugin_credentials scenario.env scenario.basicRequest
      (scenario.start PluginToken.empty [] [])).2.2.1 (by decide)).1,
   ((callPlugin_credentials scenario.env scenario.basicRequest
      (scenario.start PluginToken.empty [] [])).2.2.1 (by decide)).2,
   by decide,
   ((callPlugin_credentials scenario.env scenario.tokenRequest
      (scenario.start PluginToken.empty [] [])).2.2.2 (by decide)).1,
   ((callPlugin_credentials scenario.env scenario.tokenRequest
      (scenario.start PluginToken.empty [] [])).2.2.2 (by decide)).2⟩

end mgrcommon

/-! ## The contact protocol -/

namespace mgrcommon

variable {σ : Type}

theorem int32_of_fits (x : Int) (h : fitsInt32 x) : int32 x = x := by
  unfold fitsInt32 at h
  unfold int32
  norm_num at h ⊢
  omega

/-- The logs after `ContactPlugin`, along the result of the first transport call
and of the health probe. -/
theorem ContactPlugin_logs (env : Env σ) (req : PluginContactRequest σ) (errorMessage : String)
    (s : System σ) :
    (failed (callPlugin env req s).1 = false
        ∧ (ContactPlugin env req errorMessage s).2.calls = s.calls ++ [clientCallOf env req]
        ∧ (ContactPlugin env req errorMessage s).2.probes = s.probes)
    ∨ (failed (callPlugin env req s).1 = true
        ∧ (getPluginStatus env req.Plugin (callPlugin env req s).2).1 = true
        ∧ (ContactPlugin env req errorMessage s).2.calls
            = s.calls ++ [clientCallOf env req, clientCallOf env req]
        ∧ (ContactPlugin env req errorMessage s).2.probes
            = s.probes ++ [pluginStatusOf env req.Plugin])
    ∨ (failed (callPlugin env req s).1 = true
        ∧ (getPluginStatus env req.Plugin (callPlugin env req s).2).1 = false
        ∧ (ContactPlugin env req errorMessage s).2.calls = s.calls ++ [clientCallOf env req]
        ∧ (ContactPlugin env req errorMessage s).2.probes
            = s.probes ++ [pluginStatusOf env req.Plugin]) := by
  rw [ContactPlugin_eq]
  rcases callPluginRetry_cases env req s with ⟨h1, h⟩ | ⟨h1, h2, h⟩ | ⟨h1, h2, _, h⟩
  · left
    refine ⟨h1, ?_, ?_⟩
    · show (callPluginRetry env req s).2.calls = _
      rw [h, callPlugin_calls]
    · show (callPluginRetry env req s).2.probes = _
      rw [h, callPlugin_probes]
  · right; left
    refine ⟨h1, h2, ?_, ?_⟩
    · show (callPluginRetry env req s).2.calls = _
      rw [h, callPlugin_calls, getPluginStatus_calls, callPlugin_calls]
      simp
    · show (callPluginRetry env req s).2.probes = _
      rw [h, callPlugin_probes, getPluginStatus_probes, callPlugin_probes]
  · right; right
    refine ⟨h1, h2, ?_, ?_⟩
    · show (callPluginRetry env req s).2.calls = _
      rw [h, getPluginStatus_calls, callPlugin_calls]
    · show (callPluginRetry env req s).2.probes = _
      rw [h, getPluginStatus_probes, callPlugin_probes]

/-- C8: per `ContactPlugin` call, when the first transport call succeeds the
transport is invoked exactly once and the health probe not at all; when it
fails the health probe is invoked exactly once, and the transport is invoked a
second and last time exactly when the probe reports the plugin alive (once
otherwise).  The transport is never invoked more than twice, and the logs only
grow. -/
theorem ContactPlugin_call_count (env : Env σ) (req : PluginContactRequest σ)
    (errorMessage : String) (s : System σ) :
    (failed (callPlugin env req s).1 = false →
        (newCalls s (ContactPlugin env req errorMessage s).2).length = 1
        ∧ (newProbes s (ContactPlugin env req errorMessage s).2).length = 0)
    ∧ (failed (callPlugin env req s).1 = true →
        (newProbes s (ContactPlugin env req errorMessage s).2).length = 1
        ∧ ((newCalls s (ContactPlugin env req errorMessage s).2).length = 2
            ↔ (getPluginStatus env req.Plugin (callPlugin env req s).2).1 = true)
        ∧ ((newCalls s (ContactPlugin env req errorMessage s).2).length = 1
            ↔ (getPluginStatus env req.Plugin (callPlugin env req s).2).1 = false))
    ∧ (newCalls s (ContactPlugin env req errorMessage s).2).length ≤ 2
    ∧ s.calls <+: (ContactPlugin env req errorMessage s).2.calls
    ∧ s.probes <+: (ContactPlugin env req errorMessage s).2.probes := by
  unfold newCalls newProbes
  rcases ContactPlugin_logs env req errorMessage s with
    ⟨h1, hc, hp⟩ | ⟨h1, h2, hc, hp⟩ | ⟨h1, h2, hc, hp⟩
  all_goals
    rw [hc, hp]
    simp [h1] <;> simp_all

/-- Witness of C8: the first transport call fails, the probe reports the plugin
alive, and the transport is invoked a second time. -/
theorem ContactPlugin_call_count_witness :
    failed (callPlugin scenario.env scenario.grfRequest scenario.flakyStart).1 = true
    ∧ (newProbes scenario.flakyStart
        (ContactPlugin scenario.env scenario.grfRequest "" scenario.flakyStart).2).length = 1
    ∧ (newCalls scenario.flakyStart
        (ContactPlugin scenario.env scenario.grfRequest "" scenario.flakyStart).2).length = 2 :=
  ⟨by decide,
   ((ContactPlugin_call_count scenario.env scenario.grfRequest "" scenario.flakyStart).2.1
      (by decide)).1,
   ((ContactPlugin_call_count scenario.env scenario.grfRequest "" scenario.flakyStart).2.1
      (by decide)).2.1.mpr (by decide)⟩

end mgrcommon

namespace mgrcommon

variable {σ : Type}

theorem internalError_isInternalError (env : Env σ) (errorMessage : String) :
    isInternalError env (internalError env errorMessage) := by
  refine ⟨rfl, rfl, rfl, ?_⟩
  simp [internalError, fmt.Errorf]

theorem readResponse_isInternalError_iff (env : Env σ) (response : http.Response)
    (errorMessage : String) :
    isInternalError env (readResponse env response errorMessage)
      ↔ ∃ e, response.Body = .error e := by
  constructor
  · intro h
    have hb := h.1
    unfold readResponse at hb
    cases hbody : response.Body with
    | error e => exact ⟨e, rfl⟩
    | ok b =>
      rw [hbody] at hb
      by_cases hc : response.StatusCode = http.StatusOK ∨ response.StatusCode = http.StatusCreated
      · simp [hc] at hb
      · simp [hc] at hb
  · rintro ⟨e, he⟩
    unfold readResponse
    rw [he]
    exact internalError_isInternalError env _

theorem failed_eq_true_iff {α : Type} (r : Except String α) :
    failed r = true ↔ ∃ e, r = .error e := by
  cases r <;> simp [failed]

theorem failed_eq_false_iff {α : Type} (r : Except String α) :
    failed r = false ↔ ∃ a, r = .ok a := by
  cases r <;> simp [failed]

/-- C9: `ContactPlugin` returns the internal-error outcome exactly when the first
transport call fails and the health probe reports the plugin not alive, or the
first and the probe-gated second transport call both fail, or the body of the
delivered response cannot be read.  The HTTP status of the response does not
occur in the condition. -/
theorem ContactPlugin_isInternalError_iff (env : Env σ) (req : PluginContactRequest σ)
    (errorMessage : String) (s : System σ) :
    isInternalError env (ContactPlugin env req errorMessage s).1
      ↔ (failed (callPlugin env req s).1 = true
          ∧ (getPluginStatus env req.Plugin (callPlugin env req s).2).1 = false)
        ∨ (failed (callPlugin env req s).1 = true
          ∧ (getPluginStatus env req.Plugin (callPlugin env req s).2).1 = true
          ∧ failed (callPlugin env req
              (getPluginStatus env req.Plugin (callPlugin env req s).2).2).1 = true)
        ∨ (∃ response e,
            ((callPlugin env req s).1 = .ok response
              ∨ (failed (callPlugin env req s).1 = true
                ∧ (getPluginStatus env req.Plugin (callPlugin env req s).2).1 = true
                ∧ (callPlugin env req
                    (getPluginStatus env req.Plugin (callPlugin env req s).2).2).1
                    = .ok response))
            ∧ response.Body = .error e) := by
  rw [ContactPlugin_eq]
  simp only
  rcases callPluginRetry_cases env req s with ⟨h1, h⟩ | ⟨h1, h2, h⟩ | ⟨h1, h2, h, _⟩
  · obtain ⟨response, hr⟩ := (failed_eq_false_iff _).mp h1
    rw [h, hr]
    simp only [readResponse_isInternalError_iff, failed]
    constructor
    · rintro ⟨e, he⟩
      exact Or.inr (Or.inr ⟨response, e, Or.inl rfl, he⟩)
    · rintro (⟨hf, _⟩ | ⟨hf, _⟩ | ⟨r, e, hr2 | ⟨hf, _⟩, he⟩)
      · exact absurd hf (by simp)
      · exact absurd hf (by simp)
      · cases hr2; exact ⟨e, he⟩
      · exact absurd hf (by simp)
  · rw [h]
    obtain ⟨e1, hr1⟩ := (failed_eq_true_iff _).mp h1
    cases hr2 : (callPlugin env req
        (getPluginStatus env req.Plugin (callPlugin env req s).2).2).1 with
    | error e2 =>
      simp only [internalError_isInternalError, true_iff]
      exact Or.inr (Or.inl ⟨h1, h2, by simp [failed]⟩)
    | ok response =>
      simp only [readResponse_isInternalError_iff]
      constructor
      · rintro ⟨e, he⟩
        exact Or.inr (Or.inr ⟨response, e, Or.inr ⟨h1, h2, rfl⟩, he⟩)
      · rintro (⟨_, hf⟩ | ⟨_, _, hf⟩ | ⟨r, e, hr3 | ⟨_, _, hr3⟩, he⟩)
        · rw [h2] at hf; exact absurd hf (by simp)
        · simp [failed] at hf
        · rw [hr1] at hr3; cases hr3
        · cases hr3; exact ⟨e, he⟩
  · rw [h]
    obtain ⟨e1, hr1⟩ := (failed_eq_true_iff _).mp h1
    rw [hr1]
    simp only [internalError_isInternalError, true_iff]
    left
    rw [← hr1]
    exact ⟨h1, h2⟩

/-- C10: when the delivered response has a body that is read without error and
a status other than 200 and 201, `ContactPlugin` returns the body as read (no
north-bound translation), an empty token whatever the X-Auth-Token header
holds, an empty status message, the status code converted to `int32`, which is
the status of the response itself for every status that fits an `int32`, and a
non-nil error. -/
theorem ContactPlugin_other_status (env : Env σ) (req : PluginContactRequest σ)
    (errorMessage : String) (s : System σ) (response : http.Response) (body : String)
    (hresp : (callPluginRetry env req s).1 = .ok response)
    (hbody : response.Body = .ok body)
    (h200 : response.StatusCode ≠ 200) (h201 : response.StatusCode ≠ 201) :
    (ContactPlugin env req errorMessage s).1.body = some body
    ∧ (ContactPlugin env req errorMessage s).1.token = ""
    ∧ (ContactPlugin env req errorMessage s).1.status.StatusMessage = ""
    ∧ (ContactPlugin env req errorMessage s).1.status.StatusCode = int32 response.StatusCode
    ∧ (fitsInt32 response.StatusCode →
        (ContactPlugin env req errorMessage s).1.status.StatusCode = response.StatusCode)
    ∧ (ContactPlugin env req errorMessage s).1.err ≠ none := by
  have hc : ¬ (response.StatusCode = http.StatusOK ∨ response.StatusCode = http.StatusCreated) := by
    rintro (h | h)
    · exact h200 h
    · exact h201 h
  have hout : (ContactPlugin env req errorMessage s).1
      = { body := some body, token := "", status := ⟨int32 response.StatusCode, ""⟩,
          err := fmt.Errorf errorMessage } := by
    rw [ContactPlugin_eq]
    simp only [hresp]
    unfold readResponse
    simp only [hbody]
    rw [if_pos hc]
  rw [hout]
  refine ⟨rfl, rfl, rfl, rfl, ?_, ?_⟩
  · intro hfit
    exact int32_of_fits _ hfit
  · simp [fmt.Errorf]

/-- Witness of C10: the plugin answers 404 with an X-Auth-Token header and a body
that contains the north-bound key "redfish"; the body comes back untranslated,
the token is empty, the status code is 404 and the error is non-nil. -/
theorem ContactPlugin_other_status_witness :
    (callPluginRetry scenario.env scenario.grfRequest scenario.notFoundStart).1
        = .ok (scenario.answer 404 "tok-9" "/redfish/v1/Systems/1 not found")
    ∧ fitsInt32 404
    ∧ (ContactPlugin scenario.env scenario.grfRequest "error: " scenario.notFoundStart).1.body
        = some "/redfish/v1/Systems/1 not found"
    ∧ (ContactPlugin scenario.env scenario.grfRequest "error: " scenario.notFoundStart).1.token = ""
    ∧ (ContactPlugin scenario.env scenario.grfRequest "error: "
        scenario.notFoundStart).1.status.StatusCode = 404
    ∧ (ContactPlugin scenario.env scenario.grfRequest "error: " scenario.notFoundStart).1.err
        ≠ none :=
  ⟨rfl, by decide,
   (ContactPlugin_other_status scenario.env scenario.grfRequest "error: " scenario.notFoundStart
      (scenario.answer 404 "tok-9" "/redfish/v1/Systems/1 not found")
      "/redfish/v1/Systems/1 not found" rfl rfl (by decide) (by decide)).1,
   (ContactPlugin_other_status scenario.env scenario.grfRequest "error: " scenario.notFoundStart
      (scenario.answer 404 "tok-9" "/redfish/v1/Systems/1 not found")
      "/redfish/v1/Systems/1 not found" rfl rfl (by decide) (by decide)).2.1,
   (ContactPlugin_other_status scenario.env scenario.grfRequest "error: " scenario.notFoundStart
      (scenario.answer 404 "tok-9" "/redfish/v1/Systems/1 not found")
      "/redfish/v1/Systems/1 not found" rfl rfl (by decide) (by decide)).2.2.2.2.1 (by decide),
   (ContactPlugin_other_status scenario.env scenario.grfRequest "error: " scenario.notFoundStart
      (scenario.answer 404 "tok-9" "/redfish/v1/Systems/1 not found")
      "/redfish/v1/Systems/1 not found" rfl rfl (by decide) (by decide)).2.2.2.2.2⟩

end mgrcommon

/-! ## Basic authentication end to end -/

namespace mgrcommon

variable {σ : Type}

theorem EqualFold_BasicAuth_not_XAuthToken (p : String)
    (h : strings.EqualFold p "BasicAuth" = true) : strings.EqualFold p "XAuthToken" = false := by
  unfold strings.EqualFold at h ⊢
  have hb := eq_of_beq h
  rw [hb]
  decide

/-- Every transport call `ContactPlugin` makes is the call `callPlugin` builds
for the request, and the log only grows. -/
theorem ContactPlugin_newCalls (env : Env σ) (req : PluginContactRequest σ)
    (errorMessage : String) (s : System σ) :
    s.calls <+: (ContactPlugin env req errorMessage s).2.calls
    ∧ ∀ c ∈ newCalls s (ContactPlugin env req errorMessage s).2, c = clientCallOf env req := by
  unfold newCalls
  rcases ContactPlugin_logs env req errorMessage s with
    ⟨_, hc, _⟩ | ⟨_, _, hc, _⟩ | ⟨_, _, hc, _⟩
  all_goals
    rw [hc]
    simp

/-- A system that differs from `s` by nothing has made no new call. -/
theorem newCalls_self (s : System σ) : newCalls s s = [] := by
  simp [newCalls]

/-- The state after `GetResourceInfoFromDevice` for a plugin that does not use
token authentication: the state before, or the state after one `ContactPlugin`
with the basic-auth request. -/
theorem GetResourceInfoFromDevice_basic_state (env : Env σ) (req : ResourceInfoRequest σ)
    (s : System σ) (target : mgrmodel.DeviceTarget) (plugin : mgrmodel.Plugin)
    (hT : env.GetTarget req.UUID s.world = .ok target)
    (hP : env.GetPluginData target.PluginID s.world = .ok plugin)
    (hX : strings.EqualFold plugin.PreferredAuthType "XAuthToken" = false) :
    (GetResourceInfoFromDevice env req s).2 = s
    ∨ ∃ d, (GetResourceInfoFromDevice env req s).2
        = (ContactPlugin env
            { Token := ""
              OID := strings.Replace req.URL (req.UUID ++ ":" ++ req.SystemID) req.SystemID
              DeviceInfo := some [("ManagerAddress", target.ManagerAddress),
                                  ("UserName", target.UserName), ("Password", d)]
              BasicAuth := some [("UserName", plugin.Username), ("Password", plugin.Password)]
              ContactClient := req.ContactClient
              Plugin := plugin
              HTTPMethodType := http.MethodGet }
            ("error while getting the details "
              ++ strings.Replace req.URL (req.UUID ++ ":" ++ req.SystemID) req.SystemID ++ ": ")
            s).2 := by
  unfold GetResourceInfoFromDevice
  simp only [hT, hP, hX]
  cases hd : req.DecryptDevicePassword target.Password with
  | error e => left; simp
  | ok d =>
    right
    refine ⟨d, ?_⟩
    simp only [Bool.false_eq_true, if_false, and_false]
    split
    · rename_i heq
      rw [heq]
    · rename_i heq
      rw [heq]
      simp [hX]

end mgrcommon

namespace managers

open mgrcommon

variable {σ J : Type}

/-- The state after `getPluginManagerResoure` for a plugin that does not use
token authentication: one `ContactPlugin` with the basic-auth request. -/
theorem getPluginManagerResoure_basic_state (env : Env σ) (e : ExternalInterface σ J)
    (managerID reqURI : String) (s : System σ) (data : String) (managerData : J)
    (pluginID : String) (plugin : mgrmodel.Plugin)
    (hM : e.GetManagerByURL ("/redfish/v1/Managers/" ++ managerID) s.world = .ok data)
    (hU : e.Unmarshal data = .ok managerData)
    (hN : e.nameOf managerData = some pluginID)
    (hP : e.GetPluginData pluginID s.world = .ok plugin)
    (hX : strings.EqualFold plugin.PreferredAuthType "XAuthToken" = false) :
    (getPluginManagerResoure env e managerID reqURI s).2
      = (ContactPlugin env
          { Token := ""
            OID := reqURI
            DeviceInfo := none
            BasicAuth := some [("UserName", plugin.Username), ("Password", plugin.Password)]
            ContactClient := e.ContactClient
            Plugin := plugin
            HTTPMethodType := "" }
          ("unable to get the details " ++ reqURI ++ ": ") s).2 := by
  unfold getPluginManagerResoure
  simp only [hM, hU, hN, hP, hX]
  simp only [Bool.false_eq_true, if_false, and_false]
  split
  · rename_i heq
    rw [heq]
  · rename_i heq
    rw [heq]
    simp [hX]

end managers

namespace mgrcommon

variable {σ : Type}

/-- C6: for a plugin whose `PreferredAuthType` is "BasicAuth" (in any case), with
username `u` and password `p`, every transport call issued by
`GetResourceInfoFromDevice` and by `getPluginManagerResoure` receives
`basicAuth = {"UserName": u, "Password": p}` and `token = ""`. -/
theorem basicAuth_transport_calls (env : Env σ) (plugin : mgrmodel.Plugin)
    (hB : strings.EqualFold plugin.PreferredAuthType "BasicAuth" = true) :
    (∀ (req : ResourceInfoRequest σ) (s : System σ) (target : mgrmodel.DeviceTarget),
        env.GetTarget req.UUID s.world = .ok target →
        env.GetPluginData target.PluginID s.world = .ok plugin →
        s.calls <+: (GetResourceInfoFromDevice env req s).2.calls
        ∧ ∀ c ∈ newCalls s (GetResourceInfoFromDevice env req s).2,
            c.basicAuth = some [("UserName", plugin.Username), ("Password", plugin.Password)]
            ∧ c.token = "")
    ∧ (∀ (J : Type) (e : managers.ExternalInterface σ J) (managerID reqURI : String)
        (s : System σ) (data : String) (managerData : J) (pluginID : String),
        e.GetManagerByURL ("/redfish/v1/Managers/" ++ managerID) s.world = .ok data →
        e.Unmarshal data = .ok managerData →
        e.nameOf managerData = some pluginID →
        e.GetPluginData pluginID s.world = .ok plugin →
        s.calls <+: (managers.getPluginManagerResoure env e managerID reqURI s).2.calls
        ∧ ∀ c ∈ newCalls s (managers.getPluginManagerResoure env e managerID reqURI s).2,
            c.basicAuth = some [("UserName", plugin.Username), ("Password", plugin.Password)]
            ∧ c.token = "") := by
  have hX := EqualFold_BasicAuth_not_XAuthToken _ hB
  constructor
  · intro req s target hT hP
    rcases GetResourceInfoFromDevice_basic_state env req s target plugin hT hP hX with
      h | ⟨d, h⟩
    · rw [h, newCalls_self]
      exact ⟨List.prefix_refl _, by simp⟩
    · rw [h]
      refine ⟨(ContactPlugin_newCalls env _ _ s).1, ?_⟩
      intro c hc
      rw [(ContactPlugin_newCalls env _ _ s).2 c hc]
      unfold clientCallOf
      simp [hB]
  · intro J e managerID reqURI s data managerData pluginID hM hU hN hP
    rw [managers.getPluginManagerResoure_basic_state env e managerID reqURI s data managerData
      pluginID plugin hM hU hN hP hX]
    refine ⟨(ContactPlugin_newCalls env _ _ s).1, ?_⟩
    intro c hc
    rw [(ContactPlugin_newCalls env _ _ s).2 c hc]
    unfold clientCallOf
    simp [hB]

/-- Witness of C6: plugin ILO with "BasicAuth", user admin, password secret; the
plugin answers 401.  Each function makes one transport call, and the call
carries the basic-auth map of admin and secret and an empty token. -/
theorem basicAuth_transport_calls_witness :
    strings.EqualFold scenario.ilo.PreferredAuthType "BasicAuth" = true
    ∧ (newCalls scenario.unauthorizedStart
        (GetResourceInfoFromDevice scenario.deviceEnv scenario.resourceRequest
          scenario.unauthorizedStart).2).length = 1
    ∧ (∀ c ∈ newCalls scenario.unauthorizedStart
          (GetResourceInfoFromDevice scenario.deviceEnv scenario.resourceRequest
            scenario.unauthorizedStart).2,
        c.basicAuth = some [("UserName", "admin"), ("Password", "secret")] ∧ c.token = "")
    ∧ (newCalls scenario.unauthorizedStart
        (managers.getPluginManagerResoure scenario.deviceEnv scenario.managersInterface "m1"
          "/redfish/v1/Managers/m1/EthernetInterfaces" scenario.unauthorizedStart).2).length = 1
    ∧ (∀ c ∈ newCalls scenario.unauthorizedStart
          (managers.getPluginManagerResoure scenario.deviceEnv scenario.managersInterface "m1"
            "/redfish/v1/Managers/m1/EthernetInterfaces" scenario.unauthorizedStart).2,
        c.basicAuth = some [("UserName", "admin"), ("Password", "secret")] ∧ c.token = "") :=
  ⟨by decide, by decide,
   ((basicAuth_transport_calls scenario.deviceEnv scenario.ilo (by decide)).1
      scenario.resourceRequest scenario.unauthorizedStart scenario.device rfl rfl).2,
   by decide,
   ((basicAuth_transport_calls scenario.deviceEnv scenario.ilo (by decide)).2 String
      scenario.managersInterface "m1" "/redfish/v1/Managers/m1/EthernetInterfaces"
      scenario.unauthorizedStart "ILO" "ILO" "ILO" rfl rfl rfl rfl).2⟩

end mgrcommon

/-! ## South-bound rewriting of the resource path -/

namespace mgrcommon

variable {σ : Type}

theorem southBound_foldl_of_no_key (OID : String) (table : List (String × String))
    (h : ∀ kv ∈ table, ¬ strings.Contains OID kv.1) (acc : String) :
    table.foldl (fun _ kv => strings.Replace OID kv.1 kv.2) acc
      = if table = [] then acc else OID := by
  induction table generalizing acc with
  | nil => rfl
  | cons kv rest ih =>
    have hkv : strings.Replace OID kv.1 kv.2 = OID :=
      strings.Replace_of_not_Contains OID kv.1 kv.2 (h kv (List.mem_cons_self kv rest))
    have hrest : ∀ kv2 ∈ rest, ¬ strings.Contains OID kv2.1 :=
      fun kv2 hm => h kv2 (List.mem_cons_of_mem kv hm)
    rw [List.foldl_cons, hkv, ih hrest OID]
    simp

/-- With a south-bound table that has at least one entry and none of whose keys
occurs in the OID, `callPlugin` hands the transport the OID unchanged and the
endpoint "https://" + IP + ":" + Port + OID. -/
theorem callPlugin_no_key_nonempty (env : Env σ) (req : PluginContactRequest σ)
    (hne : env.cfg.SouthBoundURL ≠ [])
    (h : ∀ kv ∈ env.cfg.SouthBoundURL, ¬ strings.Contains req.OID kv.1) :
    (clientCallOf env req).odataID = req.OID
    ∧ (clientCallOf env req).url
        = "https://" ++ req.Plugin.IP ++ ":" ++ req.Plugin.Port ++ req.OID := by
  have ho : southBoundOID env.cfg.SouthBoundURL req.OID = req.OID := by
    unfold southBoundOID
    rw [southBound_foldl_of_no_key req.OID _ h "", if_neg hne]
  unfold clientCallOf
  simp only [ho]
  split <;> exact ⟨rfl, rfl⟩

/-- C7 at the empty south-bound table: no key of the table occurs in the OID
"/ODIM/v1/Systems/1", and yet `callPlugin` hands the transport the resource path
"" and the endpoint "https://10.0.0.1:45001", without the OID. -/
theorem callPlugin_empty_table :
    (scenario.envWith []).cfg.SouthBoundURL = []
    ∧ scenario.grfRequest.OID = "/ODIM/v1/Systems/1"
    ∧ (callPlugin (scenario.envWith []) scenario.grfRequest
        (scenario.start PluginToken.empty [] [])).2.calls
        = [⟨"https://10.0.0.1:45001", "GET", "", "", none, none⟩]
    ∧ (clientCallOf (scenario.envWith []) scenario.grfRequest).odataID ≠ scenario.grfRequest.OID :=
  ⟨rfl, rfl, by decide, by decide⟩

end mgrcommon

/-! ## North-bound translation of a successful response -/

namespace mgrcommon

variable {σ : Type}

/-- The outcome of `ContactPlugin` on a delivered response with status 200 or 201
whose body was read. -/
theorem ContactPlugin_ok_outcome (env : Env σ) (req : PluginContactRequest σ)
    (errorMessage : String) (s : System σ) (response : http.Response) (body : String)
    (hresp : (callPluginRetry env req s).1 = .ok response)
    (hbody : response.Body = .ok body)
    (hstatus : response.StatusCode = 200 ∨ response.StatusCode = 201) :
    (ContactPlugin env req errorMessage s).1
      = { body := some (northBound env.cfg.NorthBoundURL body),
          token := http.HeaderGet response.Header "X-Auth-Token",
          status := ⟨0, ""⟩, err := none } := by
  have hs : response.StatusCode = http.StatusOK ∨ response.StatusCode = http.StatusCreated :=
    hstatus
  rw [ContactPlugin_eq]
  simp only [hresp]
  unfold readResponse
  simp only [hbody]
  simp [hs]

/-- A text in which no key of the table occurs passes the north-bound loop
unchanged. -/
theorem northBound_of_no_key (table : List (String × String)) (data : String)
    (h : ∀ kv ∈ table, ¬ strings.Contains data kv.1) : northBound table data = data := by
  unfold northBound
  induction table with
  | nil => rfl
  | cons kv rest ih =>
    rw [List.foldl_cons,
      strings.Replace_of_not_Contains data kv.1 kv.2 (h kv (List.mem_cons_self kv rest))]
    exact ih (fun kv2 hm => h kv2 (List.mem_cons_of_mem kv hm))

/-- C11: on a delivered response with status 200 or 201 whose body is read
without error, `ContactPlugin` returns a nil error, the zero status (code 0,
empty message), the value of the X-Auth-Token header as token ("" when the
header is absent), and the raw body after `strings.Replace(data, key, value, -1)`
for every entry of the north-bound table, one after another in the order of
the table. -/
theorem ContactPlugin_success (env : Env σ) (req : PluginContactRequest σ)
    (errorMessage : String) (s : System σ) (response : http.Response) (body : String)
    (hresp : (callPluginRetry env req s).1 = .ok response)
    (hbody : response.Body = .ok body)
    (hstatus : response.StatusCode = 200 ∨ response.StatusCode = 201) :
    (ContactPlugin env req errorMessage s).1.err = none
    ∧ (ContactPlugin env req errorMessage s).1.status = ⟨0, ""⟩
    ∧ (ContactPlugin env req errorMessage s).1.token
        = http.HeaderGet response.Header "X-Auth-Token"
    ∧ (response.Header.lookup "X-Auth-Token" = none →
        (ContactPlugin env req errorMessage s).1.token = "")
    ∧ (ContactPlugin env req errorMessage s).1.body
        = some (env.cfg.NorthBoundURL.foldl
            (fun data kv => strings.Replace data kv.1 kv.2) body) := by
  rw [ContactPlugin_ok_outcome env req errorMessage s response body hresp hbody hstatus]
  refine ⟨rfl, rfl, rfl, ?_, rfl⟩
  intro hnone
  simp [http.HeaderGet, hnone]

/-- Witness of C11: status 200, X-Auth-Token: tok-7, body "/redfish/v1/Systems/1",
north-bound table redfish to ODIM. -/
theorem ContactPlugin_success_witness :
    (callPluginRetry scenario.env scenario.grfRequest scenario.okStart).1
        = .ok (scenario.answer 200 "tok-7" "/redfish/v1/Systems/1")
    ∧ (ContactPlugin scenario.env scenario.grfRequest "error: " scenario.okStart).1.err = none
    ∧ (ContactPlugin scenario.env scenario.grfRequest "error: " scenario.okStart).1.token = "tok-7"
    ∧ (ContactPlugin scenario.env scenario.grfRequest "error: " scenario.okStart).1.body
        = some "/ODIM/v1/Systems/1" :=
  ⟨rfl,
   (ContactPlugin_success scenario.env scenario.grfRequest "error: " scenario.okStart
      (scenario.answer 200 "tok-7" "/redfish/v1/Systems/1") "/redfish/v1/Systems/1"
      rfl rfl (by decide)).1,
   (ContactPlugin_success scenario.env scenario.grfRequest "error: " scenario.okStart
      (scenario.answer 200 "tok-7" "/redfish/v1/Systems/1") "/redfish/v1/Systems/1"
      rfl rfl (by decide)).2.2.1.trans (by decide),
   (ContactPlugin_success scenario.env scenario.grfRequest "error: " scenario.okStart
      (scenario.answer 200 "tok-7" "/redfish/v1/Systems/1") "/redfish/v1/Systems/1"
      rfl rfl (by decide)).2.2.2.2.trans (by decide)⟩

/-- C12: when no key of the north-bound table occurs in the body of the delivered
response (status 200 or 201, body read without error), the body `ContactPlugin`
returns is the raw body, and the north-bound loop applied to the returned body
leaves it unchanged. -/
theorem ContactPlugin_body_unchanged (env : Env σ) (req : PluginContactRequest σ)
    (errorMessage : String) (s : System σ) (response : http.Response) (body : String)
    (hresp : (callPluginRetry env req s).1 = .ok response)
    (hbody : response.Body = .ok body)
    (hstatus : response.StatusCode = 200 ∨ response.StatusCode = 201)
    (hkeys : ∀ kv ∈ env.cfg.NorthBoundURL, ¬ strings.Contains body kv.1) :
    (ContactPlugin env req errorMessage s).1.body = some body
    ∧ (∀ returned, (ContactPlugin env req errorMessage s).1.body = some returned →
        env.cfg.NorthBoundURL.foldl (fun data kv => strings.Replace data kv.1 kv.2) returned
          = returned)
    ∧ (∀ kv ∈ env.cfg.NorthBoundURL, kv.1 ≠ "") := by
  rw [ContactPlugin_ok_outcome env req errorMessage s response body hresp hbody hstatus]
  have hnb := northBound_of_no_key env.cfg.NorthBoundURL body hkeys
  refine ⟨by rw [hnb], ?_, ?_⟩
  · intro returned hr
    rw [hnb] at hr
    cases hr
    exact hnb
  · intro kv hkv he
    apply hkeys kv hkv
    unfold strings.Contains
    rw [he]
    exact List.nil_infix

/-- Witness of C12: status 201, body with the text Id and 1 in braces, in which
the north-bound key "redfish" does not occur. -/
theorem ContactPlugin_body_unchanged_witness :
    (∀ kv ∈ scenario.env.cfg.NorthBoundURL, ¬ strings.Contains "\x7b\"Id\":\"1\"\x7d" kv.1)
    ∧ (ContactPlugin scenario.env scenario.grfRequest "error: " scenario.createdStart).1.body
        = some "\x7b\"Id\":\"1\"\x7d" :=
  ⟨by decide,
   (ContactPlugin_body_unchanged scenario.env scenario.grfRequest "error: "
      scenario.createdStart
      { StatusCode := 201, Header := [], Body := .ok "\x7b\"Id\":\"1\"\x7d" }
      "\x7b\"Id\":\"1\"\x7d" rfl rfl (by decide) (by decide)).1⟩

end mgrcommon

/-! ## Lemmas on formatting and on the retry coordinator -/

namespace fmt

theorem sprintfFrom_append_of_no_percent (a b : List Char) (h : '%' ∉ a) :
    sprintfFrom 0 (a ++ b) = a ++ sprintfFrom 0 b := by
  induction a with
  | nil => rfl
  | cons c cs ih =>
    have hc : c ≠ '%' := fun e => h (by simp [e])
    have hcs : '%' ∉ cs := fun m => h (List.mem_cons_of_mem c m)
    have hstep : sprintfFrom 0 (c :: (cs ++ b)) = c :: sprintfFrom 0 (cs ++ b) := by
      simp only [sprintfFrom, hc, if_false]
    rw [List.cons_append, hstep, ih hcs, List.cons_append]

/-- The text in front of the first percent sign of a format is printed as it
is. -/
theorem Sprintf_append_of_no_percent (a b : String) (h : '%' ∉ a.data) :
    Sprintf (a ++ b) = a ++ Sprintf b := by
  unfold Sprintf
  apply String.ext
  simp only [String.data_append]
  exact sprintfFrom_append_of_no_percent a.data b.data h

/-- A format without a percent sign is printed as it is. -/
theorem Sprintf_of_no_percent (a : String) (h : '%' ∉ a.data) : Sprintf a = a := by
  have h2 := Sprintf_append_of_no_percent a "" h
  have h3 : Sprintf "" = "" := rfl
  rw [h3] at h2
  simpa using h2

end fmt

namespace mgrcommon

variable {σ : Type}

/-- The outcome of `ContactPlugin` on a delivered response with a status other
than 200 and 201 whose body was read. -/
theorem ContactPlugin_other_outcome (env : Env σ) (req : PluginContactRequest σ)
    (errorMessage : String) (s : System σ) (response : http.Response) (body : String)
    (hresp : (callPluginRetry env req s).1 = .ok response)
    (hbody : response.Body = .ok body)
    (h200 : response.StatusCode ≠ 200) (h201 : response.StatusCode ≠ 201) :
    (ContactPlugin env req errorMessage s).1
      = { body := some body, token := "", status := ⟨int32 response.StatusCode, ""⟩,
          err := fmt.Errorf errorMessage } := by
  have hc : ¬ (response.StatusCode = http.StatusOK ∨ response.StatusCode = http.StatusCreated) := by
    rintro (h | h)
    · exact h200 h
    · exact h201 h
  rw [ContactPlugin_eq]
  simp only [hresp]
  unfold readResponse
  simp only [hbody]
  rw [if_pos hc]

theorem createToken_fst (env : Env σ) (req : PluginContactRequest σ) (s : System σ) :
    (createToken env req s).1 = (ContactPlugin env (loginRequest req) loginMessage s).1.token := by
  unfold createToken loginMessage
  simp only
  split <;> rfl

theorem createToken_calls (env : Env σ) (req : PluginContactRequest σ) (s : System σ) :
    (createToken env req s).2.calls = (ContactPlugin env (loginRequest req) loginMessage s).2.calls := by
  unfold createToken loginMessage
  simp only
  split <;> rfl

theorem createToken_probes (env : Env σ) (req : PluginContactRequest σ) (s : System σ) :
    (createToken env req s).2.probes
      = (ContactPlugin env (loginRequest req) loginMessage s).2.probes := by
  unfold createToken loginMessage
  simp only
  split <;> rfl

theorem createToken_world (env : Env σ) (req : PluginContactRequest σ) (s : System σ) :
    (createToken env req s).2.world
      = (ContactPlugin env (loginRequest req) loginMessage s).2.world := by
  unfold createToken loginMessage
  simp only
  split <;> rfl

/-- The cache after `createToken`: the token is stored when it is not empty. -/
theorem createToken_Token (env : Env σ) (req : PluginContactRequest σ) (s : System σ) :
    (createToken env req s).2.Token
      = if (createToken env req s).1 = "" then s.Token
        else s.Token.StoreToken req.Plugin.ID (createToken env req s).1 := by
  rw [createToken_fst]
  unfold createToken
  simp only
  by_cases h : (ContactPlugin env (loginRequest req) "error while logging in to plugin: " s).1.token
      = ""
  · have h2 : (ContactPlugin env (loginRequest req) loginMessage s).1.token = "" := h
    simp only [h, h2, ne_eq, not_true_eq_false, if_false, if_true]
    exact ContactPlugin_Token env _ _ s
  · have h2 : ¬ (ContactPlugin env (loginRequest req) loginMessage s).1.token = "" := h
    simp only [h, h2, ne_eq, not_false_eq_true, if_true, if_false]
    rw [ContactPlugin_Token]
    rfl

/-- The first transport call of `ContactPlugin` is the call built for the
request. -/
theorem ContactPlugin_first_call (env : Env σ) (req : PluginContactRequest σ)
    (errorMessage : String) (s : System σ) :
    s.calls ++ [clientCallOf env req] <+: (ContactPlugin env req errorMessage s).2.calls := by
  rcases ContactPlugin_logs env req errorMessage s with
    ⟨_, hc, _⟩ | ⟨_, _, hc, _⟩ | ⟨_, _, hc, _⟩
  · rw [hc]
  · rw [hc]
    exact ⟨[clientCallOf env req], by simp⟩
  · rw [hc]

/-- The result of `RetryManagersOperation` when the login yields no token. -/
theorem RetryManagersOperation_of_empty (env : Env σ) (req : PluginContactRequest σ)
    (errorMessage : String) (s : System σ) (h : (createToken env req s).1 = "") :
    RetryManagersOperation env req errorMessage s
      = ({ body := env.MarshalGeneralError env.NoValidSession
                    ("error: Unable to create session with plugin " ++ req.Plugin.ID),
           token := "", status := ⟨401, ""⟩,
           err := fmt.Errorf ("error: Unable to create session with plugin " ++ req.Plugin.ID) },
         (createToken env req s).2) := by
  unfold RetryManagersOperation
  simp only [h, if_true]
  rfl

/-- The result of `RetryManagersOperation` when the login yields a token. -/
theorem RetryManagersOperation_of_token (env : Env σ) (req : PluginContactRequest σ)
    (errorMessage : String) (s : System σ) (h : (createToken env req s).1 ≠ "") :
    RetryManagersOperation env req errorMessage s
      = ContactPlugin env { req with Token := (createToken env req s).1 } errorMessage
          (createToken env req s).2 := by
  unfold RetryManagersOperation
  simp only [h, if_false]

end mgrcommon

/-! ## The retry coordinator -/

namespace mgrcommon

variable {σ : Type}

/-- Every transport call `createToken` makes is the login call, and the log only
grows. -/
theorem createToken_newCalls (env : Env σ) (req : PluginContactRequest σ) (s : System σ) :
    s.calls <+: (createToken env req s).2.calls
    ∧ ∀ c ∈ newCalls s (createToken env req s).2, c = clientCallOf env (loginRequest req) := by
  unfold newCalls
  rw [createToken_calls]
  exact ContactPlugin_newCalls env (loginRequest req) loginMessage s

/-- What `RetryManagersOperation` does when the login yields an empty token: the
error is `fmt.Errorf` of "error: Unable to create session with plugin " followed
by the plugin id, which is that very text when the id holds no percent sign;
the status code is 401 and the token empty; the only transport calls are those
of the login, so the original request is not reissued; the cache is as
before. -/
theorem RetryManagersOperation_login_failed (env : Env σ) (req : PluginContactRequest σ)
    (errorMessage : String) (s : System σ) (h : (createToken env req s).1 = "") :
    (RetryManagersOperation env req errorMessage s).1.err
        = fmt.Errorf ("error: Unable to create session with plugin " ++ req.Plugin.ID)
    ∧ ('%' ∉ req.Plugin.ID.data →
        (RetryManagersOperation env req errorMessage s).1.err
          = some ("error: Unable to create session with plugin " ++ req.Plugin.ID))
    ∧ (RetryManagersOperation env req errorMessage s).1.status.StatusCode = 401
    ∧ (RetryManagersOperation env req errorMessage s).1.token = ""
    ∧ (∀ c ∈ newCalls s (RetryManagersOperation env req errorMessage s).2,
        c = clientCallOf env (loginRequest req))
    ∧ (RetryManagersOperation env req errorMessage s).2.Token = s.Token := by
  rw [RetryManagersOperation_of_empty env req errorMessage s h]
  refine ⟨rfl, ?_, rfl, rfl, (createToken_newCalls env req s).2, ?_⟩
  · intro hp
    have hno : '%' ∉ ("error: Unable to create session with plugin " ++ req.Plugin.ID).data := by
      rw [String.data_append, List.mem_append]
      rintro (h1 | h1)
      · revert h1; decide
      · exact hp h1
    show fmt.Errorf _ = _
    unfold fmt.Errorf
    rw [fmt.Sprintf_of_no_percent _ hno]
  · show (createToken env req s).2.Token = s.Token
    rw [createToken_Token, if_pos h]

/-- C13 at a plugin id with a percent sign: the plugin GRF% answers the login
with status 401, so the login yields an empty token; the error text
`RetryManagersOperation` returns is not the text "error: Unable to create
session with plugin " followed by the plugin id, because the text went through
`fmt.Errorf` as a format. -/
theorem RetryManagersOperation_percent_id :
    (createToken scenario.env scenario.percentRequest scenario.unauthorizedStart).1 = ""
    ∧ (RetryManagersOperation scenario.env scenario.percentRequest "error: "
        scenario.unauthorizedStart).1.err
        = some "error: Unable to create session with plugin GRF%!(NOVERB)"
    ∧ (RetryManagersOperation scenario.env scenario.percentRequest "error: "
        scenario.unauthorizedStart).1.err
        ≠ some ("error: Unable to create session with plugin "
                  ++ scenario.percentRequest.Plugin.ID) :=
  ⟨by decide, by decide, by decide⟩

end mgrcommon

namespace mgrcommon

variable {σ : Type}

/-- C15, as stated, fails: GRF has the stale token tok-1 in the cache and answers
the original request with 401; the login is answered with status 200 and
X-Auth-Token: tok-2, but the body of that answer cannot be read; the next answer
of the plugin would be status 200 with a body.  The retry returns an error and
the cache still maps GRF to tok-1. -/
theorem RetryManagersOperation_unreadable_login :
    (ContactPlugin scenario.env scenario.staleRequest "error: "
        scenario.renewUnreadableStart).1.status.StatusCode = 401
    ∧ ((callPluginRetry scenario.env (loginRequest scenario.staleRequest)
          (ContactPlugin scenario.env scenario.staleRequest "error: "
            scenario.renewUnreadableStart).2).1.toOption.map
          (fun r => (r.StatusCode, http.HeaderGet r.Header "X-Auth-Token")))
        = some (200, "tok-2")
    ∧ ((RetryManagersOperation scenario.env scenario.staleRequest "error: "
          (ContactPlugin scenario.env scenario.staleRequest "error: "
            scenario.renewUnreadableStart).2).2.world.answers.map
          (fun a => a.toOption.map (fun r => (r.StatusCode, r.Body.toOption))))
        = [some (200, some "\x7b\"Id\":\"1\"\x7d")]
    ∧ (RetryManagersOperation scenario.env scenario.staleRequest "error: "
        (ContactPlugin scenario.env scenario.staleRequest "error: "
          scenario.renewUnreadableStart).2).1.err ≠ none
    ∧ (RetryManagersOperation scenario.env scenario.staleRequest "error: "
        (ContactPlugin scenario.env scenario.staleRequest "error: "
          scenario.renewUnreadableStart).2).2.Token.GetToken "GRF" = "tok-1" :=
  ⟨by decide, by decide, by decide, by decide, by decide⟩

/-- A plugin that uses token authentication does not use basic authentication. -/
theorem EqualFold_XAuthToken_not_BasicAuth (p : String)
    (h : strings.EqualFold p "XAuthToken" = true) : strings.EqualFold p "BasicAuth" = false := by
  unfold strings.EqualFold at h ⊢
  have hb := eq_of_beq h
  rw [hb]
  decide

/-- C15, amended: the plugin `p` of the request uses token authentication.  The
login `RetryManagersOperation` performs is answered with status 200, a body
that is read without error, and a non-empty X-Auth-Token `t`; the request
reissued with `t` is answered with status 200 and body `b`.  Then the retry
returns a nil error and the north-bound translation of `b`, every transport
call of the reissued request carries the token `t`, and the cache afterwards
maps `p` to `t`.  This holds from every state, in particular from the one left
by the original request that was answered with 401 while the cache held a
stale token. -/
theorem RetryManagersOperation_renew (env : Env σ) (req : PluginContactRequest σ)
    (errorMessage : String) (s : System σ) (login answer : http.Response)
    (loginBody t b : String)
    (hX : strings.EqualFold req.Plugin.PreferredAuthType "XAuthToken" = true)
    (hlogin : (callPluginRetry env (loginRequest req) s).1 = .ok login)
    (hloginStatus : login.StatusCode = 200)
    (hloginBody : login.Body = .ok loginBody)
    (hheader : http.HeaderGet login.Header "X-Auth-Token" = t)
    (ht : t ≠ "")
    (hanswer : (callPluginRetry env { req with Token := t } (createToken env req s).2).1
        = .ok answer)
    (hanswerStatus : answer.StatusCode = 200)
    (hanswerBody : answer.Body = .ok b) :
    (RetryManagersOperation env req errorMessage s).1.err = none
    ∧ (RetryManagersOperation env req errorMessage s).1.body
        = some (env.cfg.NorthBoundURL.foldl (fun data kv => strings.Replace data kv.1 kv.2) b)
    ∧ (∀ c ∈ newCalls (createToken env req s).2 (RetryManagersOperation env req errorMessage s).2,
        c.token = t)
    ∧ (RetryManagersOperation env req errorMessage s).2.Token.GetToken req.Plugin.ID = t := by
  have htok : (createToken env req s).1 = t := by
    rw [createToken_fst,
      ContactPlugin_ok_outcome env (loginRequest req) loginMessage s login loginBody hlogin
        hloginBody (Or.inl hloginStatus)]
    exact hheader
  have hne : (createToken env req s).1 ≠ "" := by rw [htok]; exact ht
  rw [RetryManagersOperation_of_token env req errorMessage s hne, htok]
  have hout := ContactPlugin_ok_outcome env { req with Token := t } errorMessage
    (createToken env req s).2 answer b hanswer hanswerBody (Or.inl hanswerStatus)
  refine ⟨by rw [hout], by rw [hout]; rfl, ?_, ?_⟩
  · intro c hc
    rw [(ContactPlugin_newCalls env _ errorMessage _).2 c hc]
    have hB := EqualFold_XAuthToken_not_BasicAuth _ hX
    unfold clientCallOf
    simp [hB]
  · rw [ContactPlugin_Token, createToken_Token, if_neg hne, htok]
    simp [PluginToken.StoreToken, PluginToken.GetToken]

/-- Witness of the amended C15: stale token tok-1, new token tok-2, body with
the text Id and 1 in braces; the state is the one left by the original request,
which the plugin answered with 401. -/
theorem RetryManagersOperation_renew_witness :
    (ContactPlugin scenario.env scenario.staleRequest "error: "
        scenario.renewStart).1.status.StatusCode = 401
    ∧ (RetryManagersOperation scenario.env scenario.staleRequest "error: "
        (ContactPlugin scenario.env scenario.staleRequest "error: " scenario.renewStart).2).1.err
        = none
    ∧ (RetryManagersOperation scenario.env scenario.staleRequest "error: "
        (ContactPlugin scenario.env scenario.staleRequest "error: " scenario.renewStart).2).1.body
        = some "\x7b\"Id\":\"1\"\x7d"
    ∧ (RetryManagersOperation scenario.env scenario.staleRequest "error: "
        (ContactPlugin scenario.env scenario.staleRequest "error: "
          scenario.renewStart).2).2.Token.GetToken "GRF" = "tok-2" :=
  ⟨by decide,
   (RetryManagersOperation_renew scenario.env scenario.staleRequest "error: "
      (ContactPlugin scenario.env scenario.staleRequest "error: " scenario.renewStart).2
      (scenario.answer 200 "tok-2" "") (scenario.answer 200 "" "\x7b\"Id\":\"1\"\x7d")
      "" "tok-2" "\x7b\"Id\":\"1\"\x7d" (by decide) rfl rfl rfl (by decide) (by decide)
      rfl rfl rfl).1,
   (RetryManagersOperation_renew scenario.env scenario.staleRequest "error: "
      (ContactPlugin scenario.env scenario.staleRequest "error: " scenario.renewStart).2
      (scenario.answer 200 "tok-2" "") (scenario.answer 200 "" "\x7b\"Id\":\"1\"\x7d")
      "" "tok-2" "\x7b\"Id\":\"1\"\x7d" (by decide) rfl rfl rfl (by decide) (by decide)
      rfl rfl rfl).2.1.trans (by decide),
   (RetryManagersOperation_renew scenario.env scenario.staleRequest "error: "
      (ContactPlugin scenario.env scenario.staleRequest "error: " scenario.renewStart).2
      (scenario.answer 200 "tok-2" "") (scenario.answer 200 "" "\x7b\"Id\":\"1\"\x7d")
      "" "tok-2" "\x7b\"Id\":\"1\"\x7d" (by decide) rfl rfl rfl (by decide) (by decide)
      rfl rfl rfl).2.2.2⟩

end mgrcommon

/-! ## The resource fetch `GetResourceInfoFromDevice` -/

namespace mgrcommon

variable {σ : Type}

/-- The first `ContactPlugin` of `GetResourceInfoFromDevice` and what follows it:
once the device and the plugin are found, the authentication step gave a token
(when the plugin uses token authentication) and the device password is
decrypted, the function contacts the plugin with `resourceContact` and the
text `resourceMessage`, and goes on as the outcome says. -/
theorem GetResourceInfoFromDevice_contact (env : Env σ) (req : ResourceInfoRequest σ)
    (s : System σ) (target : mgrmodel.DeviceTarget) (plugin : mgrmodel.Plugin) (d : String)
    (hT : env.GetTarget req.UUID s.world = .ok target)
    (hP : env.GetPluginData target.PluginID s.world = .ok plugin)
    (hA : strings.EqualFold plugin.PreferredAuthType "XAuthToken" = true →
      (resourceAuth env req plugin s).1 ≠ "")
    (hD : req.DecryptDevicePassword target.Password = .ok d) :
    GetResourceInfoFromDevice env req s
      = match ContactPlugin env
            (resourceContact req target plugin (resourceAuth env req plugin s).1 d)
            (resourceMessage req) (resourceAuth env req plugin s).2 with
        | (⟨body, _, _, none⟩, s2) => ((insertUUID (bytesToString body) req.UUID, none), s2)
        | (⟨_, _, getResp, some err⟩, s2) =>
          if getResp.StatusCode = http.StatusUnauthorized
              ∧ strings.EqualFold plugin.PreferredAuthType "XAuthToken" then
            match RetryManagersOperation env
                (resourceContact req target plugin (resourceAuth env req plugin s).1 d)
                (resourceMessage req) s2 with
            | (⟨body, _, _, none⟩, s3) => ((insertUUID (bytesToString body) req.UUID, none), s3)
            | (⟨_, _, _, some err⟩, s3) =>
              (("", some ("error while trying to get data from plugin: " ++ err)), s3)
          else
            (("", some ("error while trying to get data from plugin: " ++ err)), s2) := by
  unfold GetResourceInfoFromDevice
  simp only [hT, hP]
  by_cases hX : strings.EqualFold plugin.PreferredAuthType "XAuthToken" = true
  · have hne := hA hX
    unfold resourceAuth at hne ⊢
    unfold resourceContact resourceMessage resourceOID sessionRequest at *
    simp only [hX, if_true] at hne ⊢
    simp only [hne, if_false, hD]
    simp only [hX]
  · have hX2 : strings.EqualFold plugin.PreferredAuthType "XAuthToken" = false := by
      simpa using hX
    unfold resourceAuth resourceContact resourceMessage resourceOID
    simp only [hX2, Bool.false_eq_true, if_false, hD]

end mgrcommon

namespace mgrcommon

variable {σ : Type}

/-- The first transport call of `RetryManagersOperation` is the login call. -/
theorem RetryManagersOperation_first_call (env : Env σ) (req : PluginContactRequest σ)
    (errorMessage : String) (s : System σ) :
    s.calls ++ [clientCallOf env (loginRequest req)]
      <+: (RetryManagersOperation env req errorMessage s).2.calls := by
  have hlogin : s.calls ++ [clientCallOf env (loginRequest req)]
      <+: (createToken env req s).2.calls := by
    rw [createToken_calls]
    exact ContactPlugin_first_call env (loginRequest req) loginMessage s
  by_cases h : (createToken env req s).1 = ""
  · rw [RetryManagersOperation_of_empty env req errorMessage s h]
    exact hlogin
  · rw [RetryManagersOperation_of_token env req errorMessage s h]
    exact hlogin.trans (ContactPlugin_newCalls env _ errorMessage _).1

/-- A log that starts with the old log and one more call has gained a call. -/
theorem newCalls_ne_nil_of_prefix (before after : System σ) (c : ClientCall)
    (h : before.calls ++ [c] <+: after.calls) : newCalls before after ≠ [] := by
  obtain ⟨t, ht⟩ := h
  unfold newCalls
  rw [← ht]
  simp

/-- The login call is a POST. -/
theorem loginCall_method (env : Env σ) (req : PluginContactRequest σ) :
    (clientCallOf env (loginRequest req)).method = http.MethodPost := by
  unfold clientCallOf
  simp only
  split <;> rfl

/-- The call for the resource request is a GET. -/
theorem resourceCall_method (env : Env σ) (req : ResourceInfoRequest σ)
    (target : mgrmodel.DeviceTarget) (plugin : mgrmodel.Plugin) (token d : String) :
    (clientCallOf env (resourceContact req target plugin token d)).method = http.MethodGet := by
  unfold clientCallOf
  simp only
  split <;> rfl

theorem resourceAuth_basic (env : Env σ) (req : ResourceInfoRequest σ) (plugin : mgrmodel.Plugin)
    (s : System σ) (hX : strings.EqualFold plugin.PreferredAuthType "XAuthToken" = false) :
    resourceAuth env req plugin s = ("", s) := by
  unfold resourceAuth
  simp [hX]

/-- C16: for a plugin with basic authentication and whatever the transport
does, `GetResourceInfoFromDevice` leaves the token cache as it was; every
transport call it makes is a GET and none is a login call (the POST of the
credentials to the session resource /ODIM/v1/Sessions); the state it leaves is
the one it started in or the one after its single `ContactPlugin`; and on every
error outcome of that `ContactPlugin`, status 401 included, it returns the
error at once, without `RetryManagersOperation`. -/
theorem GetResourceInfoFromDevice_basic_frame (env : Env σ) (plugin : mgrmodel.Plugin)
    (req : ResourceInfoRequest σ) (s : System σ) (target : mgrmodel.DeviceTarget)
    (hB : strings.EqualFold plugin.PreferredAuthType "BasicAuth" = true)
    (hT : env.GetTarget req.UUID s.world = .ok target)
    (hP : env.GetPluginData target.PluginID s.world = .ok plugin) :
    (GetResourceInfoFromDevice env req s).2.Token = s.Token
    ∧ (∀ c ∈ newCalls s (GetResourceInfoFromDevice env req s).2,
        c.method = http.MethodGet
        ∧ ∀ r : PluginContactRequest σ, c ≠ clientCallOf env (loginRequest r))
    ∧ ((GetResourceInfoFromDevice env req s).2 = s
        ∨ ∃ d, (GetResourceInfoFromDevice env req s).2
            = (ContactPlugin env (resourceContact req target plugin "" d)
                (resourceMessage req) s).2)
    ∧ (∀ (d e : String), req.DecryptDevicePassword target.Password = .ok d →
        (ContactPlugin env (resourceContact req target plugin "" d)
          (resourceMessage req) s).1.err = some e →
        GetResourceInfoFromDevice env req s
          = (("", some ("error while trying to get data from plugin: " ++ e)),
             (ContactPlugin env (resourceContact req target plugin "" d)
               (resourceMessage req) s).2)) := by
  have hX := EqualFold_BasicAuth_not_XAuthToken _ hB
  have hstate : (GetResourceInfoFromDevice env req s).2 = s
      ∨ ∃ d, (GetResourceInfoFromDevice env req s).2
          = (ContactPlugin env (resourceContact req target plugin "" d)
              (resourceMessage req) s).2 := by
    rcases GetResourceInfoFromDevice_basic_state env req s target plugin hT hP hX with h | ⟨d, h⟩
    · exact Or.inl h
    · refine Or.inr ⟨d, ?_⟩
      rw [h]
      unfold resourceContact resourceMessage resourceOID
      simp only [hX, Bool.false_eq_true, if_false]
  refine ⟨?_, ?_, hstate, ?_⟩
  · rcases hstate with h | ⟨d, h⟩
    · rw [h]
    · rw [h, ContactPlugin_Token]
  · intro c hc
    rcases hstate with h | ⟨d, h⟩
    · rw [h, newCalls_self] at hc
      simp at hc
    · rw [h] at hc
      have hcall := (ContactPlugin_newCalls env _ _ s).2 c hc
      have hget := resourceCall_method env req target plugin "" d
      rw [hcall]
      refine ⟨hget, ?_⟩
      intro r heq
      have hpost := loginCall_method env r
      rw [← heq, hget] at hpost
      revert hpost
      decide
  · intro d e hD herr
    have hdec := GetResourceInfoFromDevice_contact env req s target plugin d hT hP
      (fun h => by rw [hX] at h; cases h) hD
    rw [resourceAuth_basic env req plugin s hX] at hdec
    rw [hdec]
    rcases hfirst : ContactPlugin env (resourceContact req target plugin "" d)
        (resourceMessage req) s with ⟨⟨body, token, status, err⟩, s2⟩
    rw [hfirst] at herr
    simp only at herr
    subst herr
    simp [hX]

/-- Witness of C16: plugin ILO with basic authentication answers 401; the cache
is untouched, one GET is made, and the error comes back without a retry. -/
theorem GetResourceInfoFromDevice_basic_frame_witness :
    strings.EqualFold scenario.ilo.PreferredAuthType "BasicAuth" = true
    ∧ (GetResourceInfoFromDevice scenario.deviceEnv scenario.resourceRequest
        scenario.unauthorizedStart).2.Token = scenario.unauthorizedStart.Token
    ∧ (newCalls scenario.unauthorizedStart
        (GetResourceInfoFromDevice scenario.deviceEnv scenario.resourceRequest
          scenario.unauthorizedStart).2).length = 1
    ∧ (∀ c ∈ newCalls scenario.unauthorizedStart
          (GetResourceInfoFromDevice scenario.deviceEnv scenario.resourceRequest
            scenario.unauthorizedStart).2,
        c.method = http.MethodGet
        ∧ ∀ r : PluginContactRequest scenario.Script,
            c ≠ clientCallOf scenario.deviceEnv (loginRequest r)) :=
  ⟨by decide,
   (GetResourceInfoFromDevice_basic_frame scenario.deviceEnv scenario.ilo
      scenario.resourceRequest scenario.unauthorizedStart scenario.device (by decide) rfl rfl).1,
   by decide,
   (GetResourceInfoFromDevice_basic_frame scenario.deviceEnv scenario.ilo
      scenario.resourceRequest scenario.unauthorizedStart scenario.device (by decide) rfl
      rfl).2.1⟩

end mgrcommon

namespace mgrcommon

variable {σ : Type}

/-- C17: let `first` be the outcome of the first `ContactPlugin` of
`GetResourceInfoFromDevice`.  When it is an error with status code 401 and the
plugin's `PreferredAuthType` equals "XAuthToken" ignoring case, the function
runs `RetryManagersOperation` from the state `first` left and returns what the
retry gives (the rewritten body, or the wrapped error).  On every other error
outcome it returns the wrapped error in the state `first` left, and on success
the rewritten body.  So a further transport call is made exactly when the
first outcome is an error with status code 401 for a token plugin. -/
theorem GetResourceInfoFromDevice_retry_iff (env : Env σ) (req : ResourceInfoRequest σ)
    (s : System σ) (target : mgrmodel.DeviceTarget) (plugin : mgrmodel.Plugin) (d : String)
    (first : Outcome × System σ)
    (hT : env.GetTarget req.UUID s.world = .ok target)
    (hP : env.GetPluginData target.PluginID s.world = .ok plugin)
    (hA : strings.EqualFold plugin.PreferredAuthType "XAuthToken" = true →
      (resourceAuth env req plugin s).1 ≠ "")
    (hD : req.DecryptDevicePassword target.Password = .ok d)
    (hfirst : ContactPlugin env
        (resourceContact req target plugin (resourceAuth env req plugin s).1 d)
        (resourceMessage req) (resourceAuth env req plugin s).2 = first) :
    (∀ e, first.1.err = some e → first.1.status.StatusCode = 401 →
        strings.EqualFold plugin.PreferredAuthType "XAuthToken" = true →
        (GetResourceInfoFromDevice env req s).2
          = (RetryManagersOperation env
              (resourceContact req target plugin (resourceAuth env req plugin s).1 d)
              (resourceMessage req) first.2).2
        ∧ ((RetryManagersOperation env
              (resourceContact req target plugin (resourceAuth env req plugin s).1 d)
              (resourceMessage req) first.2).1.err = none →
            (GetResourceInfoFromDevice env req s).1
              = (insertUUID (bytesToString (RetryManagersOperation env
                  (resourceContact req target plugin (resourceAuth env req plugin s).1 d)
                  (resourceMessage req) first.2).1.body) req.UUID, none))
        ∧ (∀ e2, (RetryManagersOperation env
              (resourceContact req target plugin (resourceAuth env req plugin s).1 d)
              (resourceMessage req) first.2).1.err = some e2 →
            (GetResourceInfoFromDevice env req s).1
              = ("", some ("error while trying to get data from plugin: " ++ e2))))
    ∧ (∀ e, first.1.err = some e →
        ¬ (first.1.status.StatusCode = 401
            ∧ strings.EqualFold plugin.PreferredAuthType "XAuthToken" = true) →
        GetResourceInfoFromDevice env req s
          = (("", some ("error while trying to get data from plugin: " ++ e)), first.2))
    ∧ (first.1.err = none →
        GetResourceInfoFromDevice env req s
          = ((insertUUID (bytesToString first.1.body) req.UUID, none), first.2))
    ∧ (newCalls first.2 (GetResourceInfoFromDevice env req s).2 ≠ []
        ↔ (first.1.err ≠ none ∧ first.1.status.StatusCode = 401
            ∧ strings.EqualFold plugin.PreferredAuthType "XAuthToken" = true)) := by
  have hdec := GetResourceInfoFromDevice_contact env req s target plugin d hT hP hA hD
  rw [hfirst] at hdec
  rcases first with ⟨⟨body, token, status, err⟩, s2⟩
  cases err with
  | none =>
    simp only at hdec
    rw [hdec]
    refine ⟨?_, ?_, ?_, ?_⟩
    · intro e he; cases he
    · intro e he; cases he
    · intro _; rfl
    · simp [newCalls_self]
  | some e =>
    simp only at hdec
    by_cases hc : status.StatusCode = http.StatusUnauthorized
        ∧ strings.EqualFold plugin.PreferredAuthType "XAuthToken" = true
    · rw [if_pos hc] at hdec
      have hcall := RetryManagersOperation_first_call env
        (resourceContact req target plugin (resourceAuth env req plugin s).1 d)
        (resourceMessage req) s2
      rcases hr : RetryManagersOperation env
          (resourceContact req target plugin (resourceAuth env req plugin s).1 d)
          (resourceMessage req) s2 with ⟨⟨body3, token3, status3, err3⟩, s3⟩
      rw [hr] at hdec hcall
      have hnew : newCalls s2 s3 ≠ [] := newCalls_ne_nil_of_prefix s2 s3 _ hcall
      cases err3 with
      | none =>
        simp only at hdec
        rw [hdec]
        refine ⟨?_, ?_, ?_, ?_⟩
        · intro _ _ _ _
          refine ⟨rfl, fun _ => rfl, ?_⟩
          intro e2 he2; cases he2
        · intro _ _ hn; exact absurd hc hn
        · intro he; cases he
        · constructor
          · intro _; exact ⟨by simp, hc.1, hc.2⟩
          · intro _; exact hnew
      | some e3 =>
        simp only at hdec
        rw [hdec]
        refine ⟨?_, ?_, ?_, ?_⟩
        · intro _ _ _ _
          refine ⟨rfl, ?_, ?_⟩
          · intro he; cases he
          · intro e2 he2
            cases he2
            rfl
        · intro _ _ hn; exact absurd hc hn
        · intro he; cases he
        · constructor
          · intro _; exact ⟨by simp, hc.1, hc.2⟩
          · intro _; exact hnew
    · rw [if_neg hc] at hdec
      rw [hdec]
      refine ⟨?_, ?_, ?_, ?_⟩
      · intro _ _ h1 h2; exact absurd ⟨h1, h2⟩ hc
      · intro e1 he1 _
        cases he1
        rfl
      · intro he; cases he
      · constructor
        · intro hn
          exact absurd (newCalls_self s2) hn
        · rintro ⟨_, h1, h2⟩
          exact absurd ⟨h1, h2⟩ hc

/-- Witness of C17: the token plugin GRF, with tok-1 in the cache, answers the
resource request with 404: the error comes back and no further transport call
is made. -/
theorem GetResourceInfoFromDevice_retry_iff_witness :
    (ContactPlugin scenario.tokenEnv
        (resourceContact scenario.resourceRequest { scenario.device with PluginID := "GRF" }
          (scenario.plugin "GRF" "XAuthToken") "tok-1" "cipher")
        (resourceMessage scenario.resourceRequest) scenario.cachedNotFoundStart).1.err
        = some "error while getting the details /redfish/v1/Systems/1: "
    ∧ (GetResourceInfoFromDevice scenario.tokenEnv scenario.resourceRequest
        scenario.cachedNotFoundStart).1
        = ("", some ("error while trying to get data from plugin: "
              ++ "error while getting the details /redfish/v1/Systems/1: "))
    ∧ (newCalls scenario.cachedNotFoundStart
        (GetResourceInfoFromDevice scenario.tokenEnv scenario.resourceRequest
          scenario.cachedNotFoundStart).2).length = 1 :=
  ⟨by decide,
   congrArg Prod.fst
     ((GetResourceInfoFromDevice_retry_iff scenario.tokenEnv scenario.resourceRequest
        scenario.cachedNotFoundStart { scenario.device with PluginID := "GRF" }
        (scenario.plugin "GRF" "XAuthToken") "cipher"
        (ContactPlugin scenario.tokenEnv
          (resourceContact scenario.resourceRequest { scenario.device with PluginID := "GRF" }
            (scenario.plugin "GRF" "XAuthToken") "tok-1" "cipher")
          (resourceMessage scenario.resourceRequest) scenario.cachedNotFoundStart)
        rfl rfl (fun _ => by decide) rfl rfl).2.1
        "error while getting the details /redfish/v1/Systems/1: " (by decide) (by decide)),
   by decide⟩

end mgrcommon

/-! ## Inbound rewriting of the resource identifier -/

namespace strings

theorem replaceFrom_skip (old new : List Char) :
    ∀ (l : List Char) (k : Nat), replaceFrom old new k l = replaceFrom old new 0 (l.drop k) := by
  intro l
  induction l with
  | nil => intro k; cases k <;> rfl
  | cons c cs ih =>
    intro k
    cases k with
    | zero => rfl
    | succ k =>
      rw [List.drop_succ_cons, ← ih k]
      rfl

/-- A text with exactly one occurrence of `old`: that occurrence is replaced and
the rest is kept. -/
theorem replaceFrom_unique (old new : List Char) (hne : old ≠ []) :
    ∀ (pre post : List Char),
      (∀ a b : List Char, pre ++ old ++ post = a ++ old ++ b → a = pre) →
      replaceFrom old new 0 (pre ++ old ++ post) = pre ++ new ++ post := by
  intro pre
  induction pre with
  | nil =>
    intro post huniq
    have hpost : ¬ old <:+: post := by
      rintro ⟨a, b, hab⟩
      have h1 := huniq (old ++ a) b (by simp [← hab])
      have h2 : (old ++ a).length = 0 := by rw [h1]; rfl
      have h3 : old.length = 0 := by
        rw [List.length_append] at h2
        omega
      exact hne (List.length_eq_zero.mp h3)
    cases old with
    | nil => exact absurd rfl hne
    | cons o os =>
      have hp : (o :: os).isPrefixOf (o :: (os ++ post)) = true :=
        List.isPrefixOf_iff_prefix.mpr ⟨post, by simp⟩
      have hstep : replaceFrom (o :: os) new 0 (o :: (os ++ post))
          = new ++ replaceFrom (o :: os) new ((o :: os).length - 1) (os ++ post) := by
        simp only [replaceFrom, hp, if_true]
      have hlen : (o :: os).length - 1 = os.length := by simp
      show replaceFrom (o :: os) new 0 (o :: (os ++ post)) = [] ++ new ++ post
      rw [hstep, hlen, replaceFrom_skip, List.drop_left, replaceFrom_of_no_match _ _ _ hpost]
      simp
  | cons p ps ih =>
    intro post huniq
    have hp : old.isPrefixOf (p :: (ps ++ old ++ post)) = false := by
      cases hb : old.isPrefixOf (p :: (ps ++ old ++ post)) with
      | false => rfl
      | true =>
        obtain ⟨b, hb2⟩ := List.isPrefixOf_iff_prefix.mp hb
        have h1 := huniq [] b (by simp [hb2])
        cases h1
    have htail : ∀ a b : List Char, ps ++ old ++ post = a ++ old ++ b → a = ps := by
      intro a b hab
      have h1 := huniq (p :: a) b (by simp [hab])
      exact (List.cons.inj h1).2
    have hstep : replaceFrom old new 0 (p :: (ps ++ old ++ post))
        = p :: replaceFrom old new 0 (ps ++ old ++ post) := by
      simp only [replaceFrom, hp]
      simp
    show replaceFrom old new 0 (p :: (ps ++ old ++ post)) = p :: ps ++ new ++ post
    rw [hstep, ih post htail]
    simp

/-- Go `strings.Replace` on a text that contains `old` exactly once. -/
theorem Replace_unique (s old new pre post : String) (hne : old ≠ new) (hold : old.data ≠ [])
    (hs : s = pre ++ old ++ post)
    (huniq : ∀ a b : String, s = a ++ old ++ b → a = pre) :
    Replace s old new = pre ++ new ++ post := by
  unfold Replace
  simp only [hne, hold, if_false]
  apply String.ext
  subst hs
  simp only [String.data_append]
  apply replaceFrom_unique old.data new.data hold
  intro a b hab
  have h := huniq ⟨a⟩ ⟨b⟩ (by
    apply String.ext
    simp only [String.data_append]
    exact hab)
  rw [← h]

end strings

namespace mgrcommon

variable {σ : Type}

/-- The transport log after `RetryManagersOperation` extends the log before. -/
theorem RetryManagersOperation_calls_prefix (env : Env σ) (req : PluginContactRequest σ)
    (errorMessage : String) (s : System σ) :
    s.calls <+: (RetryManagersOperation env req errorMessage s).2.calls :=
  (List.prefix_append s.calls [clientCallOf env (loginRequest req)]).trans
    (RetryManagersOperation_first_call env req errorMessage s)

/-- The first transport call `GetResourceInfoFromDevice` makes after the
authentication step is the call built for `resourceContact`. -/
theorem GetResourceInfoFromDevice_first_call (env : Env σ) (req : ResourceInfoRequest σ)
    (s : System σ) (target : mgrmodel.DeviceTarget) (plugin : mgrmodel.Plugin) (d : String)
    (hT : env.GetTarget req.UUID s.world = .ok target)
    (hP : env.GetPluginData target.PluginID s.world = .ok plugin)
    (hA : strings.EqualFold plugin.PreferredAuthType "XAuthToken" = true →
      (resourceAuth env req plugin s).1 ≠ "")
    (hD : req.DecryptDevicePassword target.Password = .ok d) :
    (resourceAuth env req plugin s).2.calls
        ++ [clientCallOf env
              (resourceContact req target plugin (resourceAuth env req plugin s).1 d)]
      <+: (GetResourceInfoFromDevice env req s).2.calls := by
  have hdec := GetResourceInfoFromDevice_contact env req s target plugin d hT hP hA hD
  have hcall := ContactPlugin_first_call env
    (resourceContact req target plugin (resourceAuth env req plugin s).1 d)
    (resourceMessage req) (resourceAuth env req plugin s).2
  rcases hfirst : ContactPlugin env
      (resourceContact req target plugin (resourceAuth env req plugin s).1 d)
      (resourceMessage req) (resourceAuth env req plugin s).2 with
    ⟨⟨body, token, status, err⟩, s2⟩
  rw [hfirst] at hdec hcall
  cases err with
  | none =>
    simp only at hdec
    rw [hdec]
    exact hcall
  | some e =>
    simp only at hdec
    rw [hdec]
    split
    · have hpre := RetryManagersOperation_calls_prefix env
        (resourceContact req target plugin (resourceAuth env req plugin s).1 d)
        (resourceMessage req) s2
      refine hcall.trans ?_
      split
      · rename_i heq
        rw [heq] at hpre
        exact hpre
      · rename_i heq
        rw [heq] at hpre
        exact hpre
    · exact hcall

/-- The composite id is never the system id, and never empty. -/
theorem composite_ne (UUID SystemID : String) :
    UUID ++ ":" ++ SystemID ≠ SystemID ∧ (UUID ++ ":" ++ SystemID).data ≠ [] := by
  constructor
  · intro h
    have h2 := congrArg (fun x : String => x.data.length) h
    simp only [String.data_append, List.length_append] at h2
    have h3 : ([':'] : List Char).length = 1 := rfl
    omega
  · intro h
    have h2 := congrArg List.length h
    simp only [String.data_append, List.length_append] at h2
    simp at h2

/-- C18: the request `GetResourceInfoFromDevice` sends south (the first transport
call after the authentication step is built from it) has as OID
`strings.Replace(URL, UUID + ":" + SystemID, SystemID, -1)`.  For a URL that
contains the composite id exactly once, `URL = pre + UUID + ":" + SystemID +
post`, the OID is `pre + SystemID + post`; a URL that does not contain the
composite id is the OID unchanged. -/
theorem GetResourceInfoFromDevice_OID (env : Env σ) (req : ResourceInfoRequest σ)
    (s : System σ) (target : mgrmodel.DeviceTarget) (plugin : mgrmodel.Plugin) (d : String)
    (hT : env.GetTarget req.UUID s.world = .ok target)
    (hP : env.GetPluginData target.PluginID s.world = .ok plugin)
    (hA : strings.EqualFold plugin.PreferredAuthType "XAuthToken" = true →
      (resourceAuth env req plugin s).1 ≠ "")
    (hD : req.DecryptDevicePassword target.Password = .ok d) :
    (resourceAuth env req plugin s).2.calls
        ++ [clientCallOf env
              (resourceContact req target plugin (resourceAuth env req plugin s).1 d)]
      <+: (GetResourceInfoFromDevice env req s).2.calls
    ∧ (resourceContact req target plugin (resourceAuth env req plugin s).1 d).OID
        = strings.Replace req.URL (req.UUID ++ ":" ++ req.SystemID) req.SystemID
    ∧ (∀ pre post : String,
        req.URL = pre ++ (req.UUID ++ ":" ++ req.SystemID) ++ post →
        (∀ a b : String, req.URL = a ++ (req.UUID ++ ":" ++ req.SystemID) ++ b → a = pre) →
        (resourceContact req target plugin (resourceAuth env req plugin s).1 d).OID
          = pre ++ req.SystemID ++ post)
    ∧ (¬ strings.Contains req.URL (req.UUID ++ ":" ++ req.SystemID) →
        (resourceContact req target plugin (resourceAuth env req plugin s).1 d).OID = req.URL) := by
  refine ⟨GetResourceInfoFromDevice_first_call env req s target plugin d hT hP hA hD, rfl, ?_, ?_⟩
  · intro pre post hurl huniq
    show strings.Replace req.URL (req.UUID ++ ":" ++ req.SystemID) req.SystemID = _
    exact strings.Replace_unique req.URL _ req.SystemID pre post
      (composite_ne req.UUID req.SystemID).1 (composite_ne req.UUID req.SystemID).2 hurl huniq
  · intro hno
    show strings.Replace req.URL (req.UUID ++ ":" ++ req.SystemID) req.SystemID = _
    exact strings.Replace_of_not_Contains _ _ _ hno

end mgrcommon

namespace mgrcommon

variable {σ : Type}

/-- Witness of C18: the URL "/redfish/v1/Systems/uuid-1:1" of the device uuid-1
and the system 1 goes south as "/redfish/v1/Systems/1". -/
theorem GetResourceInfoFromDevice_OID_witness :
    (resourceContact scenario.resourceRequest scenario.device scenario.ilo
        (resourceAuth scenario.deviceEnv scenario.resourceRequest scenario.ilo
          scenario.unauthorizedStart).1 "cipher").OID = "/redfish/v1/Systems/1"
    ∧ (newCalls scenario.unauthorizedStart
        (GetResourceInfoFromDevice scenario.deviceEnv scenario.resourceRequest
          scenario.unauthorizedStart).2).map (fun c => c.odataID) = ["/redfish/v1/Systems/1"] :=
  ⟨(GetResourceInfoFromDevice_OID scenario.deviceEnv scenario.resourceRequest
      scenario.unauthorizedStart scenario.device scenario.ilo "cipher" rfl rfl
      (fun h => absurd h (by decide)) rfl).2.1.trans (by decide),
   by decide⟩

/-! ## Outbound insertion of the device UUID -/

/-- C19 at the lower-case names managers and chassis: the UUID is inserted after
"/redfish/v1/Systems/", "/redfish/v1/systems/", "/redfish/v1/Managers/" and
"/redfish/v1/Chassis/", but a body with "/redfish/v1/managers/" or
"/redfish/v1/chassis/" comes back without the UUID, also from
`GetResourceInfoFromDevice` itself. -/
theorem insertUUID_lower_case :
    insertUUID "/redfish/v1/Systems/1" "uuid-1" = "/redfish/v1/Systems/uuid-1:1"
    ∧ insertUUID "/redfish/v1/systems/1" "uuid-1" = "/redfish/v1/systems/uuid-1:1"
    ∧ insertUUID "/redfish/v1/Managers/1" "uuid-1" = "/redfish/v1/Managers/uuid-1:1"
    ∧ insertUUID "/redfish/v1/Chassis/1" "uuid-1" = "/redfish/v1/Chassis/uuid-1:1"
    ∧ insertUUID "/redfish/v1/managers/1" "uuid-1" = "/redfish/v1/managers/1"
    ∧ insertUUID "/redfish/v1/chassis/1" "uuid-1" = "/redfish/v1/chassis/1"
    ∧ (GetResourceInfoFromDevice scenario.tokenEnv scenario.resourceRequest
        scenario.lowerCaseStart).1 = ("/redfish/v1/managers/1", none) :=
  ⟨by decide, by decide, by decide, by decide, by decide, by decide, by decide⟩

end mgrcommon

/-! ## Error texts -/

namespace mgrcommon

variable {σ : Type}

theorem beginsWith_append (p rest : String) : beginsWith (p ++ rest) p := by
  unfold beginsWith
  rw [String.data_append]
  exact List.prefix_append _ _

/-- C20, as stated, fails on two of the four paths: with the caller's text
"error while getting the details: " the error of a body read failure reads
"error while trying to read response body: unexpected EOF", and the error of a
failed re-login reads "error: Unable to create session with plugin GRF";
neither begins with the caller's text. -/
theorem error_without_caller_text :
    (ContactPlugin scenario.env scenario.grfRequest "error while getting the details: "
        scenario.unreadableStart).1.err
        = some "error while trying to read response body: unexpected EOF"
    ∧ ¬ beginsWith "error while trying to read response body: unexpected EOF"
          "error while getting the details: "
    ∧ (RetryManagersOperation scenario.env scenario.staleRequest
        "error while getting the details: " scenario.unauthorizedStart).1.err
        = some "error: Unable to create session with plugin GRF"
    ∧ ¬ beginsWith "error: Unable to create session with plugin GRF"
          "error while getting the details: " :=
  ⟨by decide, by decide, by decide, by decide⟩

/-- C20, amended: let the caller's `errorMessage` hold no percent sign.  The
error `ContactPlugin` returns on a transport failure is `errorMessage` followed
by the transport error, and on a status other than 200 and 201 it is
`errorMessage` itself: both begin with the caller's text.  On a body read
failure the error begins with "error while trying to read response body: ",
and on a failed re-login the error of `RetryManagersOperation` begins with
"error: Unable to create session with plugin "; the caller's text is in
neither.  After a login that gave a token, `RetryManagersOperation` returns
what `ContactPlugin` returns for the reissued request. -/
theorem error_text_paths (env : Env σ) (req : PluginContactRequest σ) (errorMessage : String)
    (s : System σ) (hp : '%' ∉ errorMessage.data) :
    (∀ e, (callPluginRetry env req s).1 = .error e →
        (ContactPlugin env req errorMessage s).1.err = some (errorMessage ++ fmt.Sprintf e)
        ∧ beginsWith (errorMessage ++ fmt.Sprintf e) errorMessage)
    ∧ (∀ (response : http.Response) (body : String),
        (callPluginRetry env req s).1 = .ok response → response.Body = .ok body →
        response.StatusCode ≠ 200 → response.StatusCode ≠ 201 →
        (ContactPlugin env req errorMessage s).1.err = some errorMessage
        ∧ beginsWith errorMessage errorMessage)
    ∧ (∀ (response : http.Response) (e : String),
        (callPluginRetry env req s).1 = .ok response → response.Body = .error e →
        (ContactPlugin env req errorMessage s).1.err
          = some ("error while trying to read response body: " ++ fmt.Sprintf e))
    ∧ ((createToken env req s).1 = "" →
        (RetryManagersOperation env req errorMessage s).1.err
          = some ("error: Unable to create session with plugin " ++ fmt.Sprintf req.Plugin.ID))
    ∧ ((createToken env req s).1 ≠ "" →
        RetryManagersOperation env req errorMessage s
          = ContactPlugin env { req with Token := (createToken env req s).1 } errorMessage
              (createToken env req s).2) := by
  refine ⟨?_, ?_, ?_, ?_, ?_⟩
  · intro e he
    refine ⟨?_, beginsWith_append _ _⟩
    rw [ContactPlugin_eq]
    simp only [he]
    show fmt.Errorf (errorMessage ++ e) = _
    unfold fmt.Errorf
    rw [fmt.Sprintf_append_of_no_percent errorMessage e hp]
  · intro response body hresp hbody h200 h201
    rw [ContactPlugin_other_outcome env req errorMessage s response body hresp hbody h200 h201]
    refine ⟨?_, ⟨[], by simp⟩⟩
    show fmt.Errorf errorMessage = _
    unfold fmt.Errorf
    rw [fmt.Sprintf_of_no_percent errorMessage hp]
  · intro response e hresp hbody
    rw [ContactPlugin_eq]
    simp only [hresp]
    unfold readResponse
    simp only [hbody]
    show fmt.Errorf ("error while trying to read response body: " ++ e) = _
    unfold fmt.Errorf
    rw [fmt.Sprintf_append_of_no_percent _ e (by decide)]
  · intro h
    rw [RetryManagersOperation_of_empty env req errorMessage s h]
    show fmt.Errorf ("error: Unable to create session with plugin " ++ req.Plugin.ID) = _
    unfold fmt.Errorf
    rw [fmt.Sprintf_append_of_no_percent _ req.Plugin.ID (by decide)]
  · intro h
    exact RetryManagersOperation_of_token env req errorMessage s h

/-- Witness of the amended C20: the transport fails and the plugin is not alive;
the error is the caller's text "error: " followed by "connection refused". -/
theorem error_text_paths_witness :
    '%' ∉ ("error: " : String).data
    ∧ (ContactPlugin scenario.env scenario.grfRequest "error: " scenario.downStart).1.err
        = some "error: connection refused"
    ∧ beginsWith "error: connection refused" "error: " :=
  ⟨by decide,
   ((error_text_paths scenario.env scenario.grfRequest "error: " scenario.downStart
      (by decide)).1 "connection refused" rfl).1.trans (by decide),
   by decide⟩

end mgrcommon

/-! ## Manager collection and manager links -/

namespace managers

theorem foldl_links (keys : List String) (acc : List Link) :
    keys.foldl (fun links key => links ++ [Link.mk key]) acc = acc ++ keys.map Link.mk := by
  induction keys generalizing acc with
  | nil => simp
  | cons k ks ih => simp [List.foldl_cons, ih]

theorem foldl_links_except (odimURI : String) (keys : List String) (acc : List Link) :
    keys.foldl (fun links key => if key ≠ odimURI then links ++ [Link.mk key] else links) acc
      = acc ++ (keys.filter (fun key => key ≠ odimURI)).map Link.mk := by
  induction keys generalizing acc with
  | nil => simp
  | cons k ks ih =>
    rw [List.foldl_cons, ih]
    by_cases h : k = odimURI
    · simp [List.filter_cons, h]
    · simp [List.filter_cons, h]

/-- C29: whatever the key lookup of the Managers table returns (any list of keys,
with or without an error), `GetManagersCollection` returns a nil error and the
status code 200; the members are one link per key, in the order of the keys,
with `Oid` the key; and `MembersCount` is the number of members. -/
theorem GetManagersCollection_members {σ : Type} (e : Store σ) (w : σ) :
    (GetManagersCollection e w).2.2 = none
    ∧ (GetManagersCollection e w).2.1 = 200
    ∧ (GetManagersCollection e w).1.Members
        = (e.GetAllKeysFromTable "Managers" w).1.map Link.mk
    ∧ (GetManagersCollection e w).1.MembersCount
        = (GetManagersCollection e w).1.Members.length
    ∧ (GetManagersCollection e w).1.Members.length
        = (e.GetAllKeysFromTable "Managers" w).1.length := by
  simp [GetManagersCollection, foldl_links, http.StatusOK]

/-- C30: on every successful run of `getManagerDetails`, `ManagerForManagers`
holds, in the order of the table, one link for each key of the Managers table
other than "/redfish/v1/Managers/" + RootServiceUUID, and `ManagerForChassis`
and `ManagerForServers` hold one link per key of the Chassis and the
ComputerSystem table, in the order of the table. -/
theorem getManagerDetails_links {σ : Type} (e : Store σ) (id : String) (w : σ) (mgr : Manager)
    (h : getManagerDetails e id w = (mgr, none)) :
    mgr.Links = some
      { ManagerForChassis := (e.GetAllKeysFromTable "Chassis" w).1.map Link.mk
        ManagerForServers := (e.GetAllKeysFromTable "ComputerSystem" w).1.map Link.mk
        ManagerForManagers :=
          ((e.GetAllKeysFromTable "Managers" w).1.filter
            (fun key => key ≠ "/redfish/v1/Managers/" ++ e.RootServiceUUID)).map Link.mk } := by
  unfold getManagerDetails at h
  cases h1 : e.GetManagerByURL ("/redfish/v1/Managers/" ++ id) w with
  | error err => rw [h1] at h; simp at h
  | ok data =>
    rw [h1] at h
    simp only at h
    cases h2 : e.JsonUnMarshalFunc data with
    | error err => rw [h2] at h; simp at h
    | ok mgrData =>
      rw [h2] at h
      simp only at h
      rcases h3 : e.GetAllKeysFromTable "Chassis" w with ⟨chassisList, chassisErr⟩
      rcases h4 : e.GetAllKeysFromTable "ComputerSystem" w with ⟨serverList, serverErr⟩
      rcases h5 : e.GetAllKeysFromTable "Managers" w with ⟨managerList, mgrErr⟩
      rw [h3] at h
      cases chassisErr with
      | some x => simp at h
      | none =>
        simp only at h
        rw [h4] at h
        cases serverErr with
        | some x => simp at h
        | none =>
          simp only at h
          rw [h5] at h
          cases mgrErr with
          | some x => simp at h
          | none =>
            simp only [foldl_links, foldl_links_except, List.nil_append, Prod.mk.injEq,
              and_true] at h
            rw [← h]

/-- Witness of C30: of the three managers of the store, the aggregator root-1
is left out; the two chassis and the system are all linked. -/
theorem getManagerDetails_links_witness :
    (getManagerDetails scenario.store "root-1" ()).2 = none
    ∧ ((getManagerDetails scenario.store "root-1" ()).1.Links.map
        (fun l => l.ManagerForManagers))
        = some [⟨"/redfish/v1/Managers/uuid-1.1"⟩, ⟨"/redfish/v1/Managers/plugin-7"⟩] :=
  ⟨by decide,
   (congrArg (Option.map (fun l : Links => l.ManagerForManagers))
      (getManagerDetails_links scenario.store "root-1" ()
        (getManagerDetails scenario.store "root-1" ()).1 rfl)).trans (by decide)⟩

end managers

/-! ## South-bound table with several entries, login request, outcome invariant -/

namespace mgrcommon

variable {σ : Type}

/-- With a south-bound table of one entry the loop of `callPlugin` is the
rewriting the specification words. -/
theorem southBoundOID_singleton (kv : String × String) (OID : String) :
    southBoundOID [kv] OID = southBoundSpec [kv] OID := rfl

/-- C24 at a south-bound table of two entries whose keys both occur in the OID:
the table maps redfish to ODIM and Systems to Sys, the OID is
"/redfish/v1/Systems/1".  The specification's rewriting gives "/ODIM/v1/Sys/1";
`callPlugin` hands the transport "/redfish/v1/Sys/1", the rewrite by the last
entry alone, and builds the endpoint from it. -/
theorem callPlugin_two_entries :
    scenario.twoEntryEnv.cfg.SouthBoundURL = [("redfish", "ODIM"), ("Systems", "Sys")]
    ∧ southBoundSpec scenario.twoEntryEnv.cfg.SouthBoundURL scenario.redfishRequest.OID
        = "/ODIM/v1/Sys/1"
    ∧ (clientCallOf scenario.twoEntryEnv scenario.redfishRequest).odataID = "/redfish/v1/Sys/1"
    ∧ (callPlugin scenario.twoEntryEnv scenario.redfishRequest
        (scenario.start PluginToken.empty [] [])).2.calls
        = [⟨"https://10.0.0.1:45001/redfish/v1/Sys/1", "GET", "tok-1", "/redfish/v1/Sys/1",
            none, none⟩] :=
  ⟨rfl, by decide, by decide, by decide⟩

/-- C25: the request `createToken` contacts the plugin with has method POST, OID
"/ODIM/v1/Sessions", an empty token, no basic-auth map, the plugin and the
transport function of the caller, and a body with the two entries Username and
Password of the plugin.  Nothing else of the caller's request matters: two
requests with the same plugin and transport function give the same login
request and the same `createToken`. -/
theorem createToken_login_request (env : Env σ) (req : PluginContactRequest σ) (s : System σ) :
    (loginRequest req).HTTPMethodType = "POST"
    ∧ (loginRequest req).OID = "/ODIM/v1/Sessions"
    ∧ (loginRequest req).Token = ""
    ∧ (loginRequest req).BasicAuth = none
    ∧ (loginRequest req).Plugin = req.Plugin
    ∧ (loginRequest req).ContactClient = req.ContactClient
    ∧ (loginRequest req).DeviceInfo
        = some [("Username", req.Plugin.Username), ("Password", req.Plugin.Password)]
    ∧ (createToken env req s).1
        = (ContactPlugin env (loginRequest req) "error while logging in to plugin: " s).1.token
    ∧ (∀ c ∈ newCalls s (createToken env req s).2, c = clientCallOf env (loginRequest req))
    ∧ (∀ other : PluginContactRequest σ, other.Plugin = req.Plugin →
        other.ContactClient = req.ContactClient →
        loginRequest other = loginRequest req
        ∧ createToken env other s = createToken env req s) := by
  refine ⟨rfl, rfl, rfl, rfl, rfl, rfl, rfl, createToken_fst env req s,
    (createToken_newCalls env req s).2, ?_⟩
  intro other hP hC
  have hl : loginRequest other = loginRequest req := by
    unfold loginRequest
    rw [hP, hC]
  refine ⟨hl, ?_⟩
  unfold createToken
  rw [hl, hP]

/-- Witness of C25: two requests of the plugin GRF that differ in OID, token,
body, basic-auth map and method lead to the same login. -/
theorem createToken_login_request_witness :
    scenario.otherRequest.Plugin = scenario.staleRequest.Plugin
    ∧ scenario.otherRequest.ContactClient = scenario.staleRequest.ContactClient
    ∧ loginRequest scenario.otherRequest = loginRequest scenario.staleRequest
    ∧ createToken scenario.env scenario.otherRequest scenario.loginStart
        = createToken scenario.env scenario.staleRequest scenario.loginStart :=
  ⟨rfl, rfl,
   ((createToken_login_request scenario.env scenario.staleRequest
      scenario.loginStart).2.2.2.2.2.2.2.2.2 scenario.otherRequest rfl rfl).1,
   ((createToken_login_request scenario.env scenario.staleRequest
      scenario.loginStart).2.2.2.2.2.2.2.2.2 scenario.otherRequest rfl rfl).2⟩

theorem readResponse_status_of_ok (env : Env σ) (response : http.Response)
    (errorMessage : String) (h : (readResponse env response errorMessage).err = none) :
    (readResponse env response errorMessage).status = ⟨0, ""⟩ := by
  unfold readResponse at h ⊢
  cases hb : response.Body with
  | error e =>
    rw [hb] at h
    simp [internalError, fmt.Errorf] at h
  | ok b =>
    rw [hb] at h
    by_cases hc : response.StatusCode = http.StatusOK ∨ response.StatusCode = http.StatusCreated
    · simp [hc]
    · simp [hc, fmt.Errorf] at h

/-- On every return of `ContactPlugin` without an error the status is the zero
value. -/
theorem ContactPlugin_status_of_ok (env : Env σ) (req : PluginContactRequest σ)
    (errorMessage : String) (s : System σ)
    (h : (ContactPlugin env req errorMessage s).1.err = none) :
    (ContactPlugin env req errorMessage s).1.status = ⟨0, ""⟩ := by
  rw [ContactPlugin_eq] at h ⊢
  cases hr : (callPluginRetry env req s).1 with
  | error e =>
    rw [hr] at h
    simp [internalError, fmt.Errorf] at h
  | ok response =>
    rw [hr] at h
    exact readResponse_status_of_ok env response errorMessage h

/-- C26: for every outcome of `ContactPlugin` and of `RetryManagersOperation`: a
nil error comes with the zero status (code 0, empty message), and a non-nil
error comes with an empty token. -/
theorem outcome_invariant (env : Env σ) (req : PluginContactRequest σ) (errorMessage : String)
    (s : System σ) :
    ((ContactPlugin env req errorMessage s).1.err = none →
        (ContactPlugin env req errorMessage s).1.status = ⟨0, ""⟩)
    ∧ ((ContactPlugin env req errorMessage s).1.err ≠ none →
        (ContactPlugin env req errorMessage s).1.token = "")
    ∧ ((RetryManagersOperation env req errorMessage s).1.err = none →
        (RetryManagersOperation env req errorMessage s).1.status = ⟨0, ""⟩)
    ∧ ((RetryManagersOperation env req errorMessage s).1.err ≠ none →
        (RetryManagersOperation env req errorMessage s).1.token = "") := by
  refine ⟨ContactPlugin_status_of_ok env req errorMessage s,
    ContactPlugin_token_of_err env req errorMessage s, ?_, ?_⟩
  · by_cases h : (createToken env req s).1 = ""
    · rw [RetryManagersOperation_of_empty env req errorMessage s h]
      intro he
      simp [fmt.Errorf] at he
    · rw [RetryManagersOperation_of_token env req errorMessage s h]
      exact ContactPlugin_status_of_ok env _ errorMessage _
  · by_cases h : (createToken env req s).1 = ""
    · rw [RetryManagersOperation_of_empty env req errorMessage s h]
      intro _
      rfl
    · rw [RetryManagersOperation_of_token env req errorMessage s h]
      exact ContactPlugin_token_of_err env _ errorMessage _

/-- Witness of C26: a plugin that answers 404 with an X-Auth-Token header (error,
empty token), and a plugin that answers 200 (no error, zero status). -/
theorem outcome_invariant_witness :
    (ContactPlugin scenario.env scenario.grfRequest "error: " scenario.notFoundStart).1.err ≠ none
    ∧ (ContactPlugin scenario.env scenario.grfRequest "error: " scenario.notFoundStart).1.token
        = ""
    ∧ (ContactPlugin scenario.env scenario.grfRequest "error: " scenario.okStart).1.err = none
    ∧ (ContactPlugin scenario.env scenario.grfRequest "error: " scenario.okStart).1.status
        = ⟨0, ""⟩ :=
  ⟨by decide,
   (outcome_invariant scenario.env scenario.grfRequest "error: " scenario.notFoundStart).2.1
     (by decide),
   by decide,
   (outcome_invariant scenario.env scenario.grfRequest "error: " scenario.okStart).1
     (by decide)⟩

end mgrcommon

/-! ## Session guard of the role handlers -/

namespace rpc

variable {σ S R B : Type}

/-- The shared text of the role handlers keeps the guard, whatever the role
operation is. -/
theorem handle_sessionGuarded (f : Funcs σ S R B) (token : String)
    (op : S → Run σ → RoleData B × Run σ) (s : Run σ) :
    mgrcommon.sessionGuarded f token s (handle f token op s) := by
  unfold mgrcommon.sessionGuarded handle
  constructor
  · intro errs h
    simp [h]
  · intro sess err h hu
    simp [h, hu, http.StatusInternalServerError]

/-- C22: `CreateRole`, `GetRole`, `GetAllRoles` and `UpdateRole` keep the session
guard.  When the session check of the request's token fails, neither
`UpdateLastUsedTimeFunc` nor the role operation is invoked, the response
carries the status code and message of the authentication error, and the RPC
error is nil.  When the check succeeds and `UpdateLastUsedTimeFunc` fails, the
role operation is not invoked and the response status is 500 with the
InternalError message. -/
theorem role_handlers_sessionGuarded (f : Funcs σ S R B) (req : Request R) (s : Run σ) :
    mgrcommon.sessionGuarded f req.SessionToken s (CreateRole f req s)
    ∧ mgrcommon.sessionGuarded f req.SessionToken s (GetRole f req s)
    ∧ mgrcommon.sessionGuarded f req.SessionToken s (GetAllRoles f req s)
    ∧ mgrcommon.sessionGuarded f req.SessionToken s (UpdateRole f req s) :=
  ⟨handle_sessionGuarded f req.SessionToken _ s, handle_sessionGuarded f req.SessionToken _ s,
   handle_sessionGuarded f req.SessionToken _ s, handle_sessionGuarded f req.SessionToken _ s⟩

/-- Witness of C22: `CreateRole` with an expired token returns status 401 after
the session check alone; `UpdateRole` with a token whose last used time cannot
be updated returns status 500 after the check and the update alone. -/
theorem role_handlers_sessionGuarded_witness :
    (scenario.roleFuncs.CheckSessionTimeOutFunc "expired" ()).1
        = .error { message := "session expired", StatusCode := 401,
                   StatusMessage := "NoValidSession" }
    ∧ (CreateRole scenario.roleFuncs ⟨"expired", ()⟩ ⟨(), []⟩).2.invoked
        = [.CheckSessionTimeOutFunc "expired"]
    ∧ (CreateRole scenario.roleFuncs ⟨"expired", ()⟩ ⟨(), []⟩).1.1.StatusCode = 401
    ∧ (UpdateRole scenario.roleFuncs ⟨"locked", ()⟩ ⟨(), []⟩).2.invoked
        = [.CheckSessionTimeOutFunc "locked", .UpdateLastUsedTimeFunc "locked"]
    ∧ (UpdateRole scenario.roleFuncs ⟨"locked", ()⟩ ⟨(), []⟩).1.1.StatusCode = 500 :=
  ⟨rfl,
   ((role_handlers_sessionGuarded scenario.roleFuncs ⟨"expired", ()⟩ ⟨(), []⟩).1.1
      { message := "session expired", StatusCode := 401, StatusMessage := "NoValidSession" }
      rfl).1,
   ((role_handlers_sessionGuarded scenario.roleFuncs ⟨"expired", ()⟩ ⟨(), []⟩).1.1
      { message := "session expired", StatusCode := 401, StatusMessage := "NoValidSession" }
      rfl).2.1,
   ((role_handlers_sessionGuarded scenario.roleFuncs ⟨"locked", ()⟩ ⟨(), []⟩).2.2.2.2
      "locked" "store is down" rfl rfl).1,
   ((role_handlers_sessionGuarded scenario.roleFuncs ⟨"locked", ()⟩ ⟨(), []⟩).2.2.2.2
      "locked" "store is down" rfl rfl).2.1⟩

end rpc

/-! ## The device-local id of a manager id -/

namespace strings

theorem cut_dot_of_no_dot (l : List Char) (h : '.' ∉ l) : cut ['.'] l = none := by
  induction l with
  | nil => rfl
  | cons c cs ih =>
    have hc : c ≠ '.' := fun e => h (by simp [e])
    have hcs : '.' ∉ cs := fun m => h (List.mem_cons_of_mem c m)
    have hp : ['.'].isPrefixOf (c :: cs) = false := by
      simp [List.isPrefixOf, hc.symm]
    simp only [cut, hp, ih hcs]
    rfl

/-- A text without a dot is split into one element, so it has no element at
index 1. -/
theorem SplitN_dot_of_no_dot (s : String) (h : '.' ∉ s.data) :
    SplitN s "." = [s] ∧ (SplitN s ".")[1]? = none := by
  have h1 : SplitN s "." = [s] := by
    unfold SplitN
    have hd : (".": String).data = ['.'] := rfl
    rw [hd, cut_dot_of_no_dot s.data h]
  exact ⟨h1, by rw [h1]; rfl⟩

end strings

namespace managers

variable {σ B : Type}

/-- For a manager id without a dot the handlers that index the split id at 1
panic: `GetRemoteAccountService` and `DeleteRemoteAccountService` always, the
three others once their payload check has let the request through. -/
theorem handlers_panic_of_no_dot (e : Device σ B) (req : ManagerRequest) (w : σ)
    (h : '.' ∉ req.ManagerID.data) :
    GetRemoteAccountService e req w = none
    ∧ DeleteRemoteAccountService e req w = none
    ∧ (¬ strings.Contains req.URL "VirtualMedia.InsertMedia" → VirtualMediaActions e req w = none)
    ∧ (∀ body, e.checkCreateAccount req = .ok body → CreateRemoteAccountService e req w = none)
    ∧ (∀ body, e.checkUpdateAccount req = .ok body →
        UpdateRemoteAccountService e req w = none) := by
  have hs := (strings.SplitN_dot_of_no_dot req.ManagerID h).1
  refine ⟨?_, ?_, ?_, ?_, ?_⟩
  · unfold GetRemoteAccountService
    simp [hs]
  · unfold DeleteRemoteAccountService
    simp [hs]
  · intro hc
    unfold VirtualMediaActions
    simp [hs, hc]
  · intro body hb
    unfold CreateRemoteAccountService
    simp [hs, hb]
  · intro body hb
    unfold UpdateRemoteAccountService
    simp [hs, hb]

/-- C27 at a manager id without a dot: `strings.SplitN("a1b2c3", ".", 2)` has one
element.  `GetRemoteAccountService`, `DeleteRemoteAccountService` and
`VirtualMediaActions` on an eject request, which have no payload check, panic on
the element at index 1.  `VirtualMediaActions` on an insert request,
`CreateRemoteAccountService` and `UpdateRemoteAccountService` return the response
of their payload check when it rejects the body, as it does with status 400 for
the empty body, and panic on the element at index 1 when it lets the body
through, whatever the device interface and the body.  A manager id with a dot
is served. -/
theorem handlers_panic_on_plugin_manager :
    strings.SplitN scenario.pluginManagerRequest.ManagerID "." = ["a1b2c3"]
    ∧ GetRemoteAccountService scenario.deviceHandlers scenario.pluginManagerRequest () = none
    ∧ DeleteRemoteAccountService scenario.deviceHandlers scenario.pluginManagerRequest () = none
    ∧ VirtualMediaActions scenario.deviceHandlers scenario.ejectMediaRequest () = none
    ∧ (∀ (e : Device Unit String) (body : String),
        VirtualMediaActions e { scenario.insertMediaRequest with RequestBody := body } ()
          = mgrcommon.rejectedOrPanic
              (e.checkVirtualMediaInsert { scenario.insertMediaRequest with RequestBody := body })
              ())
    ∧ (∀ (e : Device Unit String) (body : String),
        CreateRemoteAccountService e { scenario.pluginManagerRequest with RequestBody := body } ()
          = mgrcommon.rejectedOrPanic
              (e.checkCreateAccount { scenario.pluginManagerRequest with RequestBody := body })
              ())
    ∧ (∀ (e : Device Unit String) (body : String),
        UpdateRemoteAccountService e { scenario.pluginManagerRequest with RequestBody := body } ()
          = mgrcommon.rejectedOrPanic
              (e.checkUpdateAccount { scenario.pluginManagerRequest with RequestBody := body })
              ())
    ∧ (CreateRemoteAccountService scenario.deviceHandlers scenario.pluginManagerRequest ()).map
        (fun r => r.1.StatusCode) = some 400
    ∧ (UpdateRemoteAccountService scenario.deviceHandlers scenario.pluginManagerRequest ()).map
        (fun r => r.1.StatusCode) = some 400
    ∧ strings.SplitN scenario.deviceManagerRequest.ManagerID "." = ["uuid-1", "1"]
    ∧ (DeleteRemoteAccountService scenario.deviceHandlers scenario.deviceManagerRequest
        ()).isSome = true := by
  have hs : strings.SplitN "a1b2c3" "." = ["a1b2c3"] := by decide
  have hin : strings.Contains scenario.insertMediaRequest.URL "VirtualMedia.InsertMedia" := by
    decide
  have hout : ¬ strings.Contains scenario.ejectMediaRequest.URL "VirtualMedia.InsertMedia" := by
    set_option maxRecDepth 8000 in decide
  refine ⟨by decide, rfl, rfl,
    (handlers_panic_of_no_dot scenario.deviceHandlers scenario.ejectMediaRequest ()
      (by decide)).2.2.1 hout,
    ?_, ?_, ?_, by decide, by decide, by decide, by decide⟩
  · intro e body
    have hc : strings.Contains
        ({ scenario.insertMediaRequest with RequestBody := body } : ManagerRequest).URL
        "VirtualMedia.InsertMedia" := hin
    have hm : ({ scenario.insertMediaRequest with RequestBody := body } : ManagerRequest).ManagerID
        = "a1b2c3" := rfl
    unfold VirtualMediaActions mgrcommon.rejectedOrPanic
    rw [if_pos hc, hm, hs]
    cases e.checkVirtualMediaInsert { scenario.insertMediaRequest with RequestBody := body } <;>
      rfl
  · intro e body
    have hm : ({ scenario.pluginManagerRequest with RequestBody := body } : ManagerRequest).ManagerID
        = "a1b2c3" := rfl
    unfold CreateRemoteAccountService mgrcommon.rejectedOrPanic
    rw [hm, hs]
    cases e.checkCreateAccount { scenario.pluginManagerRequest with RequestBody := body } <;>
      rfl
  · intro e body
    have hm : ({ scenario.pluginManagerRequest with RequestBody := body } : ManagerRequest).ManagerID
        = "a1b2c3" := rfl
    unfold UpdateRemoteAccountService mgrcommon.rejectedOrPanic
    rw [hm, hs]
    cases e.checkUpdateAccount { scenario.pluginManagerRequest with RequestBody := body } <;>
      rfl

end managers

/-! ## Replacement at a known place -/

namespace strings

/-- A match at the head of the text is replaced, and the scan goes on behind
it. -/
theorem replaceFrom_head (old new t : List Char) (hne : old ≠ []) :
    replaceFrom old new 0 (old ++ t) = new ++ replaceFrom old new 0 t := by
  cases old with
  | nil => exact absurd rfl hne
  | cons o os =>
    have hp : (o :: os).isPrefixOf (o :: (os ++ t)) = true :=
      List.isPrefixOf_iff_prefix.mpr ⟨t, by simp⟩
    have hstep : replaceFrom (o :: os) new 0 (o :: (os ++ t))
        = new ++ replaceFrom (o :: os) new ((o :: os).length - 1) (os ++ t) := by
      simp only [replaceFrom, hp, if_true]
    have hlen : (o :: os).length - 1 = os.length := by simp
    show replaceFrom (o :: os) new 0 (o :: (os ++ t)) = _
    rw [hstep, hlen, replaceFrom_skip, List.drop_left]

/-- Characters other than the first character of `old` are copied. -/
theorem replaceFrom_copy (o : Char) (os new : List Char) :
    ∀ (a l : List Char), o ∉ a →
      replaceFrom (o :: os) new 0 (a ++ l) = a ++ replaceFrom (o :: os) new 0 l := by
  intro a
  induction a with
  | nil => intro l _; rfl
  | cons c cs ih =>
    intro l h
    have hc : o ≠ c := fun e => h (by simp [e])
    have hcs : o ∉ cs := fun m => h (List.mem_cons_of_mem c m)
    have hp : (o :: os).isPrefixOf (c :: (cs ++ l)) = false := by
      simp [List.isPrefixOf, hc]
    have hstep : replaceFrom (o :: os) new 0 (c :: (cs ++ l))
        = c :: replaceFrom (o :: os) new 0 (cs ++ l) := by
      simp only [replaceFrom, hp]
      simp
    show replaceFrom (o :: os) new 0 (c :: (cs ++ l)) = c :: (cs ++ _)
    rw [hstep, ih l hcs]

/-- A prefix of `s ++ v` agrees with `s` as far as both reach. -/
theorem zip_all_of_prefix :
    ∀ (p s v : List Char), p <+: s ++ v → (p.zip s).all (fun x => x.1 == x.2) = true := by
  intro p
  induction p with
  | nil => intro s v _; rfl
  | cons x p ih =>
    intro s v h
    cases s with
    | nil => rfl
    | cons y s =>
      rw [List.cons_append, List.cons_prefix_cons] at h
      simp only [List.zip_cons_cons, List.all_cons, h.1, beq_self_eq_true, Bool.true_and]
      exact ih s v h.2

/-- When `p` fits at no place of `a` and does not occur in `v`, it does not occur
in `a ++ v`. -/
theorem not_infix_append (p v : List Char) (hv : ¬ p <:+: v) :
    ∀ a : List Char,
      (∀ i, i < a.length → (p.zip (a.drop i)).all (fun x => x.1 == x.2) = false) →
      ¬ p <:+: a ++ v := by
  intro a
  induction a with
  | nil => intro _; exact hv
  | cons c cs ih =>
    intro h hin
    rw [List.cons_append, List.infix_cons_iff] at hin
    rcases hin with hpre | hin
    · have h0 := h 0 (by simp)
      have h1 := zip_all_of_prefix p (c :: cs) v hpre
      rw [List.drop_zero] at h0
      rw [h0] at h1
      cases h1
    · exact ih (fun i hi => by
        have := h (i + 1) (by simp; omega)
        simpa using this) hin

/-- A text that contains `old` contains every prefix of `old`. -/
theorem not_Contains_of_prefix (t old p : String) (hp : p.data <+: old.data)
    (h : ¬ Contains t p) : ¬ Contains t old := by
  intro hc
  exact h (hp.isInfix.trans hc)

/-- Go `strings.Replace` on a text `a ++ old ++ t` in which the first character
of `old` is not in `a` and `old` does not occur in `t`. -/
theorem Replace_at (a old new t : String) (o : Char) (hne : old ≠ new)
    (hhead : old.data.head? = some o) (ha : o ∉ a.data) (ht : ¬ Contains t old) :
    Replace (a ++ old ++ t) old new = a ++ new ++ t := by
  have hold : old.data ≠ [] := by
    intro h
    rw [h] at hhead
    cases hhead
  unfold Replace
  simp only [hne, hold, if_false]
  apply String.ext
  simp only [String.data_append]
  cases hd : old.data with
  | nil => exact absurd hd hold
  | cons o2 os =>
    rw [hd] at hhead
    simp only [List.head?_cons, Option.some.injEq] at hhead
    subst hhead
    rw [List.append_assoc, replaceFrom_copy o2 os new.data a.data _ ha,
      replaceFrom_head (o2 :: os) new.data t.data (by simp)]
    have hno : ¬ (o2 :: os) <:+: t.data := by
      rw [← hd]
      exact ht
    rw [replaceFrom_of_no_match _ _ _ hno]
    simp

end strings

/-! ## Rewriting of RemoteAccountService URIs -/

namespace managers

/-- C28: for every manager id and every suffix `s` that contains neither
"Managers/" nor "v1/AccountService", with
`uri = "/redfish/v1/Managers/" + id + "/RemoteAccountService" + s`,
`replaceBMCAccReq(uri, id)` is `"/redfish/v1/AccountService" + s`, and
`replaceBMCAccResp` applied to it gives `uri` back.  The manager id may be any
text, so in particular one made of the characters [A-Za-z0-9._-]. -/
theorem replaceBMCAcc_roundtrip (id s : String)
    (hs1 : ¬ strings.Contains s "Managers/")
    (hs2 : ¬ strings.Contains s "v1/AccountService") :
    replaceBMCAccReq ("/redfish/v1/Managers/" ++ id ++ "/RemoteAccountService" ++ s) id
        = "/redfish/v1/AccountService" ++ s
    ∧ replaceBMCAccResp
        (replaceBMCAccReq ("/redfish/v1/Managers/" ++ id ++ "/RemoteAccountService" ++ s) id) id
        = "/redfish/v1/Managers/" ++ id ++ "/RemoteAccountService" ++ s := by
  have huri : "/redfish/v1/Managers/" ++ id ++ "/RemoteAccountService" ++ s
      = "/redfish/v1/" ++ ("Managers/" ++ id ++ "/Remote") ++ ("AccountService" ++ s) := by
    apply String.ext
    simp [String.data_append]
  have hreq : replaceBMCAccReq
      ("/redfish/v1/Managers/" ++ id ++ "/RemoteAccountService" ++ s) id
      = "/redfish/v1/AccountService" ++ s := by
    unfold replaceBMCAccReq
    rw [huri]
    have hne : "Managers/" ++ id ++ "/Remote" ≠ "" := by
      intro h
      have h2 := congrArg (fun x : String => x.data.length) h
      simp [String.data_append] at h2
    have hhead : ("Managers/" ++ id ++ "/Remote").data.head? = some 'M' := by
      simp only [String.data_append, List.append_assoc]
      rfl
    have hpre : ("Managers/" : String).data <+: ("Managers/" ++ id ++ "/Remote").data := by
      simp only [String.data_append, List.append_assoc]
      exact List.prefix_append _ _
    have ht0 : ¬ strings.Contains ("AccountService" ++ s) "Managers/" := by
      unfold strings.Contains
      rw [String.data_append]
      exact strings.not_infix_append _ _ hs1 _ (by decide)
    have ht := strings.not_Contains_of_prefix _ _ _ hpre ht0
    rw [strings.Replace_at "/redfish/v1/" ("Managers/" ++ id ++ "/Remote") ""
      ("AccountService" ++ s) 'M' hne hhead (by decide) ht]
    apply String.ext
    simp [String.data_append]
  refine ⟨hreq, ?_⟩
  rw [hreq]
  unfold replaceBMCAccResp
  have hsplit : "/redfish/v1/AccountService" ++ s = "/redfish/" ++ "v1/AccountService" ++ s := by
    apply String.ext
    simp only [String.data_append]
    rfl
  have hne2 : "v1/AccountService" ≠ "v1/Managers/" ++ id ++ "/RemoteAccountService" := by
    intro h
    have h2 := congrArg (fun x : String => x.data.length) h
    simp [String.data_append] at h2
  rw [hsplit, strings.Replace_at "/redfish/" "v1/AccountService"
    ("v1/Managers/" ++ id ++ "/RemoteAccountService") s 'v' hne2 rfl (by decide) hs2]
  apply String.ext
  simp [String.data_append]

/-- Witness of C28: the manager uuid-1.1 and the suffix "/Accounts/3". -/
theorem replaceBMCAcc_roundtrip_witness :
    ¬ strings.Contains "/Accounts/3" "Managers/"
    ∧ ¬ strings.Contains "/Accounts/3" "v1/AccountService"
    ∧ replaceBMCAccReq "/redfish/v1/Managers/uuid-1.1/RemoteAccountService/Accounts/3" "uuid-1.1"
        = "/redfish/v1/AccountService/Accounts/3"
    ∧ replaceBMCAccResp "/redfish/v1/AccountService/Accounts/3" "uuid-1.1"
        = "/redfish/v1/Managers/uuid-1.1/RemoteAccountService/Accounts/3" :=
  ⟨by decide, by decide,
   (by
     have h := (replaceBMCAcc_roundtrip "uuid-1.1" "/Accounts/3" (by decide) (by decide)).1
     exact (show replaceBMCAccReq
         "/redfish/v1/Managers/uuid-1.1/RemoteAccountService/Accounts/3" "uuid-1.1"
         = replaceBMCAccReq
             ("/redfish/v1/Managers/" ++ "uuid-1.1" ++ "/RemoteAccountService" ++ "/Accounts/3")
             "uuid-1.1" from by decide).trans (h.trans (by decide))),
   by decide⟩

end managers

/-! ## The inbound and the outbound rewrite of a resource URL -/

namespace strings

/-- A text with one colon is split at that colon in one way only. -/
theorem colon_split_unique (l1 r1 l2 r2 : List Char) (hl : ':' ∉ l1) (hr : ':' ∉ r1)
    (h : l1 ++ ':' :: r1 = l2 ++ ':' :: r2) : l2 = l1 := by
  rcases List.append_eq_append_iff.mp h with ⟨a, h1, h2⟩ | ⟨c, h1, h2⟩
  · cases a with
    | nil => simpa using h1
    | cons x a =>
      rw [List.cons_append] at h2
      have h3 := (List.cons.inj h2).2
      exact absurd (by rw [h3]; simp) hr
  · cases c with
    | nil => simpa using h1.symm
    | cons x c =>
      rw [List.cons_append] at h2
      have h3 := (List.cons.inj h2).1
      exact absurd (by rw [h1, ← h3]; simp) hl

/-- A text with a slash and without a colon does not begin a text `U ++ ":" ++ T`
whose part `U` has no slash. -/
theorem not_prefix_of_slash (T : List Char) :
    ∀ (U p : List Char), '/' ∉ U → ':' ∉ p → '/' ∈ p → ¬ p <+: U ++ ':' :: T := by
  intro U
  induction U with
  | nil =>
    intro p _ hc hs hp
    cases p with
    | nil => simp at hs
    | cons x p =>
      rw [List.nil_append, List.cons_prefix_cons] at hp
      exact hc (by rw [hp.1]; simp)
  | cons u U ih =>
    intro p hU hc hs hp
    cases p with
    | nil => simp at hs
    | cons x p =>
      rw [List.cons_append, List.cons_prefix_cons] at hp
      rcases List.mem_cons.mp hs with h | h
      · exact hU (by rw [← hp.1, ← h]; simp)
      · exact ih p (fun m => hU (List.mem_cons_of_mem u m))
          (fun m => hc (List.mem_cons_of_mem x m)) h hp.2

/-- A text that begins with a slash and occurs in `U ++ ":" ++ T`, where `U` has
no slash, occurs in `T`. -/
theorem infix_after_colon (p T : List Char) :
    ∀ U : List Char, '/' ∉ U → '/' :: p <:+: U ++ ':' :: T → '/' :: p <:+: T := by
  intro U
  induction U with
  | nil =>
    intro _ h
    rw [List.nil_append, List.infix_cons_iff] at h
    rcases h with h | h
    · rw [List.cons_prefix_cons] at h
      exact absurd h.1 (by decide)
    · exact h
  | cons u U ih =>
    intro hU h
    rw [List.cons_append, List.infix_cons_iff] at h
    rcases h with h | h
    · rw [List.cons_prefix_cons] at h
      exact absurd (by rw [← h.1]; simp) hU
    · exact ih (fun m => hU (List.mem_cons_of_mem u m)) h

/-- The text "/redfish/v1/" does not occur in `"/" ++ U ++ ":" ++ T` when `U` has no
slash and the text does not occur in `T`. -/
theorem not_Contains_after_insert (U T : String) (hU : '/' ∉ U.data)
    (hT : ¬ Contains T "/redfish/v1/") :
    ¬ Contains ("/" ++ U ++ ":" ++ T) "/redfish/v1/" := by
  unfold Contains at hT ⊢
  have e : ("/" ++ U ++ ":" ++ T).data = '/' :: (U.data ++ ':' :: T.data) := by
    simp [String.data_append]
  have h3 : ("/redfish/v1/" : String).data = '/' :: ("redfish/v1/" : String).data := rfl
  rw [e, h3]
  rw [h3] at hT
  intro h
  rw [List.infix_cons_iff] at h
  rcases h with h | h
  · rw [List.cons_prefix_cons] at h
    exact not_prefix_of_slash T.data U.data _ hU (by decide) (by decide) h.2
  · exact hT (infix_after_colon _ T.data U.data hU h)

/-- Go `strings.Replace` of the one composite id `U ++ ":" ++ id` of a text with one
colon by `id`. -/
theorem Replace_composite (pre U id rest : String) (hpre : ':' ∉ pre.data)
    (hU : ':' ∉ U.data) (hid : ':' ∉ id.data) (hrest : ':' ∉ rest.data) :
    Replace (pre ++ U ++ ":" ++ id ++ rest) (U ++ ":" ++ id) id = pre ++ id ++ rest := by
  have hne : U ++ ":" ++ id ≠ id := by
    intro h
    have h2 := congrArg (fun x : String => x.data.length) h
    simp [String.data_append] at h2
    omega
  have hold : (U ++ ":" ++ id).data ≠ [] := by
    simp [String.data_append]
  have hs : pre ++ U ++ ":" ++ id ++ rest = pre ++ (U ++ ":" ++ id) ++ rest := by
    apply String.ext
    simp [String.data_append]
  apply Replace_unique _ _ _ pre rest hne hold hs
  intro a b hab
  have hd := congrArg String.data hab
  have hd2 : (pre.data ++ U.data) ++ ':' :: (id.data ++ rest.data)
      = (a.data ++ U.data) ++ ':' :: (id.data ++ b.data) := by
    simpa [String.data_append] using hd
  have h1 := colon_split_unique (pre.data ++ U.data) (id.data ++ rest.data)
    (a.data ++ U.data) (id.data ++ b.data)
    (by simp [hpre, hU]) (by simp [hid, hrest]) hd2
  exact String.ext (List.append_cancel_right h1)

/-- Go `strings.Replace` of a pattern that begins with a slash, at the beginning of
a text: `U ++ ":"` is inserted after the pattern. -/
theorem Replace_insert (P U T : String) (hhead : P.data.head? = some '/')
    (hT : ¬ Contains T P) :
    Replace (P ++ T) P (P ++ U ++ ":") = P ++ U ++ ":" ++ T := by
  have hne : P ≠ P ++ U ++ ":" := by
    intro h
    have h2 := congrArg (fun x : String => x.data.length) h
    simp [String.data_append] at h2
  have h := Replace_at "" P (P ++ U ++ ":") T '/' hne hhead (by simp) hT
  simpa using h

/-- Go `strings.Replace` of a pattern that begins with "/redfish/v1/" keeps a text
`Cp ++ v` when the pattern fits at no place of `Cp` and "/redfish/v1/" does not
occur in `v`. -/
theorem Replace_keep (P Cp v new : String)
    (hpre : ("/redfish/v1/" : String).data <+: P.data)
    (hover : ∀ i, i < Cp.data.length →
      (P.data.zip (Cp.data.drop i)).all (fun x => x.1 == x.2) = false)
    (hv : ¬ Contains v "/redfish/v1/") :
    Replace (Cp ++ v) P new = Cp ++ v := by
  apply Replace_of_not_Contains
  have hv2 : ¬ Contains v P := not_Contains_of_prefix _ _ _ hpre hv
  unfold Contains at hv2 ⊢
  rw [String.data_append]
  exact not_infix_append _ _ hv2 _ hover

end strings

namespace mgrcommon

/-- A text of letters, digits and '-' has no slash. -/
theorem idText_no_slash (s : String) (h : idText s) : '/' ∉ s.data := by
  intro hm
  have h2 := List.all_eq_true.mp h '/' hm
  exact absurd h2 (by decide)

/-- A text of letters, digits and '-' has no colon. -/
theorem idText_no_colon (s : String) (h : idText s) : ':' ∉ s.data := by
  intro hm
  have h2 := List.all_eq_true.mp h ':' hm
  exact absurd h2 (by decide)

end mgrcommon

namespace mgrcommon

/-- C21 as stated is refuted: the manager id "redfish" with the suffix
"/v1/Systems/x" meets every condition of the claim (UUID "u1" and id "redfish" are
non-empty and made of letters and digits, the suffix contains neither ':' nor
"/redfish/v1/"), the inbound rewrite gives "/redfish/v1/Managers/redfish/v1/Systems/x",
and the outbound insertion puts the UUID in twice, which is not the URL. -/
theorem insertUUID_straddle :
    idText scenario.straddleRequest.UUID ∧ idText scenario.straddleRequest.SystemID
    ∧ scenario.straddleRequest.UUID ≠ "" ∧ scenario.straddleRequest.SystemID ≠ ""
    ∧ ':' ∉ ("/v1/Systems/x" : String).data
    ∧ ¬ strings.Contains "/v1/Systems/x" "/redfish/v1/"
    ∧ scenario.straddleRequest.URL
        = "/redfish/v1/" ++ "Managers" ++ "/" ++ scenario.straddleRequest.UUID ++ ":"
            ++ scenario.straddleRequest.SystemID ++ "/v1/Systems/x"
    ∧ resourceOID scenario.straddleRequest = "/redfish/v1/Managers/redfish/v1/Systems/x"
    ∧ insertUUID (resourceOID scenario.straddleRequest) scenario.straddleRequest.UUID
        = "/redfish/v1/Managers/u1:redfish/v1/Systems/u1:x"
    ∧ insertUUID (resourceOID scenario.straddleRequest) scenario.straddleRequest.UUID
        ≠ scenario.straddleRequest.URL := by
  refine ⟨by decide, by decide, by decide, by decide, by decide, by decide, by decide,
    by decide, by decide, by decide⟩

/-- C21, amended: for C in {Systems, Managers, Chassis}, every UUID and system id
made of letters, digits and '-', and every suffix `rest` that contains no ':' and is
such that "/" + id + rest does not contain "/redfish/v1/" (so `rest` does not contain
it, and it does not arise from the id "redfish" followed by "/v1/"), with
`URL = "/redfish/v1/" + C + "/" + UUID + ":" + id + rest`, the outbound UUID insertion
of `GetResourceInfoFromDevice` applied to the inbound-rewritten URL gives back URL. -/
theorem insertUUID_resourceOID {σ : Type} (req : ResourceInfoRequest σ) (C rest : String)
    (hC : C = "Systems" ∨ C = "Managers" ∨ C = "Chassis")
    (hU : idText req.UUID) (hid : idText req.SystemID)
    (hcolon : ':' ∉ rest.data)
    (hroot : ¬ strings.Contains ("/" ++ req.SystemID ++ rest) "/redfish/v1/")
    (hURL : req.URL
      = "/redfish/v1/" ++ C ++ "/" ++ req.UUID ++ ":" ++ req.SystemID ++ rest) :
    insertUUID (resourceOID req) req.UUID = req.URL := by
  have hUs := idText_no_slash _ hU
  have hUc := idText_no_colon _ hU
  have hic := idText_no_colon _ hid
  have hv0 : ¬ strings.Contains ("/" ++ (req.SystemID ++ rest)) "/redfish/v1/" := by
    rw [← String.append_assoc]
    exact hroot
  have hT : ¬ strings.Contains (req.SystemID ++ rest) "/redfish/v1/" := by
    intro h
    apply hv0
    unfold strings.Contains at h ⊢
    rw [String.data_append]
    exact h.trans (List.suffix_append _ _).isInfix
  have hv1 := strings.not_Contains_after_insert req.UUID (req.SystemID ++ rest) hUs hT
  rcases hC with rfl | rfl | rfl
  · have hin : resourceOID req = "/redfish/v1/Systems/" ++ (req.SystemID ++ rest) := by
      unfold resourceOID
      rw [hURL, strings.Replace_composite ("/redfish/v1/" ++ "Systems" ++ "/") req.UUID
        req.SystemID rest (by decide) hUc hic hcolon]
      apply String.ext
      simp [String.data_append]
    have hY : "/redfish/v1/Systems/" ++ req.UUID ++ ":" ++ (req.SystemID ++ rest)
        = "/redfish/v1/Systems" ++ ("/" ++ req.UUID ++ ":" ++ (req.SystemID ++ rest)) := by
      apply String.ext
      simp [String.data_append]
    simp only [insertUUID]
    rw [hin, strings.Replace_insert "/redfish/v1/Systems/" req.UUID _ rfl
        (strings.not_Contains_of_prefix _ _ _ (by decide) hT),
      hY,
      strings.Replace_keep "/redfish/v1/systems/" "/redfish/v1/Systems" _ _
        (by decide) (by decide) hv1,
      strings.Replace_keep "/redfish/v1/Managers/" "/redfish/v1/Systems" _ _
        (by decide) (by decide) hv1,
      strings.Replace_keep "/redfish/v1/Chassis/" "/redfish/v1/Systems" _ _
        (by decide) (by decide) hv1,
      hURL]
    apply String.ext
    simp [String.data_append]
  · have hin : resourceOID req = "/redfish/v1/Managers" ++ ("/" ++ (req.SystemID ++ rest)) := by
      unfold resourceOID
      rw [hURL, strings.Replace_composite ("/redfish/v1/" ++ "Managers" ++ "/") req.UUID
        req.SystemID rest (by decide) hUc hic hcolon]
      apply String.ext
      simp [String.data_append]
    have hX : "/redfish/v1/Managers" ++ ("/" ++ (req.SystemID ++ rest))
        = "/redfish/v1/Managers/" ++ (req.SystemID ++ rest) := by
      apply String.ext
      simp [String.data_append]
    have hY : "/redfish/v1/Managers/" ++ req.UUID ++ ":" ++ (req.SystemID ++ rest)
        = "/redfish/v1/Managers" ++ ("/" ++ req.UUID ++ ":" ++ (req.SystemID ++ rest)) := by
      apply String.ext
      simp [String.data_append]
    simp only [insertUUID]
    rw [hin,
      strings.Replace_keep "/redfish/v1/Systems/" "/redfish/v1/Managers" _ _
        (by decide) (by decide) hv0,
      strings.Replace_keep "/redfish/v1/systems/" "/redfish/v1/Managers" _ _
        (by decide) (by decide) hv0,
      hX, strings.Replace_insert "/redfish/v1/Managers/" req.UUID _ rfl
        (strings.not_Contains_of_prefix _ _ _ (by decide) hT),
      hY,
      strings.Replace_keep "/redfish/v1/Chassis/" "/redfish/v1/Managers" _ _
        (by decide) (by decide) hv1,
      hURL]
    apply String.ext
    simp [String.data_append]
  · have hin : resourceOID req = "/redfish/v1/Chassis" ++ ("/" ++ (req.SystemID ++ rest)) := by
      unfold resourceOID
      rw [hURL, strings.Replace_composite ("/redfish/v1/" ++ "Chassis" ++ "/") req.UUID
        req.SystemID rest (by decide) hUc hic hcolon]
      apply String.ext
      simp [String.data_append]
    have hX : "/redfish/v1/Chassis" ++ ("/" ++ (req.SystemID ++ rest))
        = "/redfish/v1/Chassis/" ++ (req.SystemID ++ rest) := by
      apply String.ext
      simp [String.data_append]
    simp only [insertUUID]
    rw [hin,
      strings.Replace_keep "/redfish/v1/Systems/" "/redfish/v1/Chassis" _ _
        (by decide) (by decide) hv0,
      strings.Replace_keep "/redfish/v1/systems/" "/redfish/v1/Chassis" _ _
        (by decide) (by decide) hv0,
      strings.Replace_keep "/redfish/v1/Managers/" "/redfish/v1/Chassis" _ _
        (by decide) (by decide) hv0,
      hX, strings.Replace_insert "/redfish/v1/Chassis/" req.UUID _ rfl
        (strings.not_Contains_of_prefix _ _ _ (by decide) hT),
      hURL]
    apply String.ext
    simp [String.data_append]

/-- Witness of C21, amended: the BIOS settings of the system 1 of the device uuid-1. -/
theorem insertUUID_resourceOID_witness :
    ("Systems" = "Systems" ∨ "Systems" = "Managers" ∨ "Systems" = "Chassis")
    ∧ idText scenario.biosRequest.UUID ∧ idText scenario.biosRequest.SystemID
    ∧ ':' ∉ ("/Bios/Settings" : String).data
    ∧ ¬ strings.Contains ("/" ++ scenario.biosRequest.SystemID ++ "/Bios/Settings") "/redfish/v1/"
    ∧ scenario.biosRequest.URL
        = "/redfish/v1/" ++ "Systems" ++ "/" ++ scenario.biosRequest.UUID ++ ":"
            ++ scenario.biosRequest.SystemID ++ "/Bios/Settings"
    ∧ resourceOID scenario.biosRequest = "/redfish/v1/Systems/1/Bios/Settings"
    ∧ insertUUID (resourceOID scenario.biosRequest) scenario.biosRequest.UUID
        = scenario.biosRequest.URL :=
  ⟨by decide, by decide, by decide, by decide, by decide, by decide, by decide,
   insertUUID_resourceOID scenario.biosRequest "Systems" "/Bios/Settings"
     (by decide) (by decide) (by decide) (by decide) (by decide) (by decide)⟩

end mgrcommon
